import Mathlib

/-!
# ESP8266 datalogger: backlog ring, timestamps, resolver cache and publisher

Shallow embedding of `main/spiffs_manager.c`, of the timestamp selection of
`main/measurement.c`, of the resolver cache of `main/dns_manager.c` and of the
throttle, the pending-publish table and the publish loop of
`main/mqtt_manager.c` (with the types of `main/types.h` and the constants of
`main/config.h`), and the properties proved about them.

Conventions of the embedding.

* `uint32_t` values are natural numbers; every C operation that can wrap is
  written with an explicit `% U32`. `int` and `time_t` values are integers.
* `MAX_MEASUREMENTS_BUFFER` is `CONFIG_MAX_MEASUREMENTS_BUFFER` of `sdkconfig.h`,
  which is not part of the sources: it is the parameter `N` of every operation.
* The record file is modelled at record granularity: slot `i` is the
  `sizeof(measurement_data_t)` bytes at offset `i * sizeof(measurement_data_t)`.
  `none` is an absent file.
* What the C library, NVS, the broker client and the RTOS answer (does `fopen`
  succeed, was the mutex obtained, the message id of a publish, the tick
  counter, `time(NULL)`) is an input of each call: `IoEnv`, `NvsEnv`,
  `PublishEnv`, `HandlerEnv`, `TaskEnv`.
* FreeRTOS macros that the sources use and do not define (`portTICK_PERIOD_MS`,
  `pdMS_TO_TICKS`) enter through their values, as fields of the environment.
-/

namespace Datalogger

/-- Two to the power 32: the modulus of `uint32_t`. -/
def U32 : Nat := 4294967296

/-- Unsigned 32-bit addition. -/
def u32_add (a b : Nat) : Nat := (a + b) % U32

/-- Unsigned 32-bit subtraction. -/
def u32_sub (a b : Nat) : Nat := (a % U32 + U32 - b % U32) % U32

/-- Unsigned 32-bit multiplication. -/
def u32_mul (a b : Nat) : Nat := (a * b) % U32

/-- The `esp_err_t` codes that `spiffs_manager.c` and `dns_manager.c` return
or test. -/
inductive esp_err_t where
  | ESP_OK
  | ESP_FAIL
  | ESP_ERR_NO_MEM
  | ESP_ERR_INVALID_ARG
  | ESP_ERR_INVALID_STATE
  | ESP_ERR_NOT_FOUND
  | ESP_ERR_TIMEOUT
  | ESP_ERR_NVS_NOT_FOUND
  | ESP_ERR_NVS_INVALID_LENGTH
  deriving DecidableEq, Repr

/-- The record `measurement_data_t` of `types.h`. The two `float` fields are
kept as their 32-bit patterns: the backlog only copies them. -/
structure measurement_data_t where
  timestamp : Nat
  sensor_id : List Nat
  mac_address : List Nat
  temperature : Nat
  humidity : Nat
  retry_count : Nat
  measurement_id : Nat
  deriving DecidableEq, Repr

/-- The record `spiffs_ring_index_t` of `types.h`. -/
structure spiffs_ring_index_t where
  head : Nat
  tail : Nat
  count : Nat
  total_written : Nat
  deriving DecidableEq, Repr

/-- Content of `INDEX_FILE`: no file, a file shorter than one index record, or
a file that starts with an index record. -/
inductive IndexFile where
  | absent
  | truncated
  | record (idx : spiffs_ring_index_t)
  deriving DecidableEq, Repr

/-- The globals and files that `spiffs_manager.c` reads and writes. -/
structure SpiffsState where
  ring_idx : spiffs_ring_index_t
  spiffs_initialized : Bool
  time_synced : Bool
  measurements_file : Option (List measurement_data_t)
  index_file : IndexFile
  deriving DecidableEq, Repr

/-- What the environment answers during one call.
`rec_fopen_ok`: the first `fopen` of the record file (`"r+b"` or `"rb"`) meets
no error other than a missing file; `rec_fopen_wb_ok`: the fallback
`fopen(.., "wb")` succeeds; `idx_*`: the same for the index file, on the load
path (`rb`, `fread`) and on the save path (`wb`, `fwrite`). -/
structure IoEnv where
  mutex_taken : Bool
  rec_fopen_ok : Bool
  rec_fopen_wb_ok : Bool
  rec_fseek_ok : Bool
  rec_fread_ok : Bool
  rec_fwrite_ok : Bool
  idx_fopen_rb_ok : Bool
  idx_fread_ok : Bool
  idx_fopen_wb_ok : Bool
  idx_fwrite_ok : Bool
  tick_count : Nat
  portTICK_PERIOD_MS : Nat
  now : Int
  deriving DecidableEq, Repr

/-- The index after `memset(&ring_idx, 0, sizeof(spiffs_ring_index_t))`. -/
def zero_index : spiffs_ring_index_t := ⟨0, 0, 0, 0⟩

/-- A record of zero bytes: what a hole of the record file reads as. -/
def zero_measurement : measurement_data_t :=
  ⟨0, List.replicate 16 0, List.replicate 6 0, 0, 0, 0, 0⟩

/-- Result of `fopen(MEASUREMENTS_FILE, "r+b")` followed, when it returns NULL,
by `fopen(MEASUREMENTS_FILE, "wb")`: the content of the opened file, `none`
when both fail. Mode `"wb"` creates the file empty. -/
def fopen_rw_or_create (env : IoEnv) (file : Option (List measurement_data_t)) :
    Option (List measurement_data_t) :=
  match (if env.rec_fopen_ok then file else none) with
  | some f => some f
  | none => if env.rec_fopen_wb_ok then some [] else none

/-- Result of `fopen(MEASUREMENTS_FILE, "rb")`. -/
def fopen_rb (env : IoEnv) (file : Option (List measurement_data_t)) :
    Option (List measurement_data_t) :=
  if env.rec_fopen_ok then file else none

/-- One record written at slot `slot` after a successful `fseek`: inside the
file it replaces the slot, past the end the gap is filled with zero bytes. -/
def fwrite_at (f : List measurement_data_t) (slot : Nat) (m : measurement_data_t) :
    List measurement_data_t :=
  if slot < f.length then f.set slot m
  else f ++ List.replicate (slot - f.length) zero_measurement ++ [m]

/-- One record read at slot `slot` after a successful `fseek`: `none` when
`fread` does not return 1 (an error, or the slot is past the end of file). -/
def fread_at (env : IoEnv) (f : List measurement_data_t) (slot : Nat) :
    Option measurement_data_t :=
  if env.rec_fread_ok then f[slot]? else none

/-- The function `save_spiffs_index`: rewrite the index file from `ring_idx`. -/
def save_spiffs_index (env : IoEnv) (s : SpiffsState) : esp_err_t × SpiffsState :=
  if !env.idx_fopen_wb_ok then (.ESP_FAIL, s)
  else if env.idx_fwrite_ok then (.ESP_OK, { s with index_file := .record s.ring_idx })
  else (.ESP_FAIL, { s with index_file := .truncated })

/-- The function `load_spiffs_index`. -/
def load_spiffs_index (N : Nat) (env : IoEnv) (s : SpiffsState) : esp_err_t × SpiffsState :=
  match (if env.idx_fopen_rb_ok then s.index_file else .absent) with
  | .absent => save_spiffs_index env { s with ring_idx := zero_index }
  | .truncated => save_spiffs_index env { s with ring_idx := zero_index }
  | .record idx =>
    if !env.idx_fread_ok || decide (idx.count > N) then
      save_spiffs_index env { s with ring_idx := zero_index }
    else (.ESP_OK, { s with ring_idx := idx })

/-- The value `(xTaskGetTickCount() * portTICK_PERIOD_MS) / 1000U`. -/
def uptime_seconds (env : IoEnv) : Nat :=
  u32_mul env.tick_count env.portTICK_PERIOD_MS / 1000

/-- The cast `(uint32_t)now` of a `time_t`. -/
def time_to_u32 (now : Int) : Nat := (now % 4294967296).toNat

/-- The timestamp that `spiffs_store_measurement` writes for a record whose
timestamp is `ts` (lines 116-137 of `spiffs_manager.c`). -/
def store_timestamp (time_synced : Bool) (uptime_s now32 ts : Nat) : Nat :=
  if ts ≠ 0 ∧ time_synced = true then
    if ts ≤ u32_add uptime_s 60 then
      u32_sub now32 (u32_sub uptime_s ts)
    else if ts > u32_mul uptime_s 1000 ∧ ts / 1000 ≤ uptime_s then
      u32_sub now32 (u32_sub uptime_s (ts / 1000))
    else ts
  else ts

/-- The local copy `local` that `spiffs_store_measurement` writes. -/
def store_record (time_synced : Bool) (env : IoEnv) (m : measurement_data_t) :
    measurement_data_t :=
  { m with timestamp :=
      store_timestamp time_synced (uptime_seconds env) (time_to_u32 env.now) m.timestamp }

/-- The index update of `spiffs_store_measurement` (lines 150-157). -/
def store_advance (N : Nat) (idx : spiffs_ring_index_t) : spiffs_ring_index_t :=
  let head := u32_add idx.head 1 % N
  let total_written := u32_add idx.total_written 1
  if idx.count < N then
    { head := head, tail := idx.tail, count := u32_add idx.count 1,
      total_written := total_written }
  else
    { head := head, tail := u32_add idx.tail 1 % N, count := idx.count,
      total_written := total_written }

/-- The function `spiffs_store_measurement`; `measurement = none` is the NULL
pointer. -/
def spiffs_store_measurement (N : Nat) (env : IoEnv)
    (measurement : Option measurement_data_t) (s : SpiffsState) : esp_err_t × SpiffsState :=
  match measurement with
  | none => (.ESP_ERR_INVALID_ARG, s)
  | some m =>
    if !s.spiffs_initialized then (.ESP_ERR_INVALID_ARG, s)
    else if !env.mutex_taken then (.ESP_ERR_TIMEOUT, s)
    else
      match fopen_rw_or_create env s.measurements_file with
      | none => (.ESP_FAIL, s)
      | some f =>
        if !env.rec_fseek_ok then (.ESP_FAIL, { s with measurements_file := some f })
        else if !env.rec_fwrite_ok then (.ESP_FAIL, { s with measurements_file := some f })
        else
          save_spiffs_index env
            { s with
              measurements_file := some (fwrite_at f s.ring_idx.head (store_record s.time_synced env m))
              ring_idx := store_advance N s.ring_idx }

/-- The index update of a removal (lines 250-251 and 348-349). -/
def remove_advance (N : Nat) (idx : spiffs_ring_index_t) : spiffs_ring_index_t :=
  { idx with tail := u32_add idx.tail 1 % N, count := u32_sub idx.count 1 }

/-- The function `spiffs_get_next_measurement`: read the record at `tail`
without removing it. `out_nonnull = false` is the NULL pointer; the second
component is the record copied to the caller. -/
def spiffs_get_next_measurement (env : IoEnv) (out_nonnull : Bool) (s : SpiffsState) :
    esp_err_t × Option measurement_data_t :=
  if !s.spiffs_initialized || !out_nonnull then (.ESP_ERR_INVALID_ARG, none)
  else if !env.mutex_taken then (.ESP_ERR_TIMEOUT, none)
  else if s.ring_idx.count = 0 then (.ESP_ERR_NOT_FOUND, none)
  else
    match fopen_rb env s.measurements_file with
    | none => (.ESP_FAIL, none)
    | some f =>
      if !env.rec_fseek_ok then (.ESP_FAIL, none)
      else
        match fread_at env f s.ring_idx.tail with
        | none => (.ESP_FAIL, none)
        | some r => (.ESP_OK, some r)

/-- The function `spiffs_get_and_remove_next_measurement`. `out_nonnull = false`
is the NULL pointer; the second component is the record copied to the caller. -/
def spiffs_get_and_remove_next_measurement (N : Nat) (env : IoEnv) (out_nonnull : Bool)
    (s : SpiffsState) : esp_err_t × Option measurement_data_t × SpiffsState :=
  if !s.spiffs_initialized || !out_nonnull then (.ESP_ERR_INVALID_ARG, none, s)
  else if !env.mutex_taken then (.ESP_ERR_TIMEOUT, none, s)
  else if s.ring_idx.count = 0 then (.ESP_ERR_NOT_FOUND, none, s)
  else
    match fopen_rb env s.measurements_file with
    | none => (.ESP_FAIL, none, s)
    | some f =>
      if !env.rec_fseek_ok then (.ESP_FAIL, none, s)
      else
        match fread_at env f s.ring_idx.tail with
        | none => (.ESP_FAIL, none, s)
        | some r =>
          (.ESP_OK, some r,
            (save_spiffs_index env { s with ring_idx := remove_advance N s.ring_idx }).2)

/-- The index update of `spiffs_rollback_measurement` (lines 298-299). -/
def rollback_retreat (N : Nat) (idx : spiffs_ring_index_t) : spiffs_ring_index_t :=
  { idx with tail := u32_add (u32_sub idx.tail 1) N % N, count := u32_add idx.count 1 }

/-- The function `spiffs_rollback_measurement`; `measurement = none` is the
NULL pointer. -/
def spiffs_rollback_measurement (N : Nat) (env : IoEnv)
    (measurement : Option measurement_data_t) (s : SpiffsState) : esp_err_t × SpiffsState :=
  match measurement with
  | none => (.ESP_ERR_INVALID_ARG, s)
  | some m =>
    if !s.spiffs_initialized then (.ESP_ERR_INVALID_ARG, s)
    else if !env.mutex_taken then (.ESP_ERR_TIMEOUT, s)
    else if s.ring_idx.count ≥ N then (.ESP_ERR_NO_MEM, s)
    else
      match fopen_rw_or_create env s.measurements_file with
      | none => (.ESP_FAIL, s)
      | some f =>
        let idx := rollback_retreat N s.ring_idx
        if !env.rec_fseek_ok then
          (.ESP_FAIL, { s with measurements_file := some f, ring_idx := idx })
        else if !env.rec_fwrite_ok then
          (.ESP_FAIL, { s with measurements_file := some f, ring_idx := idx })
        else
          match save_spiffs_index env
              { s with measurements_file := some (fwrite_at f idx.tail m), ring_idx := idx } with
          | (.ESP_OK, s') => (.ESP_OK, s')
          | (_, s') => (.ESP_FAIL, s')

/-- The function `spiffs_remove_sent_measurement`. -/
def spiffs_remove_sent_measurement (N : Nat) (env : IoEnv) (s : SpiffsState) :
    esp_err_t × SpiffsState :=
  if !s.spiffs_initialized then (.ESP_ERR_INVALID_STATE, s)
  else if !env.mutex_taken then (.ESP_ERR_TIMEOUT, s)
  else if s.ring_idx.count = 0 then (.ESP_ERR_NOT_FOUND, s)
  else save_spiffs_index env { s with ring_idx := remove_advance N s.ring_idx }

/-- The ring invariant: `tail` is a slot, `count` is at most the capacity and
`head` is `count` slots after `tail`. -/
def RingInv (N : Nat) (idx : spiffs_ring_index_t) : Prop :=
  idx.tail < N ∧ idx.count ≤ N ∧ idx.head = (idx.tail + idx.count) % N

instance (N : Nat) (idx : spiffs_ring_index_t) : Decidable (RingInv N idx) := by
  unfold RingInv; infer_instance

/-- Every call on the record file made during one operation succeeds: the
mutex is obtained, `fopen` fails only on a missing file (and then creates it),
`fseek`, `fread` and `fwrite` succeed. The index file is left free. -/
def io_ok (env : IoEnv) : Prop :=
  env.mutex_taken = true ∧ env.rec_fopen_ok = true ∧ env.rec_fopen_wb_ok = true ∧
  env.rec_fseek_ok = true ∧ env.rec_fread_ok = true ∧ env.rec_fwrite_ok = true

instance (env : IoEnv) : Decidable (io_ok env) := by
  unfold io_ok; infer_instance

/-- The records `xs` are, in this order, at the slots `t, t+1, ...` (modulo
`N`) of the record file `f`. -/
def Window (N : Nat) (f : List measurement_data_t) (t : Nat)
    (xs : List measurement_data_t) : Prop :=
  ∀ i, i < xs.length → f[(t + i) % N]? = xs[i]?

/-- The ring of state `s` is in use and holds the records `xs`, oldest first:
the module is initialised, the index satisfies the ring invariant, `count` is
the number of records and they are at the slots from `tail` on. -/
def Ready (N : Nat) (s : SpiffsState) (xs : List measurement_data_t) : Prop :=
  s.spiffs_initialized = true ∧ RingInv N s.ring_idx ∧ xs.length = s.ring_idx.count ∧
  Window N (s.measurements_file.getD []) s.ring_idx.tail xs

/-- A caller that stores the records of `stores` one after the other, each
call with its own environment. -/
def store_all (N : Nat) : List (IoEnv × measurement_data_t) → SpiffsState → SpiffsState
  | [], s => s
  | (env, m) :: rest, s => store_all N rest (spiffs_store_measurement N env (some m) s).2

/-- A caller that calls `spiffs_get_and_remove_next_measurement` once per
environment of the list and collects what each call returns. -/
def get_all (N : Nat) :
    List IoEnv → SpiffsState → List (esp_err_t × Option measurement_data_t) × SpiffsState
  | [], s => ([], s)
  | env :: rest, s =>
    let r := spiffs_get_and_remove_next_measurement N env true s
    let rs := get_all N rest r.2.2
    ((r.1, r.2.1) :: rs.1, rs.2)

/-- An environment in which every call succeeds, 10 s after boot (1000 ticks
of 10 ms) at epoch 1700000600. -/
def sample_env : IoEnv :=
  { mutex_taken := true, rec_fopen_ok := true, rec_fopen_wb_ok := true, rec_fseek_ok := true,
    rec_fread_ok := true, rec_fwrite_ok := true, idx_fopen_rb_ok := true, idx_fread_ok := true,
    idx_fopen_wb_ok := true, idx_fwrite_ok := true, tick_count := 1000,
    portTICK_PERIOD_MS := 10, now := 1700000600 }

/-- A measurement with identifier `id`, stamped with wall-clock time. -/
def sample_measurement (id : Nat) : measurement_data_t :=
  { timestamp := 1700000000 + id, sensor_id := [68, 72, 84, 50, 50] ++ List.replicate 11 0,
    mac_address := [92, 207, 127, 1, 2, 3], temperature := 1102263091,
    humidity := 1113325568, retry_count := 0, measurement_id := id }

/-- An initialised module with the given index and record file, time synced. -/
def sample_state (idx : spiffs_ring_index_t) (file : Option (List measurement_data_t)) :
    SpiffsState :=
  { ring_idx := idx, spiffs_initialized := true, time_synced := true,
    measurements_file := file, index_file := .record idx }

/-- The state at boot, before `spiffs_init`, with the given files on flash. -/
def boot_state (index_file : IndexFile) (file : Option (List measurement_data_t)) :
    SpiffsState :=
  { ring_idx := zero_index, spiffs_initialized := false, time_synced := false,
    measurements_file := file, index_file := index_file }

/-- The largest value of a C `int`: `MAX_MEASUREMENTS_BUFFER` is an `int`
constant. -/
def INT_MAX : Nat := 2147483647

/-! ## The sampler: timestamp of a new measurement (`main/measurement.c`) -/

/-- The timestamp `ts` that one tick of `measurement_task` gives to the new
measurement (lines 36-79, with `USE_LOCAL_TIMESTAMP` 0 as in `config.h`):
`current_time` is `time(NULL)`, `tick_count` is `xTaskGetTickCount()`. -/
def measurement_task_timestamp (time_synced : Bool) (current_time : Int)
    (tick_count portTICK_PERIOD_MS : Nat) : Nat :=
  let time_is_sane := decide (current_time > 1704067200 ∧ current_time < 1893456000)
  if time_synced && time_is_sane then time_to_u32 current_time
  else u32_mul tick_count portTICK_PERIOD_MS / 1000

/-! ## The resolver cache (`main/dns_manager.c`) -/

/-- The NVS namespace `dns_cache`: the keys `broker_ip` and `broker_ip_ts`,
`none` when the key is not stored. -/
structure DnsNvs where
  broker_ip : Option (List Char)
  broker_ip_ts : Option Nat
  deriving DecidableEq, Repr

/-- The persisted cache and the global string `mqtt_broker_ip`. -/
structure DnsState where
  nvs : DnsNvs
  mqtt_broker_ip : List Char
  deriving DecidableEq, Repr

/-- What the NVS library and the clock answer during one call: for each NVS
call the code it returns when the stored data allow success (`ESP_OK` when the
call meets no fault), and `time(NULL)`. -/
structure NvsEnv where
  nvs_open_readonly : esp_err_t
  nvs_get_str : esp_err_t
  nvs_get_u32 : esp_err_t
  nvs_open_readwrite : esp_err_t
  nvs_commit : esp_err_t
  now : Int
  deriving DecidableEq, Repr

/-- The size `sizeof(mqtt_broker_ip)` of the global buffer (`globals.h`). -/
def MQTT_BROKER_IP_SIZE : Nat := 16

/-- The default of `DNS_CACHE_TTL_SECONDS` in `config.h`, used when
`CONFIG_DNS_CACHE_TTL_SECONDS` is not defined. -/
def DNS_CACHE_TTL_SECONDS_DEFAULT : Nat := 86400

/-- The call `nvs_get_str(handle, key, mqtt_broker_ip, &required)` with
`required = sizeof(mqtt_broker_ip)`: the code returned and, on success, the
string copied to the buffer. -/
def nvs_get_str (env : NvsEnv) (stored : Option (List Char)) : esp_err_t × Option (List Char) :=
  if env.nvs_get_str ≠ .ESP_OK then (env.nvs_get_str, none)
  else
    match stored with
    | none => (.ESP_ERR_NVS_NOT_FOUND, none)
    | some ip =>
      if ip.length + 1 ≤ MQTT_BROKER_IP_SIZE then (.ESP_OK, some ip)
      else (.ESP_ERR_NVS_INVALID_LENGTH, none)

/-- The call `nvs_get_u32(handle, key, &saved_ts)` with `saved_ts` initialised
to 0: the code returned and the value of `saved_ts` afterwards. -/
def nvs_get_u32 (env : NvsEnv) (stored : Option Nat) : esp_err_t × Nat :=
  if env.nvs_get_u32 ≠ .ESP_OK then (env.nvs_get_u32, 0)
  else
    match stored with
    | none => (.ESP_ERR_NVS_NOT_FOUND, 0)
    | some v => (.ESP_OK, v)

/-- The function `dns_clear_cached_broker_ip`: erase both keys. -/
def dns_clear_cached_broker_ip (env : NvsEnv) (st : DnsState) : esp_err_t × DnsState :=
  if env.nvs_open_readwrite ≠ .ESP_OK then (env.nvs_open_readwrite, st)
  else (env.nvs_commit, { st with nvs := { broker_ip := none, broker_ip_ts := none } })

/-- The function `dns_load_cached_broker_ip`; `ttl` is `DNS_CACHE_TTL_SECONDS`. -/
def dns_load_cached_broker_ip (ttl : Nat) (env : NvsEnv) (st : DnsState) :
    esp_err_t × DnsState :=
  if env.nvs_open_readonly ≠ .ESP_OK then (env.nvs_open_readonly, st)
  else
    match nvs_get_str env st.nvs.broker_ip with
    | (_, some ip) =>
      let st1 := { st with mqtt_broker_ip := ip }
      let r := nvs_get_u32 env st.nvs.broker_ip_ts
      if r.1 ≠ .ESP_OK ∧ r.1 ≠ .ESP_ERR_NVS_NOT_FOUND then (.ESP_OK, st1)
      else if r.2 ≠ 0 then
        if env.now > 100000 then
          if u32_sub (time_to_u32 env.now) r.2 > ttl % U32 then
            (.ESP_ERR_NVS_NOT_FOUND,
              { (dns_clear_cached_broker_ip env st1).2 with mqtt_broker_ip := [] })
          else (.ESP_OK, st1)
        else (.ESP_OK, st1)
      else (.ESP_OK, st1)
    | (err, none) => (err, st)

/-- An NVS environment without faults at the given wall-clock time. -/
def sample_nvs_env (now : Int) : NvsEnv :=
  { nvs_open_readonly := .ESP_OK, nvs_get_str := .ESP_OK, nvs_get_u32 := .ESP_OK,
    nvs_open_readwrite := .ESP_OK, nvs_commit := .ESP_OK, now := now }

/-- A resolver state whose persisted entry is `203.0.113.10` saved at
`saved_at` (`none`: no timestamp key), with the global string empty. -/
def sample_dns_state (saved_at : Option Nat) : DnsState :=
  { nvs := { broker_ip := some "203.0.113.10".toList, broker_ip_ts := saved_at },
    mqtt_broker_ip := [] }

/-! ## The publisher and the broker session (`main/mqtt_manager.c`) -/

/-- The constant `MQTT_BATCH_SIZE` of `config.h`. -/
def MQTT_BATCH_SIZE : Nat := 3

/-- The constant `MQTT_BATCH_DELAY_MS` of `config.h`. -/
def MQTT_BATCH_DELAY_MS : Nat := 2000

/-- The constant `MAX_PENDING_MSGS` of `config.h`. -/
def MAX_PENDING_MSGS : Nat := 10

/-- The constant `MQTT_HEARTBEAT_INTERVAL` of `config.h`. -/
def MQTT_HEARTBEAT_INTERVAL : Nat := 10

/-- The record `mqtt_pending_t` of `types.h`. -/
structure mqtt_pending_t where
  msg_id : Int
  measurement : measurement_data_t
  is_stored : Bool
  deriving DecidableEq, Repr

/-- The enumeration `system_state_t` of `types.h`. -/
inductive system_state_t where
  | SYSTEM_INIT
  | WIFI_CONNECTING
  | WIFI_CONNECTED
  | NTP_SYNCING
  | NTP_SYNCED
  | MQTT_CONNECTING
  | MQTT_CONNECTED
  | SYSTEM_READY
  | SYSTEM_ERROR
  deriving DecidableEq, Repr

/-- The globals of the broker session: `mqtt_client` is whether the handle is
not NULL, `mqtt_pending_msgs` is the array of `MAX_PENDING_MSGS` entries,
`mqtt_consec_failures` the static counter of `mqtt_event_handler`,
`mqtt_connected_bit` and `process_backlog_bit` the two bits of
`system_event_group`. -/
structure MqttState where
  mqtt_client : Bool
  mqtt_messages_sent : Nat
  mqtt_batch_count : Nat
  last_batch_time : Nat
  mqtt_publish_attempts : Nat
  mqtt_pending_msgs : List mqtt_pending_t
  mqtt_pending_count : Int
  last_mqtt_activity_time : Nat
  mqtt_consec_failures : Int
  mqtt_connected_bit : Bool
  process_backlog_bit : Bool
  current_state : system_state_t
  deriving DecidableEq, Repr

/-- An array entry of zero bytes. -/
def zero_pending : mqtt_pending_t :=
  { msg_id := 0, measurement := zero_measurement, is_stored := false }

/-- The pending-publish table: the first `mqtt_pending_count` entries of the
array. -/
def pending_table (st : MqttState) : List mqtt_pending_t :=
  st.mqtt_pending_msgs.take st.mqtt_pending_count.toNat

/-- The function `mqtt_throttle_reset_batch`; `tick` is what its
`xTaskGetTickCount()` returns. -/
def mqtt_throttle_reset_batch (tick : Nat) (st : MqttState) : MqttState :=
  { st with mqtt_batch_count := 0, last_batch_time := tick }

/-- The function `mqtt_throttle_check`. `batch_delay_ticks` is the value of
`pdMS_TO_TICKS(MQTT_BATCH_DELAY_MS)`, a FreeRTOS macro that the sources do not
define; `current_time` is the tick read by the function and `reset_tick` the
tick read by `mqtt_throttle_reset_batch` when it is called. -/
def mqtt_throttle_check (batch_delay_ticks current_time reset_tick : Nat) (st : MqttState) :
    Bool × MqttState :=
  if st.mqtt_batch_count = 0 then (true, st)
  else if st.mqtt_batch_count ≥ MQTT_BATCH_SIZE then
    if u32_sub current_time st.last_batch_time ≥ batch_delay_ticks then
      (true, mqtt_throttle_reset_batch reset_tick st)
    else (false, st)
  else if st.mqtt_batch_count < MQTT_BATCH_SIZE then (true, st)
  else (false, st)

/-- The inner loop of the `MQTT_EVENT_PUBLISHED` case,
`for (j = i; j < mqtt_pending_count - 1; j++) msgs[j] = msgs[j+1]`, started at
`j` with at most `fuel` iterations. -/
def pending_shift_left (count : Int) :
    Nat → Nat → List mqtt_pending_t → List mqtt_pending_t
  | 0, _, msgs => msgs
  | fuel + 1, j, msgs =>
    if (j : Int) < count - 1 then
      pending_shift_left count fuel (j + 1) (msgs.set j (msgs.getD (j + 1) zero_pending))
    else msgs

/-- The outer loop of the `MQTT_EVENT_PUBLISHED` case,
`for (i = 0; i < mqtt_pending_count; i++)`, started at `i` with at most `fuel`
iterations: the first entry whose `msg_id` is the acknowledged one is counted
and removed, and the loop is left. -/
def published_scan (event_msg_id : Int) : Nat → Nat → MqttState → MqttState
  | 0, _, st => st
  | fuel + 1, i, st =>
    if (i : Int) < st.mqtt_pending_count then
      if (st.mqtt_pending_msgs.getD i zero_pending).msg_id = event_msg_id then
        { st with
          mqtt_messages_sent := u32_add st.mqtt_messages_sent 1
          mqtt_pending_msgs :=
            pending_shift_left st.mqtt_pending_count st.mqtt_pending_count.toNat i
              st.mqtt_pending_msgs
          mqtt_pending_count := st.mqtt_pending_count - 1 }
      else published_scan event_msg_id fuel (i + 1) st
    else st

/-- The events that `mqtt_event_handler` distinguishes. -/
inductive mqtt_event where
  | MQTT_EVENT_CONNECTED
  | MQTT_EVENT_DISCONNECTED
  | MQTT_EVENT_PUBLISHED (msg_id : Int)
  | MQTT_EVENT_ERROR
  | MQTT_EVENT_DATA
  | MQTT_EVENT_OTHER
  deriving DecidableEq, Repr

/-- What the environment answers during one run of `mqtt_event_handler`: the
NVS calls of `dns_clear_cached_broker_ip` and the two tick readings of the
`MQTT_EVENT_CONNECTED` case. -/
structure HandlerEnv where
  nvs : NvsEnv
  reset_tick : Nat
  activity_tick : Nat
  deriving DecidableEq, Repr

/-- The failure accounting shared by the `MQTT_EVENT_DISCONNECTED` and
`MQTT_EVENT_ERROR` cases: count the failure and, at
`MQTT_CLEAR_CACHE_THRESHOLD` (3), clear the resolver cache and restart the
count. -/
def count_failure (env : HandlerEnv) (st : MqttState) (dns : DnsState) :
    MqttState × DnsState :=
  let failures := st.mqtt_consec_failures + 1
  if failures ≥ 3 then
    ({ st with mqtt_consec_failures := 0 }, (dns_clear_cached_broker_ip env.nvs dns).2)
  else ({ st with mqtt_consec_failures := failures }, dns)

/-- The function `mqtt_event_handler`. -/
def mqtt_event_handler (env : HandlerEnv) (event : mqtt_event) (st : MqttState)
    (dns : DnsState) : MqttState × DnsState :=
  match event with
  | .MQTT_EVENT_CONNECTED =>
    ({ mqtt_throttle_reset_batch env.reset_tick
        { st with current_state := .MQTT_CONNECTED, mqtt_connected_bit := true,
                  process_backlog_bit := true, mqtt_consec_failures := 0 } with
       last_mqtt_activity_time := env.activity_tick }, dns)
  | .MQTT_EVENT_DISCONNECTED =>
    count_failure env
      { st with mqtt_connected_bit := false, current_state := .MQTT_CONNECTING } dns
  | .MQTT_EVENT_PUBLISHED msg_id =>
    (published_scan msg_id st.mqtt_pending_count.toNat 0 st, dns)
  | .MQTT_EVENT_ERROR => count_failure env st dns
  | .MQTT_EVENT_DATA => (st, dns)
  | .MQTT_EVENT_OTHER => (st, dns)

/-- The block that records a submitted publish,
`if (mqtt_pending_count < MAX_PENDING_MSGS) { ... mqtt_pending_count++; }`
(lines 401-406 and 551-555). -/
def pending_append (entry : mqtt_pending_t) (st : MqttState) : MqttState :=
  if st.mqtt_pending_count < (MAX_PENDING_MSGS : Int) then
    { st with
      mqtt_pending_msgs := st.mqtt_pending_msgs.set st.mqtt_pending_count.toNat entry
      mqtt_pending_count := st.mqtt_pending_count + 1 }
  else st

/-- What the environment answers during one `mqtt_publish_measurement`: was
`mqtt_mutex` obtained, the value returned by `esp_mqtt_client_publish`, the
tick count. -/
structure PublishEnv where
  mqtt_mutex_taken : Bool
  publish_msg_id : Int
  tick : Nat
  deriving DecidableEq, Repr

/-- The function `mqtt_publish_measurement`; `measurement = none` is the NULL
pointer. -/
def mqtt_publish_measurement (env : PublishEnv) (measurement : Option measurement_data_t)
    (st : MqttState) : Bool × MqttState :=
  match measurement with
  | none => (false, st)
  | some m =>
    if !st.mqtt_client then (false, st)
    else if !env.mqtt_mutex_taken then (false, st)
    else if !st.mqtt_client then (false, st)
    else if env.publish_msg_id ≥ 0 then
      (true,
        pending_append { msg_id := env.publish_msg_id, measurement := m, is_stored := false }
          { st with
            mqtt_publish_attempts := u32_add st.mqtt_publish_attempts 1
            last_mqtt_activity_time := env.tick })
    else (false, st)

/-- The locals of `mqtt_publish_task` that live across iterations. -/
structure PublishLocals where
  processing_spiffs : Bool
  failed_publishes : Nat
  stored_sent : Nat
  deriving DecidableEq, Repr

/-- The state that `mqtt_publish_task` works on. -/
structure PublisherState where
  spiffs : SpiffsState
  mqtt : MqttState
  measurement_queue : List measurement_data_t
  locals : PublishLocals
  deriving DecidableEq, Repr

/-- What the environment answers during one iteration of `mqtt_publish_task`,
in the order of the calls: the tick of line 440, the heartbeat, the direct
publish and the store of a fresh measurement, the throttle, the removal from
the ring, the backlog publish with its three tick readings, the rollback, and
the heartbeat and tick of the batch pause. -/
structure TaskEnv where
  now : Nat
  portTICK_PERIOD_MS : Nat
  batch_delay_ticks : Nat
  heartbeat_mutex : Bool
  heartbeat_id : Int
  direct : PublishEnv
  store_io : IoEnv
  throttle_tick : Nat
  throttle_reset_tick : Nat
  get_io : IoEnv
  backlog_mutex : Bool
  backlog_msg_id : Int
  backlog_activity_tick : Nat
  batch_full_tick : Nat
  batch_reset_tick : Nat
  rollback_io : IoEnv
  pause_heartbeat_mutex : Bool
  pause_heartbeat_id : Int
  pause_heartbeat_tick : Nat
  pause_reset_tick : Nat
  deriving DecidableEq, Repr

/-- The block of `mqtt_publish_task` run when the backlog publish returned
`msg_id ≥ 0` (lines 538-560): update the counters, close the batch when it is
full, record the pending entry. -/
def backlog_submitted (env : TaskEnv) (msg_id : Int) (stored_measurement : measurement_data_t)
    (st : MqttState) (locals : PublishLocals) : MqttState × PublishLocals :=
  let st1 := { st with
    mqtt_publish_attempts := u32_add st.mqtt_publish_attempts 1
    mqtt_batch_count := u32_add st.mqtt_batch_count 1
    last_mqtt_activity_time := env.backlog_activity_tick }
  let st2 :=
    if st1.mqtt_batch_count ≥ MQTT_BATCH_SIZE then
      mqtt_throttle_reset_batch env.batch_reset_tick
        { st1 with last_batch_time := env.batch_full_tick }
    else st1
  if st2.mqtt_pending_count < (MAX_PENDING_MSGS : Int) then
    (pending_append { msg_id := msg_id, measurement := stored_measurement, is_stored := true }
        st2,
      { locals with stored_sent := u32_add locals.stored_sent 1 })
  else (st2, locals)

/-- The backlog step of one iteration (lines 496-574), entered with the
throttle consulted: remove the next record from the ring, publish it, and
record it as pending or roll it back. -/
def backlog_step (N : Nat) (env : TaskEnv) (ps : PublisherState) : PublisherState :=
  let t := mqtt_throttle_check env.batch_delay_ticks env.throttle_tick env.throttle_reset_tick
    ps.mqtt
  if t.1 then
    match spiffs_get_and_remove_next_measurement N env.get_io true ps.spiffs with
    | (.ESP_OK, some stored_measurement, spiffs) =>
      let msg_id : Int :=
        if env.backlog_mutex && t.2.mqtt_client then env.backlog_msg_id else -1
      if msg_id ≥ 0 then
        let r := backlog_submitted env msg_id stored_measurement t.2 ps.locals
        { ps with spiffs := spiffs, mqtt := r.1, locals := r.2 }
      else
        { ps with
          spiffs :=
            (spiffs_rollback_measurement N env.rollback_io (some stored_measurement) spiffs).2
          mqtt := t.2 }
    | (_, _, spiffs) =>
      { ps with spiffs := spiffs, mqtt := t.2,
                locals := { ps.locals with processing_spiffs := false } }
  else { ps with mqtt := t.2 }

/-- One iteration of the loop of `mqtt_publish_task` (lines 434-613). The
delays change no variable; the time they take shows in the tick readings of
the environment. -/
def mqtt_publish_task_iteration (N : Nat) (env : TaskEnv) (ps : PublisherState) :
    PublisherState :=
  let mqtt_connected := ps.mqtt.mqtt_connected_bit
  let process_backlog := ps.mqtt.process_backlog_bit
  let seconds_since_activity :=
    u32_mul (u32_sub env.now ps.mqtt.last_mqtt_activity_time) env.portTICK_PERIOD_MS / 1000
  let mqtt0 :=
    if mqtt_connected && decide (seconds_since_activity > MQTT_HEARTBEAT_INTERVAL) &&
        env.heartbeat_mutex && ps.mqtt.mqtt_client && decide (env.heartbeat_id ≥ 0) then
      { ps.mqtt with last_mqtt_activity_time := env.now }
    else ps.mqtt
  match ps.measurement_queue with
  | measurement :: rest =>
    let locals := { ps.locals with processing_spiffs := false }
    if mqtt_connected then
      let r := mqtt_publish_measurement env.direct (some measurement) mqtt0
      if r.1 then
        { spiffs := ps.spiffs, mqtt := r.2, measurement_queue := rest, locals := locals }
      else
        { spiffs := (spiffs_store_measurement N env.store_io (some measurement) ps.spiffs).2,
          mqtt := r.2, measurement_queue := rest,
          locals := { locals with failed_publishes := u32_add locals.failed_publishes 1 } }
    else
      { spiffs := (spiffs_store_measurement N env.store_io (some measurement) ps.spiffs).2,
        mqtt := mqtt0, measurement_queue := rest, locals := locals }
  | [] =>
    let ps1 : PublisherState :=
      { ps with
        mqtt := mqtt0
        locals :=
          if mqtt_connected && decide (ps.spiffs.ring_idx.count > 0) &&
              !ps.locals.processing_spiffs then
            { ps.locals with processing_spiffs := true }
          else ps.locals }
    let ps2 :=
      if ps1.locals.processing_spiffs && mqtt_connected &&
          decide (ps1.spiffs.ring_idx.count > 0) then
        backlog_step N env ps1
      else ps1
    let ps3 : PublisherState :=
      if !mqtt_connected && ps2.locals.processing_spiffs then
        { ps2 with locals := { ps2.locals with processing_spiffs := false } }
      else ps2
    let ps4 : PublisherState :=
      if process_backlog then { ps3 with mqtt := { ps3.mqtt with process_backlog_bit := false } }
      else ps3
    if ps4.locals.processing_spiffs && decide (ps4.mqtt.mqtt_batch_count ≥ MQTT_BATCH_SIZE) then
      let mqtt5 :=
        if mqtt_connected && env.pause_heartbeat_mutex && ps4.mqtt.mqtt_client &&
            decide (env.pause_heartbeat_id ≥ 0) then
          { ps4.mqtt with last_mqtt_activity_time := env.pause_heartbeat_tick }
        else ps4.mqtt
      { ps4 with mqtt := mqtt_throttle_reset_batch env.pause_reset_tick mqtt5 }
    else ps4

/-- The broker session at boot (`globals.c`): every counter 0, the array
zeroed, no client. -/
def boot_mqtt_state : MqttState :=
  { mqtt_client := false, mqtt_messages_sent := 0, mqtt_batch_count := 0,
    last_batch_time := 0, mqtt_publish_attempts := 0,
    mqtt_pending_msgs := List.replicate MAX_PENDING_MSGS zero_pending,
    mqtt_pending_count := 0, last_mqtt_activity_time := 0, mqtt_consec_failures := 0,
    mqtt_connected_bit := false, process_backlog_bit := false,
    current_state := .SYSTEM_INIT }

/-- The pending-publish table is well formed: `mqtt_pending_count` is between
0 and `MAX_PENDING_MSGS` and the array has `MAX_PENDING_MSGS` entries. -/
def PendingInv (st : MqttState) : Prop :=
  0 ≤ st.mqtt_pending_count ∧ st.mqtt_pending_count ≤ (MAX_PENDING_MSGS : Int) ∧
  st.mqtt_pending_msgs.length = MAX_PENDING_MSGS

instance (st : MqttState) : Decidable (PendingInv st) := by
  unfold PendingInv; infer_instance

/-- The state in which the `MQTT_EVENT_PUBLISHED` case leaves `st` when the
entry at index `i` is the acknowledged one. -/
def published_removed (st : MqttState) (i : Nat) : MqttState :=
  { st with
    mqtt_messages_sent := u32_add st.mqtt_messages_sent 1
    mqtt_pending_msgs :=
      pending_shift_left st.mqtt_pending_count st.mqtt_pending_count.toNat i
        st.mqtt_pending_msgs
    mqtt_pending_count := st.mqtt_pending_count - 1 }

/-- A pending entry for the sample measurement `id`. -/
def sample_pending (msg_id : Int) (id : Nat) (is_stored : Bool) : mqtt_pending_t :=
  { msg_id := msg_id, measurement := sample_measurement id, is_stored := is_stored }

/-- A connected broker session with 7 messages acknowledged so far whose
pending table holds `entries`. -/
def sample_mqtt_state (entries : List mqtt_pending_t) : MqttState :=
  { boot_mqtt_state with
    mqtt_client := true, mqtt_connected_bit := true, current_state := .MQTT_CONNECTED,
    mqtt_messages_sent := 7,
    mqtt_pending_msgs :=
      entries ++ List.replicate (MAX_PENDING_MSGS - entries.length) zero_pending,
    mqtt_pending_count := entries.length }

/-- An environment of `mqtt_event_handler` without NVS faults, at tick 1000. -/
def sample_handler_env : HandlerEnv :=
  { nvs := sample_nvs_env 1700000600, reset_tick := 1000, activity_tick := 1000 }

/-- The operations that change the pending-publish table: a direct submission
(`mqtt_publish_measurement`), the block of `mqtt_publish_task` that records a
submitted backlog record, and a broker session event. -/
inductive PendingOp where
  | direct (env : PublishEnv) (measurement : measurement_data_t)
  | backlog (env : TaskEnv) (msg_id : Int) (stored_measurement : measurement_data_t)
      (locals : PublishLocals)
  | event (env : HandlerEnv) (event : mqtt_event)

/-- The effect of one operation on the broker session and the resolver cache. -/
def apply_pending_op (op : PendingOp) (s : MqttState × DnsState) : MqttState × DnsState :=
  match op with
  | .direct env measurement => ((mqtt_publish_measurement env (some measurement) s.1).2, s.2)
  | .backlog env msg_id stored_measurement locals =>
    ((backlog_submitted env msg_id stored_measurement s.1 locals).1, s.2)
  | .event env event => mqtt_event_handler env event s.1 s.2

/-- The iteration environment of a backlog flush at tick `tick` (100 ticks
per second, batch delay 200 ticks): every mutex is obtained, every file call
succeeds and the broker returns `msg_id` for the publish. -/
def flush_env (tick : Nat) (msg_id : Int) : TaskEnv :=
  { now := tick, portTICK_PERIOD_MS := 10, batch_delay_ticks := 200,
    heartbeat_mutex := true, heartbeat_id := 0,
    direct := { mqtt_mutex_taken := true, publish_msg_id := msg_id, tick := tick },
    store_io := sample_env, throttle_tick := tick, throttle_reset_tick := tick,
    get_io := sample_env, backlog_mutex := true, backlog_msg_id := msg_id,
    backlog_activity_tick := tick, batch_full_tick := tick, batch_reset_tick := tick,
    rollback_io := sample_env, pause_heartbeat_mutex := true, pause_heartbeat_id := 0,
    pause_heartbeat_tick := tick + 100, pause_reset_tick := tick + 200 }

/-- A publisher with the broker connected, an empty queue and a backlog of the
five sample measurements 1 to 5 in a ring of capacity 10 (scenario S2). -/
def flush_start : PublisherState :=
  { spiffs := sample_state ⟨5, 0, 5, 5⟩
      (some [sample_measurement 1, sample_measurement 2, sample_measurement 3,
        sample_measurement 4, sample_measurement 5]),
    mqtt := { sample_mqtt_state [] with last_mqtt_activity_time := 900 },
    measurement_queue := [],
    locals := { processing_spiffs := false, failed_publishes := 0, stored_sent := 0 } }

/-- A full pending-publish table: ten unacknowledged direct submissions with
the message ids 1 to 10. -/
def full_table : List mqtt_pending_t :=
  (List.range 10).map (fun i => sample_pending (Int.ofNat (i + 1)) (i + 1) false)

/-! ## The link supervisor (`main/wifi_manager.c`) -/

/-- The locals of `wifi_reconnect_manager_task` that live across iterations. -/
structure ReconnectLocals where
  reconnect_interval : Nat
  failed_attempts : Nat
  deriving DecidableEq, Repr

/-- The constant `max_interval` of `wifi_reconnect_manager_task`. -/
def max_interval : Nat := 300000

/-- The locals as `wifi_reconnect_manager_task` sets them before its loop
(lines 148-150); a restarted device starts the task again from here. -/
def reconnect_start : ReconnectLocals :=
  { reconnect_interval := 5000, failed_attempts := 0 }

/-- What one iteration of `wifi_reconnect_manager_task` did: the locals
afterwards, whether `esp_wifi_connect()` was called, whether `esp_restart()`
was called, and the delay in milliseconds that closes the iteration. -/
structure ReconnectStep where
  locals : ReconnectLocals
  connect_attempted : Bool
  restart : Bool
  delay_ms : Nat
  deriving DecidableEq, Repr

/-- One iteration of the loop of `wifi_reconnect_manager_task` (lines
152-183); `wifi_connected` is the reading of `WIFI_CONNECTED_BIT`. -/
def wifi_reconnect_manager_iteration (wifi_connected : Bool) (l : ReconnectLocals) :
    ReconnectStep :=
  if wifi_connected then
    { locals := { failed_attempts := 0, reconnect_interval := 5000 },
      connect_attempted := false, restart := false, delay_ms := 30000 }
  else
    let failed_attempts := u32_add l.failed_attempts 1
    let reconnect_interval :=
      if failed_attempts % 3 = 0 then
        let doubled := u32_mul l.reconnect_interval 2
        if doubled > max_interval then max_interval else doubled
      else l.reconnect_interval
    if failed_attempts ≥ 20 then
      { locals := { failed_attempts := failed_attempts, reconnect_interval := reconnect_interval },
        connect_attempted := true, restart := true, delay_ms := 2000 }
    else
      { locals := { failed_attempts := failed_attempts, reconnect_interval := reconnect_interval },
        connect_attempted := true, restart := false, delay_ms := reconnect_interval }

/-- The locals with which the next iteration starts: `esp_restart()` does not
return, the device boots and the task starts again. -/
def reconnect_next (r : ReconnectStep) : ReconnectLocals :=
  if r.restart then reconnect_start else r.locals

/-- The locals of `wifi_reconnect_manager_task` after the iterations whose
readings of `WIFI_CONNECTED_BIT` are `readings`, oldest first, starting from
the locals `l`. -/
def reconnect_run : List Bool → ReconnectLocals → ReconnectLocals
  | [], l => l
  | wifi_connected :: rest, l =>
    reconnect_run rest (reconnect_next (wifi_reconnect_manager_iteration wifi_connected l))

/-- The count the restart rule is stated with, told from the readings alone:
the number of reconnect attempts made since the link was last observed
connected or since the device last booted, after the iterations with the given
readings. These are the disconnected readings at the end of the list, counted
anew after every twentieth one (the restart). -/
def attempts_since_connected (readings : List Bool) : Nat :=
  (readings.reverse.takeWhile (fun wifi_connected => !wifi_connected)).length % 20

/-! ## The time client (`main/ntp_manager.c`, `main/time_cache.c`) -/

/-- The constant `NTP_RESYNC_THRESHOLD` of `config.h`. -/
def NTP_RESYNC_THRESHOLD : Int := 86400

/-- The constant `NTP_CACHE_MAX_AGE` of `config.h`. -/
def NTP_CACHE_MAX_AGE : Int := 7200

/-- The position of a state in the enumeration `system_state_t`, which is how
C compares two states. -/
def system_state_t.toNat : system_state_t → Nat
  | .SYSTEM_INIT => 0
  | .WIFI_CONNECTING => 1
  | .WIFI_CONNECTED => 2
  | .NTP_SYNCING => 3
  | .NTP_SYNCED => 4
  | .MQTT_CONNECTING => 5
  | .MQTT_CONNECTED => 6
  | .SYSTEM_READY => 7
  | .SYSTEM_ERROR => 8

/-- The variables the time client works on: the global `time_synced`, the
global `current_state`, the bits `NTP_SYNCED_BIT`, `PROCESS_BACKLOG_BIT` and
`SYSTEM_READY_BIT` of `system_event_group`, the atomic `system_ready`, the
static `sync_count` of `time_sync_notification_cb`, the NVS key `cached_time`
(`none` when not stored), the value last given to `settimeofday` by
`ntp_apply_cached_time`, and the static `last_sync_check` of
`ntp_needs_resync`. -/
structure NtpState where
  time_synced : Bool
  current_state : system_state_t
  ntp_synced_bit : Bool
  process_backlog_bit : Bool
  system_ready_bit : Bool
  system_ready : Bool
  sync_count : Int
  cached_time : Option Nat
  settimeofday : Option Int
  last_sync_check : Int
  deriving DecidableEq, Repr

/-- What the NVS library answers during one call of the time cache: the codes
of `NvsEnv` and the code of `nvs_set_u32`. -/
structure TimeCacheEnv where
  nvs : NvsEnv
  nvs_set_u32 : esp_err_t
  deriving DecidableEq, Repr

/-- The function `time_cache_save`. -/
def time_cache_save (env : TimeCacheEnv) (t : Int) (st : NtpState) : esp_err_t × NtpState :=
  if env.nvs.nvs_open_readwrite ≠ .ESP_OK then (env.nvs.nvs_open_readwrite, st)
  else if env.nvs_set_u32 ≠ .ESP_OK then (env.nvs_set_u32, st)
  else (env.nvs.nvs_commit, { st with cached_time := some (time_to_u32 t) })

/-- The function `time_cache_load` called with the address of a variable that
holds `out`: the code returned and the value of the variable afterwards. -/
def time_cache_load (env : TimeCacheEnv) (out : Int) (st : NtpState) : esp_err_t × Int :=
  if env.nvs.nvs_open_readonly ≠ .ESP_OK then (env.nvs.nvs_open_readonly, out)
  else
    let r := nvs_get_u32 env.nvs st.cached_time
    if r.1 = .ESP_OK then (.ESP_OK, (r.2 : Int)) else (r.1, out)

/-- The function `time_sync_notification_cb`; `tv_sec` is the field of the
`timeval` it is called with. -/
def time_sync_notification_cb (env : TimeCacheEnv) (tv_sec : Int) (st : NtpState) : NtpState :=
  let sync_count := st.sync_count + 1
  let st1 := { st with
    sync_count := sync_count, time_synced := true, current_state := .NTP_SYNCED,
    ntp_synced_bit := true }
  let st2 := if sync_count = 1 then { st1 with process_backlog_bit := true } else st1
  if tv_sec > 100000 then (time_cache_save env tv_sec st2).2 else st2

/-- The function `ntp_apply_cached_time`; `esp_timer_get_time` is the value
that call returns, in microseconds since boot. -/
def ntp_apply_cached_time (env : TimeCacheEnv) (esp_timer_get_time : Nat) (st : NtpState) :
    Bool × NtpState :=
  let r := time_cache_load env 0 st
  if r.1 = .ESP_OK then
    let cached := r.2
    if cached > 100000 then
      let uptime_sec : Int := ((esp_timer_get_time / 1000000 : Nat) : Int)
      let estimated_current := cached + uptime_sec
      if uptime_sec < NTP_CACHE_MAX_AGE then
        (true, { st with
          settimeofday := some estimated_current, time_synced := false,
          ntp_synced_bit := true })
      else (false, st)
    else (false, st)
  else (false, st)

/-- The function `ntp_needs_resync`; `now` is `time(NULL)`. -/
def ntp_needs_resync (now : Int) (st : NtpState) : Bool × NtpState :=
  if st.last_sync_check = 0 then (false, { st with last_sync_check := now })
  else if now - st.last_sync_check > NTP_RESYNC_THRESHOLD then
    (true, { st with last_sync_check := now })
  else (false, st)

/-- The function `ntp_clear_cache`. -/
def ntp_clear_cache (env : TimeCacheEnv) (st : NtpState) : NtpState :=
  (time_cache_save env 0 st).2

/-- The locals of `ntp_sync_task` that live across iterations of its loop. -/
structure SyncLocals where
  elapsed : Nat
  initial_sync_done : Bool
  deriving DecidableEq, Repr

/-- What the environment answers during the part of `ntp_sync_task` that
precedes its loop: the NVS answers of the load and of the clearing, the
microseconds since boot, and `time(NULL)` after the cached time was applied. -/
structure SyncStartEnv where
  load : TimeCacheEnv
  esp_timer_get_time : Nat
  current_time : Int
  clear : TimeCacheEnv
  deriving DecidableEq, Repr

/-- The part of `ntp_sync_task` that precedes its loop (lines 199-225), run
once the link is up: apply the cached time and discard a cache that gives a
date before 2024. -/
def ntp_sync_task_start (env : SyncStartEnv) (st : NtpState) : SyncLocals × NtpState :=
  let r := ntp_apply_cached_time env.load env.esp_timer_get_time st
  let st1 :=
    if r.1 && decide (env.current_time < 1704067200) then ntp_clear_cache env.clear r.2
    else r.2
  ({ elapsed := 0, initial_sync_done := false }, st1)

/-- What the environment answers during one iteration of the loop of
`ntp_sync_task`: the two retry periods and one minute in ticks, the call of
the NTP callback that arrives during the wait for `NTP_SYNCED_BIT` (`none`: no
call arrives), and the clock readings of the passes of the monitoring loop
that are observed. -/
structure SyncEnv where
  short_retry : Nat
  long_retry : Nat
  minute_ticks : Nat
  callback : Option (TimeCacheEnv × Int)
  monitor_checks : List Int
  deriving DecidableEq, Repr

/-- The passes of the monitoring loop `while (time_synced)` of lines 272-298
with the given clock readings: each pass consults `ntp_needs_resync`. -/
def ntp_monitor_passes : List Int → NtpState → NtpState
  | [], st => st
  | now :: rest, st => ntp_monitor_passes rest (ntp_needs_resync now st).2

/-- One iteration of the loop of `ntp_sync_task` (lines 227-303). The wait
for `NTP_SYNCED_BIT` returns at once when the bit is set; otherwise the
callback may run during the wait. -/
def ntp_sync_task_iteration (env : SyncEnv) (l : SyncLocals) (st : NtpState) :
    SyncLocals × NtpState :=
  if !st.time_synced && decide (st.current_state.toNat ≥ system_state_t.WIFI_CONNECTED.toNat) then
    let wait_for := if l.elapsed < env.minute_ticks then env.short_retry else env.long_retry
    let st1 :=
      if st.ntp_synced_bit then st
      else
        match env.callback with
        | some (cache, tv_sec) => time_sync_notification_cb cache tv_sec st
        | none => st
    if st1.ntp_synced_bit then
      ({ l with initial_sync_done := true },
        { st1 with
          time_synced := true, system_ready_bit := true, current_state := .SYSTEM_READY,
          system_ready := true })
    else
      ({ l with elapsed := u32_add l.elapsed wait_for },
        { st1 with current_state := .NTP_SYNCING })
  else if l.initial_sync_done && st.time_synced then
    (l, ntp_monitor_passes env.monitor_checks st)
  else (l, st)

/-- The variables of the time client at boot (`globals.c`), with the given
content of the time cache. -/
def boot_ntp_state (cached_time : Option Nat) : NtpState :=
  { time_synced := false, current_state := .SYSTEM_INIT, ntp_synced_bit := false,
    process_backlog_bit := false, system_ready_bit := false, system_ready := false,
    sync_count := 0, cached_time := cached_time, settimeofday := none, last_sync_check := 0 }

/-- An environment of the time cache without NVS faults. -/
def sample_cache_env : TimeCacheEnv :=
  { nvs := sample_nvs_env 1700000600, nvs_set_u32 := .ESP_OK }

/-- An iteration environment of `ntp_sync_task` with 100 ticks per second in
which no NTP callback arrives. -/
def quiet_sync_env : SyncEnv :=
  { short_retry := 1000, long_retry := 6000, minute_ticks := 6000, callback := none,
    monitor_checks := [] }

/-- What happens to the time client, in order: a drift-monitor check at a
clock reading, or an NTP sync acknowledgement (a call of the callback). -/
inductive NtpEvent where
  | check (now : Int)
  | acknowledgement (tv_sec : Int)
  deriving DecidableEq, Repr

/-- The answers of `ntp_needs_resync` at the checks of a sequence of events,
oldest first, with the state afterwards. -/
def ntp_events (env : TimeCacheEnv) : List NtpEvent → NtpState → List Bool × NtpState
  | [], st => ([], st)
  | .check now :: rest, st =>
    let r := ntp_needs_resync now st
    let rs := ntp_events env rest r.2
    (r.1 :: rs.1, rs.2)
  | .acknowledgement tv_sec :: rest, st =>
    ntp_events env rest (time_sync_notification_cb env tv_sec st)

/-! ## Name resolution before a session is created (`main/dns_manager.c`) -/

/-- Whether the string `s` starts with the string `p`. -/
def starts_with : List Char → List Char → Bool
  | _, [] => true
  | [], _ :: _ => false
  | c :: s, d :: p => c == d && starts_with s p

/-- The C function `strstr`: the rest of `haystack` from the first place where
`needle` occurs, `none` for the NULL pointer. -/
def strstr : List Char → List Char → Option (List Char)
  | [], needle => if starts_with [] needle then some [] else none
  | c :: rest, needle =>
    if starts_with (c :: rest) needle then some (c :: rest) else strstr rest needle

/-- The C function `strchr` for a character other than the terminator: the
rest of `s` from the first `c` on, `none` for the NULL pointer. -/
def strchr : List Char → Char → Option (List Char)
  | [], _ => none
  | d :: rest, c => if d = c then some (d :: rest) else strchr rest c

/-- The size of the local buffer `hostname` of `test_dns_resolution`. -/
def HOSTNAME_SIZE : Nat := 128

/-- The first part of `test_dns_resolution` (lines 49-75): the content of the
buffer `hostname`, or `none` when the function returns `ESP_FAIL` there. -/
def broker_hostname (broker_url : List Char) : Option (List Char) :=
  match strstr broker_url "://".toList with
  | some found =>
    let host_start := found.drop 3
    let hostname_len :=
      match strchr host_start ':' with
      | some port_start => host_start.length - port_start.length
      | none => host_start.length
    if hostname_len < HOSTNAME_SIZE then some (host_start.take hostname_len) else none
  | none => none

/-- What the NVS library and the clock answer during one
`dns_save_cached_broker_ip`. -/
structure DnsSaveEnv where
  nvs_open_readwrite : esp_err_t
  nvs_set_str : esp_err_t
  nvs_set_u32 : esp_err_t
  nvs_commit : esp_err_t
  now : Int
  deriving DecidableEq, Repr

/-- The function `dns_save_cached_broker_ip`; `ip = none` is the NULL pointer. -/
def dns_save_cached_broker_ip (env : DnsSaveEnv) (ip : Option (List Char)) (st : DnsState) :
    esp_err_t × DnsState :=
  match ip with
  | none => (.ESP_ERR_INVALID_ARG, st)
  | some ip =>
    if ip.length = 0 then (.ESP_ERR_INVALID_ARG, st)
    else if env.nvs_open_readwrite ≠ .ESP_OK then (env.nvs_open_readwrite, st)
    else if env.nvs_set_str ≠ .ESP_OK then (env.nvs_set_str, st)
    else
      let st1 := { st with nvs := { st.nvs with broker_ip := some ip } }
      let ts := if env.now > 100000 then time_to_u32 env.now else 0
      if env.nvs_set_u32 ≠ .ESP_OK then (env.nvs_set_u32, st1)
      else (env.nvs_commit, { st1 with nvs := { st1.nvs with broker_ip_ts := some ts } })

/-- What the environment answers during one `test_dns_resolution`: the address
that `gethostbyname` gives with the resolver of the system, printed by
`inet_ntoa` (`none`: NULL), the same for the four fallback servers in the
order they are tried, the NVS answers of the save and of the load, and the
answer of the reachability probe. -/
structure ResolveEnv where
  system_lookup : Option (List Char)
  fallback_lookup_1 : Option (List Char)
  fallback_lookup_2 : Option (List Char)
  fallback_lookup_3 : Option (List Char)
  fallback_lookup_4 : Option (List Char)
  save : DnsSaveEnv
  load : NvsEnv
  reachable : Bool
  deriving DecidableEq, Repr

/-- What `test_dns_resolution` did: the code returned, the resolver state
afterwards, and the names it passed to `gethostbyname`, in order. -/
structure ResolveResult where
  err : esp_err_t
  st : DnsState
  lookups : List (List Char)
  deriving DecidableEq, Repr

/-- The block run when a lookup succeeded: copy the address to
`mqtt_broker_ip` and save it. -/
def resolved (env : ResolveEnv) (ip : List Char) (st : DnsState)
    (lookups : List (List Char)) : ResolveResult :=
  let st1 := { st with mqtt_broker_ip := ip }
  { err := .ESP_OK, st := (dns_save_cached_broker_ip env.save (some st1.mqtt_broker_ip) st1).2,
    lookups := lookups }

/-- The function `test_dns_resolution`; `broker_url` is `MQTT_BROKER` and
`ttl` is `DNS_CACHE_TTL_SECONDS`. -/
def test_dns_resolution (broker_url : List Char) (ttl : Nat) (env : ResolveEnv)
    (st : DnsState) : ResolveResult :=
  match broker_hostname broker_url with
  | none => { err := .ESP_FAIL, st := st, lookups := [] }
  | some hostname =>
    match env.system_lookup with
    | some ip => resolved env ip st [hostname]
    | none =>
      match env.fallback_lookup_1 with
      | some ip => resolved env ip st [hostname, hostname]
      | none =>
        match env.fallback_lookup_2 with
        | some ip => resolved env ip st [hostname, hostname, hostname]
        | none =>
          match env.fallback_lookup_3 with
          | some ip => resolved env ip st [hostname, hostname, hostname, hostname]
          | none =>
            match env.fallback_lookup_4 with
            | some ip => resolved env ip st [hostname, hostname, hostname, hostname, hostname]
            | none =>
              let r := dns_load_cached_broker_ip ttl env.load st
              let lookups := [hostname, hostname, hostname, hostname, hostname]
              if r.1 = .ESP_OK ∧ r.2.mqtt_broker_ip.length > 0 ∧ env.reachable = true then
                { err := .ESP_OK, st := r.2, lookups := lookups }
              else { err := .ESP_FAIL, st := r.2, lookups := lookups }

/-- A resolution environment in which the resolver of the system answers
`203.0.113.10` and no NVS call fails. -/
def sample_resolve_env : ResolveEnv :=
  { system_lookup := some "203.0.113.10".toList, fallback_lookup_1 := none,
    fallback_lookup_2 := none, fallback_lookup_3 := none, fallback_lookup_4 := none,
    save := { nvs_open_readwrite := .ESP_OK, nvs_set_str := .ESP_OK, nvs_set_u32 := .ESP_OK,
              nvs_commit := .ESP_OK, now := 1700000600 },
    load := sample_nvs_env 1700000600, reachable := true }

/-! ## The broker supervisor (`main/mqtt_manager.c`, `mqtt_monitor_task`) -/

/-- The function `safe_stop_mqtt_client`; `mutex_taken` is whether
`mqtt_mutex` exists and one of the five attempts to take it succeeds. -/
def safe_stop_mqtt_client (mutex_taken : Bool) (st : MqttState) : MqttState :=
  if !st.mqtt_client then st
  else if mutex_taken then
    { st with mqtt_connected_bit := false, current_state := .MQTT_CONNECTING }
  else st

/-- What the environment answers during one `mqtt_init`: whether `mqtt_mutex`
is obtained to destroy the previous client, whether `esp_mqtt_client_init`
returns a handle, whether `esp_mqtt_client_start` returns `ESP_OK`, and
whether the stop after a failed start obtains the mutex. -/
structure InitEnv where
  destroy_mutex_taken : Bool
  client_init_ok : Bool
  client_start_ok : Bool
  stop_mutex_taken : Bool
  deriving DecidableEq, Repr

/-- The function `mqtt_init`, as far as the globals of `MqttState` go. -/
def mqtt_init (env : InitEnv) (st : MqttState) : MqttState :=
  if st.mqtt_client && st.mqtt_connected_bit then st
  else
    let st1 :=
      if st.mqtt_client && env.destroy_mutex_taken then { st with mqtt_client := false }
      else st
    if !env.client_init_ok then { st1 with mqtt_client := false }
    else
      let st2 := { st1 with mqtt_client := true }
      if !env.client_start_ok then
        { safe_stop_mqtt_client env.stop_mutex_taken st2 with mqtt_client := false }
      else { st2 with current_state := .MQTT_CONNECTING }

/-- The locals of `mqtt_monitor_task` that live across iterations, with its
three static variables. -/
structure MonitorLocals where
  last_connection_attempt : Nat
  consecutive_failures : Nat
  force_recreate : Bool
  wifi_reconnect_time : Nat
  was_wifi_connected : Bool
  last_publish_count : Nat
  last_activity_check : Nat
  deriving DecidableEq, Repr

/-- The state that `mqtt_monitor_task` works on. -/
structure MonitorState where
  locals : MonitorLocals
  mqtt : MqttState
  dns : DnsState
  deriving DecidableEq, Repr

/-- What the environment answers during one iteration of `mqtt_monitor_task`,
in the order of the calls: the reading of `WIFI_CONNECTED_BIT`, the tick of
line 634, the stop of line 649, the tick of line 658, the tick values of
`pdMS_TO_TICKS(10000)` and `pdMS_TO_TICKS(MQTT_RECONNECT_DELAY_MS)`, the stop
of line 677, the constants `MQTT_BROKER` and `DNS_CACHE_TTL_SECONDS` with the
answers during `test_dns_resolution` and `mqtt_init`, the code returned by
`esp_mqtt_client_reconnect`, the tick of line 734, the tick value of
`pdMS_TO_TICKS(120000)` and the reading of `ring_idx.count`. -/
structure MonitorEnv where
  wifi_connected : Bool
  edge_tick : Nat
  link_down_stop_mutex : Bool
  down_tick : Nat
  stabilization_ticks : Nat
  reconnect_delay_ticks : Nat
  recreate_stop_mutex : Bool
  broker_url : List Char
  ttl : Nat
  resolve : ResolveEnv
  init : InitEnv
  reconnect_err : esp_err_t
  activity_tick : Nat
  activity_check_ticks : Nat
  ring_count : Nat
  deriving DecidableEq, Repr

/-- The block of `mqtt_monitor_task` run with the link up and the broker not
connected (lines 657-722). The first component is whether the block ends with
`continue`. -/
def broker_down_step (env : MonitorEnv) (s : MonitorState) : Bool × MonitorState :=
  let current_time := env.down_tick
  let l := s.locals
  if l.wifi_reconnect_time > 0 ∧
      u32_sub current_time l.wifi_reconnect_time < env.stabilization_ticks then
    (true, s)
  else if u32_sub current_time l.last_connection_attempt > env.reconnect_delay_ticks then
    if decide (l.consecutive_failures ≥ 2) || l.force_recreate then
      let mqtt1 :=
        if s.mqtt.mqtt_client then safe_stop_mqtt_client env.recreate_stop_mutex s.mqtt
        else s.mqtt
      let r := test_dns_resolution env.broker_url env.ttl env.resolve s.dns
      if r.err ≠ .ESP_OK then
        (true,
          { locals := { l with
              consecutive_failures := u32_add l.consecutive_failures 1
              last_connection_attempt := current_time },
            mqtt := mqtt1, dns := r.st })
      else
        (false,
          { locals := { l with
              consecutive_failures := 0, force_recreate := false, wifi_reconnect_time := 0
              last_connection_attempt := current_time },
            mqtt := mqtt_init env.init mqtt1, dns := r.st })
    else if s.mqtt.mqtt_client then
      (false,
        { s with locals := { l with
            consecutive_failures :=
              if env.reconnect_err ≠ .ESP_OK then u32_add l.consecutive_failures 1
              else l.consecutive_failures
            last_connection_attempt := current_time } })
    else
      let r := test_dns_resolution env.broker_url env.ttl env.resolve s.dns
      if r.err = .ESP_OK then
        (false,
          { locals := { l with last_connection_attempt := current_time },
            mqtt := mqtt_init env.init s.mqtt, dns := r.st })
      else
        (false,
          { locals := { l with
              consecutive_failures := u32_add l.consecutive_failures 1
              last_connection_attempt := current_time },
            mqtt := s.mqtt, dns := r.st })
  else (false, s)

/-- The last two blocks of an iteration of `mqtt_monitor_task` (lines
724-758): the reset of the failure count once connected and the activity
check; `mqtt_connected` is the reading of `MQTT_CONNECTED_BIT` made at the
start of the iteration. -/
def activity_check (env : MonitorEnv) (mqtt_connected : Bool) (s : MonitorState) :
    MonitorState :=
  let l1 : MonitorLocals :=
    if mqtt_connected && decide (s.locals.consecutive_failures > 0) then
      { s.locals with consecutive_failures := 0, wifi_reconnect_time := 0 }
    else s.locals
  if mqtt_connected then
    let current_time := env.activity_tick
    if u32_sub current_time l1.last_activity_check > env.activity_check_ticks then
      if s.mqtt.mqtt_messages_sent = l1.last_publish_count ∧ env.ring_count > 0 then
        { s with
          locals := { l1 with
            force_recreate := true, consecutive_failures := 0
            last_activity_check := current_time }
          mqtt := { s.mqtt with mqtt_connected_bit := false } }
      else
        { s with locals := { l1 with
            last_publish_count := s.mqtt.mqtt_messages_sent
            last_activity_check := current_time } }
    else { s with locals := l1 }
  else { s with locals := l1 }

/-- One iteration of the loop of `mqtt_monitor_task` (lines 625-760). The
delays change no variable. -/
def mqtt_monitor_task_iteration (env : MonitorEnv) (s : MonitorState) : MonitorState :=
  let wifi_connected := env.wifi_connected
  let mqtt_connected := s.mqtt.mqtt_connected_bit
  let l1 : MonitorLocals :=
    if wifi_connected && !s.locals.was_wifi_connected then
      { s.locals with
        wifi_reconnect_time := env.edge_tick, force_recreate := true, consecutive_failures := 0 }
    else s.locals
  let l2 : MonitorLocals := { l1 with was_wifi_connected := wifi_connected }
  if !wifi_connected then
    if mqtt_connected || decide (l2.consecutive_failures > 0) then
      { s with
        locals := { l2 with consecutive_failures := 0, force_recreate := true }
        mqtt :=
          if s.mqtt.mqtt_client then safe_stop_mqtt_client env.link_down_stop_mutex s.mqtt
          else s.mqtt }
    else { s with locals := l2 }
  else if wifi_connected && !mqtt_connected then
    let r := broker_down_step env { s with locals := l2 }
    if r.1 then r.2 else activity_check env mqtt_connected r.2
  else activity_check env mqtt_connected { s with locals := l2 }

/-- The locals of `mqtt_monitor_task` as the task and the C runtime set them
before the first iteration. -/
def monitor_start : MonitorLocals :=
  { last_connection_attempt := 0, consecutive_failures := 0, force_recreate := false,
    wifi_reconnect_time := 0, was_wifi_connected := false, last_publish_count := 0,
    last_activity_check := 0 }

/-- An iteration environment of `mqtt_monitor_task` at tick `tick` with 100
ticks per second: the link is up, every mutex is obtained, every call succeeds
and the ring holds `ring_count` records. -/
def sample_monitor_env (tick ring_count : Nat) : MonitorEnv :=
  { wifi_connected := true, edge_tick := tick, link_down_stop_mutex := true,
    down_tick := tick, stabilization_ticks := 1000, reconnect_delay_ticks := 500,
    recreate_stop_mutex := true, broker_url := "mqtt://broker.example.org:1883".toList,
    ttl := DNS_CACHE_TTL_SECONDS_DEFAULT, resolve := sample_resolve_env,
    init := { destroy_mutex_taken := true, client_init_ok := true, client_start_ok := true,
              stop_mutex_taken := true },
    reconnect_err := .ESP_OK, activity_tick := tick, activity_check_ticks := 12000,
    ring_count := ring_count }

/-! ## Sample inputs for the ring buffer under faults and at its bounds -/

instance (N : Nat) (f : List measurement_data_t) (t : Nat) (xs : List measurement_data_t) :
    Decidable (Window N f t xs) := by
  unfold Window; infer_instance

instance (N : Nat) (s : SpiffsState) (xs : List measurement_data_t) :
    Decidable (Ready N s xs) := by
  unfold Ready; infer_instance

/-- The environment `sample_env` 1800000 s (about 20 days and 20 hours) after
boot, 180000000 ticks of 10 ms, with the wall clock at 1750000000. -/
def long_uptime_env : IoEnv :=
  { sample_env with tick_count := 180000000, now := 1750000000 }

/-- A measurement that the sampler stamped with the wall clock 5 s before
1750000000. -/
def recent_measurement : measurement_data_t :=
  { sample_measurement 1 with timestamp := 1749999995 }

/-- A measurement stamped 10500, a milliseconds-since-boot value of the
eleventh second after boot. -/
def millis_measurement : measurement_data_t := { sample_measurement 1 with timestamp := 10500 }

/-- The environment `sample_env` with a failing `fwrite` on the record file. -/
def write_fault_env : IoEnv := { sample_env with rec_fwrite_ok := false }

/-- A ring of capacity 3 that holds the sample measurements 5 and 6, the
older one at slot 2. -/
def two_record_state : SpiffsState :=
  sample_state ⟨1, 2, 2, 9⟩ (some [sample_measurement 6, zero_measurement, sample_measurement 5])

/-- The environment `sample_env` in which `fopen(MEASUREMENTS_FILE, "r+b")`
returns NULL although the record file may exist; the `fopen` with mode `"wb"`
that follows succeeds. -/
def recreate_env : IoEnv := { sample_env with rec_fopen_ok := false }

/-! ## Sequences of broker session events -/

/-- Whether the event is `MQTT_EVENT_DISCONNECTED` or `MQTT_EVENT_ERROR`. -/
def is_failure_event : mqtt_event → Bool
  | .MQTT_EVENT_DISCONNECTED => true
  | .MQTT_EVENT_ERROR => true
  | _ => false

/-- Whether the event is `MQTT_EVENT_CONNECTED`. -/
def is_connected_event : mqtt_event → Bool
  | .MQTT_EVENT_CONNECTED => true
  | _ => false

/-- The broker session and the resolver cache after `mqtt_event_handler` has
handled the given events, each with its environment, oldest first. -/
def handle_events :
    List (HandlerEnv × mqtt_event) → MqttState × DnsState → MqttState × DnsState
  | [], s => s
  | (env, event) :: rest, s => handle_events rest (mqtt_event_handler env event s.1 s.2)

/-- The count the cache-clearing rule is stated with, told from the events
alone: the number of DISCONNECTED or ERROR events since the last CONNECTED
event or the last clear of the cache, after the given events. These are the
failure events that follow the last CONNECTED event, counted anew after every
third one (the clear). -/
def failures_since_reset (events : List mqtt_event) : Nat :=
  ((events.reverse.takeWhile (fun e => !is_connected_event e)).filter
    is_failure_event).length % 3

/-- Two failure events, a disconnect followed by an error, in an environment
without NVS faults. -/
def two_failures : List (HandlerEnv × mqtt_event) :=
  [(sample_handler_env, .MQTT_EVENT_DISCONNECTED), (sample_handler_env, .MQTT_EVENT_ERROR)]

/-! ## The fresh-measurement path of the publisher -/

/-- The heartbeat block that opens an iteration of `mqtt_publish_task` (lines
440-455): the broker session afterwards. -/
def heartbeat (env : TaskEnv) (st : MqttState) : MqttState :=
  let seconds_since_activity :=
    u32_mul (u32_sub env.now st.last_mqtt_activity_time) env.portTICK_PERIOD_MS / 1000
  if st.mqtt_connected_bit && decide (seconds_since_activity > MQTT_HEARTBEAT_INTERVAL) &&
      env.heartbeat_mutex && st.mqtt_client && decide (env.heartbeat_id ≥ 0) then
    { st with last_mqtt_activity_time := env.now }
  else st

/-- A publisher whose broker session is down, with the sample measurement 3
in the queue and a full ring of capacity 2 that holds the sample measurements
1 and 2. -/
def full_ring_publisher : PublisherState :=
  { spiffs := sample_state ⟨0, 0, 2, 2⟩ (some [sample_measurement 1, sample_measurement 2]),
    mqtt := boot_mqtt_state,
    measurement_queue := [sample_measurement 3],
    locals := { processing_spiffs := false, failed_publishes := 0, stored_sent := 0 } }

/-- A publisher whose broker session is down, with the sample measurement 3
in the queue and a ring of capacity 3 that holds the sample measurements 1
and 2. -/
def backlog_publisher : PublisherState :=
  { spiffs := sample_state ⟨2, 0, 2, 2⟩ (some [sample_measurement 1, sample_measurement 2]),
    mqtt := boot_mqtt_state,
    measurement_queue := [sample_measurement 3],
    locals := { processing_spiffs := true, failed_publishes := 0, stored_sent := 0 } }

/-- The iteration environment `flush_env 1000 1` with a failing `fwrite` in
the store of a fresh measurement. -/
def store_fault_task_env : TaskEnv := { flush_env 1000 1 with store_io := write_fault_env }

/-- The iteration environment `flush_env 1000 1` in which the store of a fresh
measurement finds `fopen(MEASUREMENTS_FILE, "r+b")` returning NULL. -/
def recreate_task_env : TaskEnv := { flush_env 1000 1 with store_io := recreate_env }

/-! ## Sample inputs for the time client -/

/-- The time client once the link is up, before `ntp_sync_task` goes on: the
handler of the address event has called `ntp_init`, so `current_state` is
`NTP_SYNCING`; the time cache holds `cached_time`. -/
def link_up_ntp_state (cached_time : Option Nat) : NtpState :=
  { boot_ntp_state cached_time with current_state := .NTP_SYNCING }

/-- The start of `ntp_sync_task` 5 s after boot without NVS faults; the clock
reads `current_time` once the cached time is applied. -/
def sample_sync_start_env (current_time : Int) : SyncStartEnv :=
  { load := sample_cache_env, esp_timer_get_time := 5000000, current_time := current_time,
    clear := sample_cache_env }

/-! ## Sample inputs for the broker supervisor -/

/-- A supervisor whose broker session is connected with 7 messages
acknowledged, whose last activity check was at tick 1000 with the sample
`last_publish_count`; `was_wifi_connected` says whether the previous iteration
saw the link up. -/
def sample_monitor_state (was_wifi_connected : Bool) (last_publish_count : Nat) :
    MonitorState :=
  { locals := { monitor_start with
      was_wifi_connected := was_wifi_connected, last_publish_count := last_publish_count
      last_activity_check := 1000 },
    mqtt := sample_mqtt_state [],
    dns := sample_dns_state none }

/-- The block that opens an iteration of `mqtt_monitor_task` (lines 632-639)
when the link is read up: a rising edge of the link arms `force_recreate`. -/
def link_up_edge (env : MonitorEnv) (l : MonitorLocals) : MonitorLocals :=
  { (if !l.was_wifi_connected then
      { l with
        wifi_reconnect_time := env.edge_tick, force_recreate := true, consecutive_failures := 0 }
    else l) with was_wifi_connected := true }

/-- The publisher of `flush_start` with the pending-publish table full. -/
def full_table_flush : PublisherState :=
  { flush_start with
    mqtt := { sample_mqtt_state full_table with last_mqtt_activity_time := 900 } }

/-! ## Arithmetic of the index updates -/

theorem save_spiffs_index_ring_idx (env : IoEnv) (s : SpiffsState) :
    (save_spiffs_index env s).2.ring_idx = s.ring_idx := by
  unfold save_spiffs_index
  split
  · rfl
  · split <;> rfl

theorem save_spiffs_index_measurements_file (env : IoEnv) (s : SpiffsState) :
    (save_spiffs_index env s).2.measurements_file = s.measurements_file := by
  unfold save_spiffs_index
  split
  · rfl
  · split <;> rfl

theorem u32_add_small (a b : Nat) (h : a + b < 4294967296) : u32_add a b = a + b := by
  unfold u32_add U32
  omega

theorem u32_sub_one (a : Nat) (h0 : 0 < a) (h : a < 4294967296) : u32_sub a 1 = a - 1 := by
  unfold u32_sub U32
  omega

theorem store_advance_inv (N : Nat) (hN : N ≤ INT_MAX)
    (idx : spiffs_ring_index_t) (h : RingInv N idx) : RingInv N (store_advance N idx) := by
  obtain ⟨ht, hc, hh⟩ := h
  have hN' : N ≤ 2147483647 := hN
  have hpos : 0 < N := by omega
  have hlt : idx.head < N := by rw [hh]; exact Nat.mod_lt _ hpos
  have e1 : u32_add idx.head 1 = idx.head + 1 := u32_add_small _ _ (by omega)
  unfold store_advance RingInv
  by_cases hfull : idx.count < N
  · have e2 : u32_add idx.count 1 = idx.count + 1 := u32_add_small _ _ (by omega)
    simp only [hfull, if_true, e1, e2]
    refine ⟨ht, by omega, ?_⟩
    rw [hh, Nat.mod_add_mod]
    rfl
  · have e3 : u32_add idx.tail 1 = idx.tail + 1 := u32_add_small _ _ (by omega)
    have hcN : idx.count = N := by omega
    simp only [hfull, if_false, e1, e3]
    refine ⟨Nat.mod_lt _ hpos, hc, ?_⟩
    have e : idx.tail + N + 1 = idx.tail + 1 + N := by omega
    rw [hh, hcN, Nat.mod_add_mod, Nat.mod_add_mod, e]

theorem remove_advance_inv (N : Nat) (hN : N ≤ INT_MAX)
    (idx : spiffs_ring_index_t) (h : RingInv N idx) (hne : idx.count ≠ 0) :
    RingInv N (remove_advance N idx) := by
  obtain ⟨ht, hc, hh⟩ := h
  have hN' : N ≤ 2147483647 := hN
  have hpos : 0 < N := by omega
  have e1 : u32_add idx.tail 1 = idx.tail + 1 := u32_add_small _ _ (by omega)
  have e2 : u32_sub idx.count 1 = idx.count - 1 := u32_sub_one _ (by omega) (by omega)
  unfold remove_advance RingInv
  simp only [e1, e2]
  refine ⟨Nat.mod_lt _ hpos, by omega, ?_⟩
  have e : idx.tail + 1 + (idx.count - 1) = idx.tail + idx.count := by omega
  rw [hh, Nat.mod_add_mod, e]

theorem rollback_tail (N t : Nat) (hN : N ≤ INT_MAX) (ht : t < N) :
    u32_add (u32_sub t 1) N % N = (t + (N - 1)) % N := by
  have hN' : N ≤ 2147483647 := hN
  unfold u32_add u32_sub U32
  by_cases h0 : t = 0
  · subst h0
    have : (0 % 4294967296 + 4294967296 - 1 % 4294967296) % 4294967296 = 4294967295 := by
      norm_num
    rw [this]
    have e : (4294967295 + N) % 4294967296 = N - 1 := by omega
    rw [e]
    simp
  · have e : ((t % 4294967296 + 4294967296 - 1 % 4294967296) % 4294967296 + N) % 4294967296
        = t + (N - 1) := by omega
    rw [e]

theorem rollback_retreat_inv (N : Nat) (hN : N ≤ INT_MAX)
    (idx : spiffs_ring_index_t) (h : RingInv N idx) (hlt : idx.count < N) :
    RingInv N (rollback_retreat N idx) := by
  obtain ⟨ht, hc, hh⟩ := h
  have hN' : N ≤ 2147483647 := hN
  have hpos : 0 < N := by omega
  have e2 : u32_add idx.count 1 = idx.count + 1 := u32_add_small _ _ (by omega)
  unfold rollback_retreat RingInv
  simp only [e2, rollback_tail N idx.tail hN ht]
  refine ⟨Nat.mod_lt _ hpos, by omega, ?_⟩
  rw [hh, Nat.mod_add_mod]
  have e : idx.tail + (N - 1) + (idx.count + 1) = idx.tail + idx.count + N := by omega
  rw [e, Nat.add_mod_right]

/-! ## The record file as a window of slots -/

theorem fwrite_at_self (f : List measurement_data_t) (j : Nat) (m : measurement_data_t) :
    (fwrite_at f j m)[j]? = some m := by
  unfold fwrite_at
  split
  · rename_i h
    simp [h]
  · rename_i h
    have hlen : (f ++ List.replicate (j - f.length) zero_measurement).length = j := by
      simp; omega
    rw [List.getElem?_append_right (by omega)]
    simp [hlen]

theorem fwrite_at_other (f : List measurement_data_t) (j k : Nat) (m : measurement_data_t)
    (hne : k ≠ j) (hk : k < f.length) : (fwrite_at f j m)[k]? = f[k]? := by
  unfold fwrite_at
  split
  · rw [List.getElem?_set_ne (Ne.symm hne)]
  · rw [List.append_assoc, List.getElem?_append_left hk]

theorem slot_ne (N t i c : Nat) (hi : i < c) (hc : c < N) : (t + i) % N ≠ (t + c) % N := by
  intro h
  have h1 := Nat.sub_mod_eq_zero_of_mod_eq h.symm
  have e : t + c - (t + i) = c - i := by omega
  rw [e, Nat.mod_eq_of_lt (by omega)] at h1
  omega

theorem window_head (N : Nat) (f : List measurement_data_t) (t : Nat) (x : measurement_data_t)
    (xs : List measurement_data_t) (ht : t < N) (h : Window N f t (x :: xs)) :
    f[t]? = some x := by
  have := h 0 (by simp)
  simpa [Nat.mod_eq_of_lt ht] using this

theorem window_tail (N : Nat) (f : List measurement_data_t) (t : Nat) (x : measurement_data_t)
    (xs : List measurement_data_t) (h : Window N f t (x :: xs)) :
    Window N f ((t + 1) % N) xs := by
  intro i hi
  have := h (i + 1) (by simp; omega)
  rw [Nat.mod_add_mod]
  have e : t + 1 + i = t + (i + 1) := by omega
  rw [e, this]
  simp

theorem window_write (N : Nat) (f : List measurement_data_t) (t : Nat)
    (xs : List measurement_data_t) (m : measurement_data_t) (hlen : xs.length < N)
    (h : Window N f t xs) :
    Window N (fwrite_at f ((t + xs.length) % N) m) t (xs ++ [m]) := by
  intro i hi
  simp only [List.length_append, List.length_singleton] at hi
  by_cases hlt : i < xs.length
  · have hf := h i hlt
    have hsome : xs[i]? = some xs[i] := List.getElem?_eq_getElem hlt
    have hk : (t + i) % N < f.length := by
      by_contra hge
      rw [List.getElem?_eq_none (by omega)] at hf
      rw [hsome] at hf
      cases hf
    rw [fwrite_at_other f _ _ m (slot_ne N t i xs.length hlt hlen) hk, hf,
      List.getElem?_append_left hlt]
  · have e : i = xs.length := by omega
    subst e
    rw [fwrite_at_self]
    simp

/-! ## Calls whose record-file operations all succeed -/

theorem save_spiffs_index_spiffs_initialized (env : IoEnv) (s : SpiffsState) :
    (save_spiffs_index env s).2.spiffs_initialized = s.spiffs_initialized := by
  unfold save_spiffs_index
  split
  · rfl
  · split <;> rfl

theorem save_spiffs_index_time_synced (env : IoEnv) (s : SpiffsState) :
    (save_spiffs_index env s).2.time_synced = s.time_synced := by
  unfold save_spiffs_index
  split
  · rfl
  · split <;> rfl

theorem fopen_rw_or_create_ok (env : IoEnv) (file : Option (List measurement_data_t))
    (h : io_ok env) : fopen_rw_or_create env file = some (file.getD []) := by
  obtain ⟨_, h1, h2, _⟩ := h
  unfold fopen_rw_or_create
  cases file <;> simp [h1, h2]

theorem store_ok_eq (N : Nat) (env : IoEnv) (m : measurement_data_t) (s : SpiffsState)
    (hinit : s.spiffs_initialized = true) (h : io_ok env) :
    spiffs_store_measurement N env (some m) s =
      save_spiffs_index env
        { s with
          measurements_file :=
            some (fwrite_at (s.measurements_file.getD []) s.ring_idx.head
              (store_record s.time_synced env m))
          ring_idx := store_advance N s.ring_idx } := by
  have hf := fopen_rw_or_create_ok env s.measurements_file h
  obtain ⟨h0, _, _, h3, _, h5⟩ := h
  unfold spiffs_store_measurement
  simp only [hinit, h0, h3, h5, hf]
  rfl

theorem get_ok_eq (N : Nat) (env : IoEnv) (s : SpiffsState) (f : List measurement_data_t)
    (r : measurement_data_t) (hinit : s.spiffs_initialized = true) (h : io_ok env)
    (hne : s.ring_idx.count ≠ 0) (hfile : s.measurements_file = some f)
    (hr : f[s.ring_idx.tail]? = some r) :
    spiffs_get_and_remove_next_measurement N env true s =
      (.ESP_OK, some r,
        (save_spiffs_index env { s with ring_idx := remove_advance N s.ring_idx }).2) := by
  obtain ⟨h0, h1, _, h3, h4, _⟩ := h
  unfold spiffs_get_and_remove_next_measurement fopen_rb fread_at
  simp [hinit, h0, h1, h3, h4, hne, hfile, hr]

theorem get_empty_eq (N : Nat) (env : IoEnv) (s : SpiffsState)
    (hinit : s.spiffs_initialized = true) (h : env.mutex_taken = true)
    (h0 : s.ring_idx.count = 0) :
    spiffs_get_and_remove_next_measurement N env true s = (.ESP_ERR_NOT_FOUND, none, s) := by
  unfold spiffs_get_and_remove_next_measurement
  simp [hinit, h, h0]

/-! ## The ring invariant is kept by every operation -/

theorem store_keeps_inv (N : Nat) (hN : N ≤ INT_MAX) (env : IoEnv)
    (measurement : Option measurement_data_t) (s : SpiffsState) (h : RingInv N s.ring_idx) :
    RingInv N (spiffs_store_measurement N env measurement s).2.ring_idx := by
  unfold spiffs_store_measurement
  cases measurement with
  | none => exact h
  | some m =>
    dsimp only
    split
    · exact h
    · split
      · exact h
      · split
        · exact h
        · split
          · exact h
          · split
            · exact h
            · rw [save_spiffs_index_ring_idx]
              exact store_advance_inv N hN _ h

theorem get_and_remove_keeps_inv (N : Nat) (hN : N ≤ INT_MAX) (env : IoEnv)
    (out_nonnull : Bool) (s : SpiffsState) (h : RingInv N s.ring_idx) :
    RingInv N (spiffs_get_and_remove_next_measurement N env out_nonnull s).2.2.ring_idx := by
  unfold spiffs_get_and_remove_next_measurement
  split
  · exact h
  · split
    · exact h
    · split
      · exact h
      · rename_i hne
        split
        · exact h
        · split
          · exact h
          · split
            · exact h
            · dsimp only
              rw [save_spiffs_index_ring_idx]
              exact remove_advance_inv N hN _ h hne

theorem rollback_keeps_inv (N : Nat) (hN : N ≤ INT_MAX) (env : IoEnv)
    (measurement : Option measurement_data_t) (s : SpiffsState) (h : RingInv N s.ring_idx) :
    RingInv N (spiffs_rollback_measurement N env measurement s).2.ring_idx := by
  unfold spiffs_rollback_measurement
  cases measurement with
  | none => exact h
  | some m =>
    dsimp only
    split
    · exact h
    · split
      · exact h
      · split
        · exact h
        · rename_i hlt
          have hlt' : s.ring_idx.count < N := by omega
          have hr := rollback_retreat_inv N hN _ h hlt'
          split
          · exact h
          · split
            · exact hr
            · split
              · exact hr
              · split
                · rename_i heq
                  have := congrArg (fun p => p.2.ring_idx) heq
                  simp only [save_spiffs_index_ring_idx] at this
                  dsimp only
                  rw [← this]
                  exact hr
                · rename_i heq
                  have := congrArg (fun p => p.2.ring_idx) heq
                  simp only [save_spiffs_index_ring_idx] at this
                  dsimp only
                  rw [← this]
                  exact hr

theorem remove_sent_keeps_inv (N : Nat) (hN : N ≤ INT_MAX) (env : IoEnv)
    (s : SpiffsState) (h : RingInv N s.ring_idx) :
    RingInv N (spiffs_remove_sent_measurement N env s).2.ring_idx := by
  unfold spiffs_remove_sent_measurement
  split
  · exact h
  · split
    · exact h
    · split
      · exact h
      · rename_i hne
        rw [save_spiffs_index_ring_idx]
        exact remove_advance_inv N hN _ h hne

/-! ## One store, one removal -/

theorem store_step (N : Nat) (hN : N ≤ INT_MAX) (env : IoEnv) (m : measurement_data_t)
    (s : SpiffsState) (xs : List measurement_data_t) (henv : io_ok env)
    (h : Ready N s xs) :
    Ready N (spiffs_store_measurement N env (some m) s).2
        ((if s.ring_idx.count < N then xs else xs.drop 1) ++
          [store_record s.time_synced env m]) ∧
      (spiffs_store_measurement N env (some m) s).2.time_synced = s.time_synced := by
  obtain ⟨hinit, hinv, hlen, hwin⟩ := h
  have hinv' := store_advance_inv N hN _ hinv
  obtain ⟨ht, hc, hh⟩ := hinv
  have hN' : N ≤ 2147483647 := hN
  rw [store_ok_eq N env m s hinit henv]
  refine ⟨⟨?_, ?_, ?_, ?_⟩, ?_⟩
  · rw [save_spiffs_index_spiffs_initialized]; exact hinit
  · rw [save_spiffs_index_ring_idx]; exact hinv'
  · rw [save_spiffs_index_ring_idx]
    unfold store_advance
    by_cases hfull : s.ring_idx.count < N
    · have e2 : u32_add s.ring_idx.count 1 = s.ring_idx.count + 1 :=
        u32_add_small _ _ (by omega)
      simp [hfull, e2, hlen]
    · simp only [hfull, if_false, List.length_append, List.length_drop, List.length_singleton]
      omega
  · rw [save_spiffs_index_ring_idx, save_spiffs_index_measurements_file]
    simp only [Option.getD_some]
    unfold store_advance
    by_cases hfull : s.ring_idx.count < N
    · simp only [hfull, if_true]
      have := window_write N _ s.ring_idx.tail xs (store_record s.time_synced env m)
        (by omega) hwin
      rw [hlen, ← hh] at this
      exact this
    · have e3 : u32_add s.ring_idx.tail 1 = s.ring_idx.tail + 1 :=
        u32_add_small _ _ (by omega)
      simp only [hfull, if_false, e3]
      cases xs with
      | nil => simp at hlen; omega
      | cons x xs' =>
        simp only [List.length_cons] at hlen
        have hw := window_tail N _ _ x xs' hwin
        have := window_write N _ ((s.ring_idx.tail + 1) % N) xs'
          (store_record s.time_synced env m) (by omega) hw
        have e : ((s.ring_idx.tail + 1) % N + xs'.length) % N = s.ring_idx.head := by
          rw [hh, Nat.mod_add_mod]
          have : s.ring_idx.tail + 1 + xs'.length = s.ring_idx.tail + s.ring_idx.count := by
            omega
          rw [this]
        rw [e] at this
        simpa using this
  · rw [save_spiffs_index_time_synced]

theorem get_step (N : Nat) (hN : N ≤ INT_MAX) (env : IoEnv) (s : SpiffsState)
    (x : measurement_data_t) (xs : List measurement_data_t) (henv : io_ok env)
    (h : Ready N s (x :: xs)) :
    (spiffs_get_and_remove_next_measurement N env true s).1 = .ESP_OK ∧
      (spiffs_get_and_remove_next_measurement N env true s).2.1 = some x ∧
      Ready N (spiffs_get_and_remove_next_measurement N env true s).2.2 xs ∧
      (spiffs_get_and_remove_next_measurement N env true s).2.2.time_synced = s.time_synced := by
  obtain ⟨hinit, hinv, hlen, hwin⟩ := h
  simp only [List.length_cons] at hlen
  have hne : s.ring_idx.count ≠ 0 := by omega
  have hinv' := remove_advance_inv N hN _ hinv hne
  obtain ⟨ht, hc, hh⟩ := hinv
  have hN' : N ≤ 2147483647 := hN
  have hx := window_head N _ _ x xs ht hwin
  cases hfile : s.measurements_file with
  | none => rw [hfile] at hx; simp at hx
  | some f =>
    rw [hfile] at hx hwin
    simp only [Option.getD_some] at hx hwin
    rw [get_ok_eq N env s f x hinit henv hne hfile hx]
    refine ⟨rfl, rfl, ⟨?_, ?_, ?_, ?_⟩, ?_⟩
    · show (save_spiffs_index env _).2.spiffs_initialized = true
      rw [save_spiffs_index_spiffs_initialized]; exact hinit
    · show RingInv N (save_spiffs_index env _).2.ring_idx
      rw [save_spiffs_index_ring_idx]; exact hinv'
    · show xs.length = (save_spiffs_index env _).2.ring_idx.count
      rw [save_spiffs_index_ring_idx]
      show xs.length = u32_sub s.ring_idx.count 1
      rw [u32_sub_one _ (by omega) (by omega)]
      omega
    · show Window N ((save_spiffs_index env _).2.measurements_file.getD [])
        (save_spiffs_index env _).2.ring_idx.tail xs
      rw [save_spiffs_index_ring_idx, save_spiffs_index_measurements_file]
      show Window N (s.measurements_file.getD []) (u32_add s.ring_idx.tail 1 % N) xs
      rw [u32_add_small _ _ (by omega), hfile]
      exact window_tail N f _ x xs hwin
    · show (save_spiffs_index env _).2.time_synced = s.time_synced
      rw [save_spiffs_index_time_synced]


/-! ## Sequences of stores and removals -/

theorem ready_length_le (N : Nat) (s : SpiffsState) (xs : List measurement_data_t)
    (h : Ready N s xs) : xs.length ≤ N := by
  obtain ⟨_, ⟨_, hc, _⟩, hlen, _⟩ := h
  omega

theorem store_all_ready (N : Nat) (hN : N ≤ INT_MAX) (stores : List (IoEnv × measurement_data_t)) :
    ∀ (s : SpiffsState) (xs : List measurement_data_t), Ready N s xs →
      (∀ p ∈ stores, io_ok p.1) →
      Ready N (store_all N stores s)
        ((xs ++ stores.map (fun p => store_record s.time_synced p.1 p.2)).drop
          (xs.length + stores.length - N)) ∧
      (store_all N stores s).time_synced = s.time_synced := by
  induction stores with
  | nil =>
    intro s xs h _
    have := ready_length_le N s xs h
    have e : xs.length + 0 - N = 0 := by omega
    simp only [List.map_nil, List.append_nil, List.length_nil, e, List.drop_zero]
    exact ⟨h, rfl⟩
  | cons p rest ih =>
    intro s xs h hok
    obtain ⟨env, m⟩ := p
    have henv : io_ok env := hok (env, m) (List.mem_cons_self _ _)
    have hrest : ∀ q ∈ rest, io_ok q.1 := fun q hq => hok q (List.mem_cons_of_mem _ hq)
    have hle := ready_length_le N s xs h
    obtain ⟨h1, hts⟩ := store_step N hN env m s xs henv h
    obtain ⟨h2, hts2⟩ := ih _ _ h1 hrest
    have hcount : xs.length = s.ring_idx.count := h.2.2.1
    have hpos : 0 < N := by have := h.2.1.1; omega
    show Ready N (store_all N rest (spiffs_store_measurement N env (some m) s).2) _ ∧
      (store_all N rest (spiffs_store_measurement N env (some m) s).2).time_synced = _
    refine ⟨?_, by rw [hts2, hts]⟩
    rw [hts] at h2
    have key : (((if s.ring_idx.count < N then xs else xs.drop 1) ++
          [store_record s.time_synced env m]) ++
          rest.map (fun p => store_record s.time_synced p.1 p.2)).drop
          (((if s.ring_idx.count < N then xs else xs.drop 1) ++
            [store_record s.time_synced env m]).length + rest.length - N) =
        (xs ++ ((env, m) :: rest).map (fun p => store_record s.time_synced p.1 p.2)).drop
          (xs.length + ((env, m) :: rest).length - N) := by
      by_cases hfull : s.ring_idx.count < N
      · simp only [hfull, if_true, List.append_assoc, List.singleton_append, List.map_cons,
          List.length_append, List.length_cons, List.length_nil]
        congr 1
        omega
      · simp only [hfull, if_false]
        cases xs with
        | nil => simp at hcount; omega
        | cons x xs' =>
          simp only [List.length_cons] at hcount hle
          have e1 : (List.drop 1 (x :: xs') ++ [store_record s.time_synced env m]).length +
              rest.length - N = rest.length := by
            simp; omega
          have e2 : (x :: xs').length + ((env, m) :: rest).length - N = rest.length + 1 := by
            simp; omega
          rw [e1, e2]
          simp
    rw [key] at h2
    exact h2

theorem get_all_ready (N : Nat) (hN : N ≤ INT_MAX) (gets : List IoEnv) :
    ∀ (s : SpiffsState) (xs : List measurement_data_t), Ready N s xs →
      gets.length ≤ xs.length → (∀ e ∈ gets, io_ok e) →
      (get_all N gets s).1 =
        (xs.take gets.length).map (fun x => (esp_err_t.ESP_OK, some x)) ∧
      Ready N (get_all N gets s).2 (xs.drop gets.length) := by
  induction gets with
  | nil =>
    intro s xs h _ _
    exact ⟨rfl, h⟩
  | cons env rest ih =>
    intro s xs h hlen hok
    cases xs with
    | nil => simp at hlen
    | cons x xs' =>
      have henv : io_ok env := hok env (List.mem_cons_self _ _)
      have hrest : ∀ e ∈ rest, io_ok e := fun e he => hok e (List.mem_cons_of_mem _ he)
      obtain ⟨hr, hx, hready, _⟩ := get_step N hN env s x xs' henv h
      simp only [List.length_cons] at hlen
      obtain ⟨h1, h2⟩ := ih _ _ hready (by omega) hrest
      refine ⟨?_, ?_⟩
      · show (_, _) :: (get_all N rest _).1 = _
        rw [h1, hr, hx]
        simp
      · show Ready N (get_all N rest _).2 _
        simpa using h2


/-! ## What a successful call did -/

theorem save_spiffs_index_fst_cases (env : IoEnv) (s : SpiffsState) :
    (save_spiffs_index env s).1 = .ESP_OK ∨ (save_spiffs_index env s).1 = .ESP_FAIL := by
  unfold save_spiffs_index
  split
  · right; rfl
  · split
    · left; rfl
    · right; rfl

theorem store_ok_inv (N : Nat) (env : IoEnv) (m : measurement_data_t) (s : SpiffsState)
    (h : (spiffs_store_measurement N env (some m) s).1 = .ESP_OK) :
    s.spiffs_initialized = true ∧
    ∃ f, fopen_rw_or_create env s.measurements_file = some f ∧
      (spiffs_store_measurement N env (some m) s).2.ring_idx = store_advance N s.ring_idx ∧
      (spiffs_store_measurement N env (some m) s).2.measurements_file =
        some (fwrite_at f s.ring_idx.head (store_record s.time_synced env m)) := by
  unfold spiffs_store_measurement at h ⊢
  dsimp only at h ⊢
  split at h
  · cases h
  · rename_i hinit
    split at h
    · cases h
    · rename_i hmutex
      split at h
      · cases h
      · rename_i f hf
        split at h
        · cases h
        · rename_i hseek
          split at h
          · cases h
          · rename_i hwrite
            refine ⟨by simpa using hinit, f, hf, ?_⟩
            simp only [hinit, hmutex, hf, hseek, hwrite]
            simp [save_spiffs_index_ring_idx, save_spiffs_index_measurements_file]

theorem get_ok_inv (N : Nat) (env : IoEnv) (out_nonnull : Bool) (s : SpiffsState)
    (h : (spiffs_get_and_remove_next_measurement N env out_nonnull s).1 = .ESP_OK) :
    s.spiffs_initialized = true ∧ s.ring_idx.count ≠ 0 ∧
    ∃ f r, s.measurements_file = some f ∧ f[s.ring_idx.tail]? = some r ∧
      (spiffs_get_and_remove_next_measurement N env out_nonnull s).2.1 = some r ∧
      (spiffs_get_and_remove_next_measurement N env out_nonnull s).2.2 =
        (save_spiffs_index env { s with ring_idx := remove_advance N s.ring_idx }).2 := by
  unfold spiffs_get_and_remove_next_measurement at h ⊢
  split at h
  · cases h
  · rename_i hinit
    split at h
    · cases h
    · rename_i hmutex
      split at h
      · cases h
      · rename_i hcount
        split at h
        · cases h
        · rename_i f hf
          split at h
          · cases h
          · rename_i hseek
            split at h
            · cases h
            · rename_i r hr
              have hf' : s.measurements_file = some f := by
                unfold fopen_rb at hf
                split at hf
                · exact hf
                · cases hf
              have hr' : f[s.ring_idx.tail]? = some r := by
                unfold fread_at at hr
                split at hr
                · exact hr
                · cases hr
              refine ⟨by simp at hinit; exact hinit.1, hcount, f, r, hf', hr', ?_, ?_⟩
              · simp only [hinit, hmutex, hcount, hf, hseek, hr]
                simp
              · simp only [hinit, hmutex, hcount, hf, hseek, hr]
                simp

theorem rollback_ok_inv (N : Nat) (env : IoEnv) (m : measurement_data_t) (s : SpiffsState)
    (h : (spiffs_rollback_measurement N env (some m) s).1 = .ESP_OK) :
    s.spiffs_initialized = true ∧ s.ring_idx.count < N ∧
    ∃ f, fopen_rw_or_create env s.measurements_file = some f ∧
      (spiffs_rollback_measurement N env (some m) s).2 =
        (save_spiffs_index env
          { s with
            measurements_file := some (fwrite_at f (rollback_retreat N s.ring_idx).tail m)
            ring_idx := rollback_retreat N s.ring_idx }).2 := by
  unfold spiffs_rollback_measurement at h ⊢
  dsimp only at h ⊢
  split at h
  · cases h
  · rename_i hinit
    split at h
    · cases h
    · rename_i hmutex
      split at h
      · cases h
      · rename_i hcount
        split at h
        · cases h
        · rename_i f hf
          split at h
          · cases h
          · rename_i hseek
            split at h
            · cases h
            · rename_i hwrite
              refine ⟨by simpa using hinit, by omega, f, hf, ?_⟩
              simp only [hinit, hmutex, hcount, hf, hseek, hwrite]
              simp only [Bool.false_eq_true, if_false]
              split <;> rename_i heq <;> rw [heq]


theorem store_record_eq_self (ts : Bool) (env : IoEnv) (m : measurement_data_t)
    (h : store_timestamp ts (uptime_seconds env) (time_to_u32 env.now) m.timestamp =
      m.timestamp) : store_record ts env m = m := by
  unfold store_record
  rw [h]

theorem ready_of_empty (N : Nat) (s : SpiffsState) (hinit : s.spiffs_initialized = true)
    (hinv : RingInv N s.ring_idx) (hempty : s.ring_idx.count = 0) : Ready N s [] :=
  ⟨hinit, hinv, by simp [hempty], fun i hi => by simp at hi⟩

theorem store_all_unaltered (N : Nat) (hN : N ≤ INT_MAX) (s : SpiffsState)
    (hinit : s.spiffs_initialized = true) (hinv : RingInv N s.ring_idx)
    (hempty : s.ring_idx.count = 0) (stores : List (IoEnv × measurement_data_t))
    (hstores : ∀ p ∈ stores, io_ok p.1 ∧
      store_timestamp s.time_synced (uptime_seconds p.1) (time_to_u32 p.1.now) p.2.timestamp =
        p.2.timestamp) :
    Ready N (store_all N stores s) ((stores.map (fun p => p.2)).drop (stores.length - N)) := by
  have h := (store_all_ready N hN stores s [] (ready_of_empty N s hinit hinv hempty)
    (fun p hp => (hstores p hp).1)).1
  have e : stores.map (fun p => store_record s.time_synced p.1 p.2) =
      stores.map (fun p => p.2) :=
    List.map_congr_left (fun p hp => store_record_eq_self _ _ _ (hstores p hp).2)
  simpa [e] using h

theorem retreat_remove (N : Nat) (hN : N ≤ INT_MAX) (idx : spiffs_ring_index_t)
    (h : RingInv N idx) (hne : idx.count ≠ 0) :
    rollback_retreat N (remove_advance N idx) = idx := by
  obtain ⟨ht, hc, hh⟩ := h
  have hN' : N ≤ 2147483647 := hN
  have hpos : 0 < N := by omega
  have e1 : u32_add idx.tail 1 = idx.tail + 1 := u32_add_small _ _ (by omega)
  have e2 : u32_sub idx.count 1 = idx.count - 1 := u32_sub_one _ (by omega) (by omega)
  have e3 : u32_add (idx.count - 1) 1 = idx.count := by
    rw [u32_add_small _ _ (by omega)]; omega
  have e4 : u32_add (u32_sub ((idx.tail + 1) % N) 1) N % N = idx.tail := by
    rw [rollback_tail N _ hN (Nat.mod_lt _ hpos), Nat.mod_add_mod]
    have : idx.tail + 1 + (N - 1) = idx.tail + N := by omega
    rw [this, Nat.add_mod_right, Nat.mod_eq_of_lt ht]
  unfold rollback_retreat remove_advance
  simp only [e1, e2, e3, e4]

theorem load_reset_ring_idx (env : IoEnv) (s : SpiffsState) :
    (save_spiffs_index env { s with ring_idx := zero_index }).2.ring_idx = zero_index :=
  save_spiffs_index_ring_idx _ _

/-! ## The claims -/

/-- C1: for a capacity `N` (an `int` constant) and a ring index with
`tail < N` (so `1 ≤ N`), `count ≤ N` and `head = (tail + count) mod N`, each of
`spiffs_store_measurement`, `spiffs_get_and_remove_next_measurement`,
`spiffs_rollback_measurement` and `spiffs_remove_sent_measurement` leaves an
index with `count ≤ N` and `head = (tail + count) mod N` (and `tail < N`),
whatever the call returns and whatever the environment answers. -/
theorem ring_invariant_preserved (N : Nat) (hN : N ≤ INT_MAX) (env : IoEnv)
    (measurement : Option measurement_data_t) (out_nonnull : Bool) (s : SpiffsState)
    (h : s.ring_idx.tail < N ∧ s.ring_idx.count ≤ N ∧
      s.ring_idx.head = (s.ring_idx.tail + s.ring_idx.count) % N) :
    RingInv N (spiffs_store_measurement N env measurement s).2.ring_idx ∧
    RingInv N (spiffs_get_and_remove_next_measurement N env out_nonnull s).2.2.ring_idx ∧
    RingInv N (spiffs_rollback_measurement N env measurement s).2.ring_idx ∧
    RingInv N (spiffs_remove_sent_measurement N env s).2.ring_idx :=
  ⟨store_keeps_inv N hN env measurement s h,
   get_and_remove_keeps_inv N hN env out_nonnull s h,
   rollback_keeps_inv N hN env measurement s h,
   remove_sent_keeps_inv N hN env s h⟩

/-- Witness of C1 on a ring of capacity 3 holding two records. -/
theorem ring_invariant_preserved_witness :
    RingInv 3 (spiffs_store_measurement 3 sample_env (some (sample_measurement 7))
      (sample_state ⟨1, 2, 2, 9⟩ (some [sample_measurement 6, zero_measurement,
        sample_measurement 5]))).2.ring_idx ∧
    RingInv 3 (spiffs_get_and_remove_next_measurement 3 sample_env true
      (sample_state ⟨1, 2, 2, 9⟩ (some [sample_measurement 6, zero_measurement,
        sample_measurement 5]))).2.2.ring_idx ∧
    RingInv 3 (spiffs_rollback_measurement 3 sample_env (some (sample_measurement 7))
      (sample_state ⟨1, 2, 2, 9⟩ (some [sample_measurement 6, zero_measurement,
        sample_measurement 5]))).2.ring_idx ∧
    RingInv 3 (spiffs_remove_sent_measurement 3 sample_env
      (sample_state ⟨1, 2, 2, 9⟩ (some [sample_measurement 6, zero_measurement,
        sample_measurement 5]))).2.ring_idx :=
  ring_invariant_preserved 3 (by decide) sample_env (some (sample_measurement 7)) true
    (sample_state ⟨1, 2, 2, 9⟩ (some [sample_measurement 6, zero_measurement,
      sample_measurement 5])) (by decide)

/-- C2: on an initialised module with an empty ring (`count = 0`, ring
invariant), storing `k ≤ N` measurements whose timestamps the store-time
normalization leaves as they are, with every record-file call succeeding, and
then calling `spiffs_get_and_remove_next_measurement` `k` times returns the
measurements in the order they were stored, each with `ESP_OK`; one more call
returns `ESP_ERR_NOT_FOUND`. -/
theorem store_then_get_is_fifo (N : Nat) (hN : N ≤ INT_MAX) (s : SpiffsState)
    (hinit : s.spiffs_initialized = true) (hinv : RingInv N s.ring_idx)
    (hempty : s.ring_idx.count = 0) (stores : List (IoEnv × measurement_data_t))
    (hk : stores.length ≤ N)
    (hstores : ∀ p ∈ stores, io_ok p.1 ∧
      store_timestamp s.time_synced (uptime_seconds p.1) (time_to_u32 p.1.now) p.2.timestamp =
        p.2.timestamp)
    (gets : List IoEnv) (hgets : gets.length = stores.length) (hgok : ∀ e ∈ gets, io_ok e)
    (last : IoEnv) (hlast : last.mutex_taken = true) :
    (get_all N gets (store_all N stores s)).1 =
      stores.map (fun p => (esp_err_t.ESP_OK, some p.2)) ∧
    (spiffs_get_and_remove_next_measurement N last true
      (get_all N gets (store_all N stores s)).2).1 = .ESP_ERR_NOT_FOUND := by
  have h := store_all_unaltered N hN s hinit hinv hempty stores hstores
  have e0 : stores.length - N = 0 := by omega
  rw [e0, List.drop_zero] at h
  obtain ⟨h1, h2⟩ := get_all_ready N hN gets _ _ h (by simp [hgets]) hgok
  have e1 : gets.length = (stores.map (fun p => p.2)).length := by simp [hgets]
  rw [e1, List.take_length] at h1
  rw [e1, List.drop_length] at h2
  refine ⟨?_, ?_⟩
  · rw [h1, List.map_map]
    rfl
  · rw [get_empty_eq N last _ h2.1 hlast]
    have := h2.2.2.1
    simpa using this.symm

/-- Witness of C2: two records through a ring of capacity 3. -/
theorem store_then_get_is_fifo_witness :
    (get_all 3 [sample_env, sample_env]
      (store_all 3 [(sample_env, sample_measurement 1), (sample_env, sample_measurement 2)]
        (sample_state zero_index none))).1 =
      [(sample_env, sample_measurement 1), (sample_env, sample_measurement 2)].map
        (fun p => (esp_err_t.ESP_OK, some p.2)) ∧
    (spiffs_get_and_remove_next_measurement 3 sample_env true
      (get_all 3 [sample_env, sample_env]
        (store_all 3 [(sample_env, sample_measurement 1), (sample_env, sample_measurement 2)]
          (sample_state zero_index none))).2).1 = .ESP_ERR_NOT_FOUND :=
  store_then_get_is_fifo 3 (by decide) (sample_state zero_index none) rfl (by decide) rfl
    [(sample_env, sample_measurement 1), (sample_env, sample_measurement 2)] (by decide)
    (by decide) [sample_env, sample_env] rfl (by decide) sample_env rfl

/-- C3: on an initialised module with an empty ring, when every record-file
call succeeds, `spiffs_store_measurement(m)` followed by
`spiffs_get_and_remove_next_measurement` returns `ESP_OK` and a record whose
sensor id, MAC, temperature, humidity, retry counter and measurement id are
those of `m` and whose timestamp is the timestamp of `m` after the store-time
normalization. -/
theorem store_get_roundtrip (N : Nat) (hN : N ≤ INT_MAX) (s : SpiffsState)
    (hinit : s.spiffs_initialized = true) (hinv : RingInv N s.ring_idx)
    (hempty : s.ring_idx.count = 0) (env_store env_get : IoEnv) (hs : io_ok env_store)
    (hg : io_ok env_get) (m : measurement_data_t) :
    (spiffs_get_and_remove_next_measurement N env_get true
      (spiffs_store_measurement N env_store (some m) s).2).1 = .ESP_OK ∧
    (spiffs_get_and_remove_next_measurement N env_get true
      (spiffs_store_measurement N env_store (some m) s).2).2.1 =
      some { timestamp := store_timestamp s.time_synced (uptime_seconds env_store)
                (time_to_u32 env_store.now) m.timestamp,
             sensor_id := m.sensor_id, mac_address := m.mac_address,
             temperature := m.temperature, humidity := m.humidity,
             retry_count := m.retry_count, measurement_id := m.measurement_id } := by
  have h0 := ready_of_empty N s hinit hinv hempty
  have hpos : 0 < N := by have := hinv.1; omega
  have h1 := (store_step N hN env_store m s [] hs h0).1
  have hlt : s.ring_idx.count < N := by omega
  simp only [hlt, if_true, List.nil_append] at h1
  obtain ⟨hr, hx, _, _⟩ := get_step N hN env_get _ _ [] hg h1
  exact ⟨hr, hx⟩

/-- Witness of C3: a record stamped 5 s after boot is stored 10 s after boot
with time synced and read back. -/
theorem store_get_roundtrip_witness :
    (spiffs_get_and_remove_next_measurement 3 sample_env true
      (spiffs_store_measurement 3 sample_env
        (some { sample_measurement 1 with timestamp := 5 })
        (sample_state zero_index none)).2).1 = .ESP_OK ∧
    (spiffs_get_and_remove_next_measurement 3 sample_env true
      (spiffs_store_measurement 3 sample_env
        (some { sample_measurement 1 with timestamp := 5 })
        (sample_state zero_index none)).2).2.1 =
      some { timestamp := store_timestamp true (uptime_seconds sample_env)
                (time_to_u32 sample_env.now) 5,
             sensor_id := (sample_measurement 1).sensor_id,
             mac_address := (sample_measurement 1).mac_address,
             temperature := (sample_measurement 1).temperature,
             humidity := (sample_measurement 1).humidity,
             retry_count := (sample_measurement 1).retry_count,
             measurement_id := (sample_measurement 1).measurement_id } :=
  store_get_roundtrip 3 (by decide) (sample_state zero_index none) rfl (by decide) rfl
    sample_env sample_env (by decide) (by decide) { sample_measurement 1 with timestamp := 5 }

/-- C4: on a ring that satisfies the ring invariant, when
`spiffs_get_and_remove_next_measurement` returns `ESP_OK` with record `r` and
the `spiffs_rollback_measurement(r)` that follows returns `ESP_OK`, the index
has again the `count`, `head` and `tail` it had before the get, `r` is the
record that slot `tail` held before, and slot `tail` holds `r` afterwards. -/
theorem get_then_rollback_restores (N : Nat) (hN : N ≤ INT_MAX) (s : SpiffsState)
    (hinv : RingInv N s.ring_idx) (env_get env_rb : IoEnv) (r : measurement_data_t)
    (hget : (spiffs_get_and_remove_next_measurement N env_get true s).1 = .ESP_OK)
    (hrec : (spiffs_get_and_remove_next_measurement N env_get true s).2.1 = some r)
    (hrb : (spiffs_rollback_measurement N env_rb (some r)
      (spiffs_get_and_remove_next_measurement N env_get true s).2.2).1 = .ESP_OK) :
    (spiffs_rollback_measurement N env_rb (some r)
      (spiffs_get_and_remove_next_measurement N env_get true s).2.2).2.ring_idx.count =
        s.ring_idx.count ∧
    (spiffs_rollback_measurement N env_rb (some r)
      (spiffs_get_and_remove_next_measurement N env_get true s).2.2).2.ring_idx.head =
        s.ring_idx.head ∧
    (spiffs_rollback_measurement N env_rb (some r)
      (spiffs_get_and_remove_next_measurement N env_get true s).2.2).2.ring_idx.tail =
        s.ring_idx.tail ∧
    (s.measurements_file.getD [])[s.ring_idx.tail]? = some r ∧
    ((spiffs_rollback_measurement N env_rb (some r)
      (spiffs_get_and_remove_next_measurement N env_get true s).2.2).2.measurements_file.getD
        [])[s.ring_idx.tail]? = some r := by
  obtain ⟨_, hne, f, r', hfile, hslot, hr', hstate⟩ := get_ok_inv N env_get true s hget
  rw [hrec] at hr'
  cases hr'
  obtain ⟨_, _, f2, _, hstate2⟩ := rollback_ok_inv N env_rb r _ hrb
  rw [hstate2]
  have hidx : (save_spiffs_index env_get
      { s with ring_idx := remove_advance N s.ring_idx }).2.ring_idx =
      remove_advance N s.ring_idx := save_spiffs_index_ring_idx _ _
  rw [hstate] at *
  simp only [save_spiffs_index_ring_idx, save_spiffs_index_measurements_file, hidx,
    retreat_remove N hN s.ring_idx hinv hne, Option.getD_some, fwrite_at_self, hfile, hslot,
    and_self]

/-- Witness of C4: a ring of capacity 3 holding two records, the older one at
slot 2. -/
theorem get_then_rollback_restores_witness :
    (spiffs_rollback_measurement 3 sample_env (some (sample_measurement 5))
      (spiffs_get_and_remove_next_measurement 3 sample_env true
        (sample_state ⟨1, 2, 2, 9⟩ (some [sample_measurement 6, zero_measurement,
          sample_measurement 5]))).2.2).2.ring_idx.count = 2 ∧
    (spiffs_rollback_measurement 3 sample_env (some (sample_measurement 5))
      (spiffs_get_and_remove_next_measurement 3 sample_env true
        (sample_state ⟨1, 2, 2, 9⟩ (some [sample_measurement 6, zero_measurement,
          sample_measurement 5]))).2.2).2.ring_idx.head = 1 ∧
    (spiffs_rollback_measurement 3 sample_env (some (sample_measurement 5))
      (spiffs_get_and_remove_next_measurement 3 sample_env true
        (sample_state ⟨1, 2, 2, 9⟩ (some [sample_measurement 6, zero_measurement,
          sample_measurement 5]))).2.2).2.ring_idx.tail = 2 ∧
    ([sample_measurement 6, zero_measurement, sample_measurement 5])[2]? =
      some (sample_measurement 5) ∧
    ((spiffs_rollback_measurement 3 sample_env (some (sample_measurement 5))
      (spiffs_get_and_remove_next_measurement 3 sample_env true
        (sample_state ⟨1, 2, 2, 9⟩ (some [sample_measurement 6, zero_measurement,
          sample_measurement 5]))).2.2).2.measurements_file.getD [])[2]? =
      some (sample_measurement 5) :=
  get_then_rollback_restores 3 (by decide)
    (sample_state ⟨1, 2, 2, 9⟩ (some [sample_measurement 6, zero_measurement,
      sample_measurement 5])) (by decide) sample_env sample_env (sample_measurement 5)
    (by decide) (by decide) (by decide)

/-- C5: when `spiffs_rollback_measurement(m)` returns `ESP_OK` (which it does
only on a ring with `count < N`), the next
`spiffs_get_and_remove_next_measurement` whose record-file calls succeed
returns `ESP_OK` and `m`: the rolled-back record is ahead of every record that
was already in the ring. -/
theorem rollback_is_next (N : Nat) (hN : N ≤ INT_MAX) (s : SpiffsState)
    (hlt : s.ring_idx.count < N) (env_rb env_get : IoEnv) (m : measurement_data_t)
    (hrb : (spiffs_rollback_measurement N env_rb (some m) s).1 = .ESP_OK)
    (hg : io_ok env_get) :
    (spiffs_get_and_remove_next_measurement N env_get true
      (spiffs_rollback_measurement N env_rb (some m) s).2).1 = .ESP_OK ∧
    (spiffs_get_and_remove_next_measurement N env_get true
      (spiffs_rollback_measurement N env_rb (some m) s).2).2.1 = some m := by
  obtain ⟨hinit, _, f, _, hstate⟩ := rollback_ok_inv N env_rb m s hrb
  have hN' : N ≤ 2147483647 := hN
  have hcount : (rollback_retreat N s.ring_idx).count ≠ 0 := by
    show u32_add s.ring_idx.count 1 ≠ 0
    rw [u32_add_small _ _ (by omega)]
    omega
  have heq := get_ok_eq N env_get (spiffs_rollback_measurement N env_rb (some m) s).2
    (fwrite_at f (rollback_retreat N s.ring_idx).tail m) m
    (by rw [hstate, save_spiffs_index_spiffs_initialized]; exact hinit) hg
    (by rw [hstate, save_spiffs_index_ring_idx]; exact hcount)
    (by rw [hstate, save_spiffs_index_measurements_file])
    (by rw [hstate, save_spiffs_index_ring_idx]; exact fwrite_at_self _ _ _)
  rw [heq]
  exact ⟨rfl, rfl⟩

/-- Witness of C5: a record is rolled back into a ring of capacity 3 that
holds one other record. -/
theorem rollback_is_next_witness :
    (spiffs_get_and_remove_next_measurement 3 sample_env true
      (spiffs_rollback_measurement 3 sample_env (some (sample_measurement 4))
        (sample_state ⟨1, 0, 1, 9⟩ (some [sample_measurement 6]))).2).1 = .ESP_OK ∧
    (spiffs_get_and_remove_next_measurement 3 sample_env true
      (spiffs_rollback_measurement 3 sample_env (some (sample_measurement 4))
        (sample_state ⟨1, 0, 1, 9⟩ (some [sample_measurement 6]))).2).2.1 =
      some (sample_measurement 4) :=
  rollback_is_next 3 (by decide) (sample_state ⟨1, 0, 1, 9⟩ (some [sample_measurement 6]))
    (by decide) sample_env sample_env (sample_measurement 4) (by decide) (by decide)

/-- C6: on a full ring (`count = N`, ring invariant) a
`spiffs_store_measurement` that returns `ESP_OK` advances `head` and `tail` by
one modulo `N`, leaves `count` equal to `N`, and the slot of the old `tail`,
which is the slot of the old `head` and held the oldest record, holds the new
record afterwards. -/
theorem store_on_full_overwrites_oldest (N : Nat) (hN : N ≤ INT_MAX) (s : SpiffsState)
    (hinv : RingInv N s.ring_idx) (hfull : s.ring_idx.count = N) (env : IoEnv)
    (m : measurement_data_t)
    (hok : (spiffs_store_measurement N env (some m) s).1 = .ESP_OK) :
    (spiffs_store_measurement N env (some m) s).2.ring_idx.head =
      (s.ring_idx.head + 1) % N ∧
    (spiffs_store_measurement N env (some m) s).2.ring_idx.tail =
      (s.ring_idx.tail + 1) % N ∧
    (spiffs_store_measurement N env (some m) s).2.ring_idx.count = N ∧
    s.ring_idx.head = s.ring_idx.tail ∧
    ((spiffs_store_measurement N env (some m) s).2.measurements_file.getD
        [])[s.ring_idx.tail]? = some (store_record s.time_synced env m) := by
  obtain ⟨_, f, _, hidx, hfile⟩ := store_ok_inv N env m s hok
  obtain ⟨ht, hc, hh⟩ := hinv
  have hN' : N ≤ 2147483647 := hN
  have hpos : 0 < N := by omega
  have hht : s.ring_idx.head = s.ring_idx.tail := by
    rw [hh, hfull, Nat.add_mod_right, Nat.mod_eq_of_lt ht]
  have e1 : u32_add s.ring_idx.head 1 = s.ring_idx.head + 1 :=
    u32_add_small _ _ (by omega)
  have e3 : u32_add s.ring_idx.tail 1 = s.ring_idx.tail + 1 :=
    u32_add_small _ _ (by omega)
  have hnot : ¬ s.ring_idx.count < N := by omega
  rw [hidx, hfile]
  unfold store_advance
  simp only [hnot, if_false, e1, e3, Option.getD_some]
  refine ⟨trivial, trivial, hfull, hht, ?_⟩
  rw [hht]
  exact fwrite_at_self _ _ _

/-- Witness of C6: a full ring of capacity 2 whose oldest record is at slot 1. -/
theorem store_on_full_overwrites_oldest_witness :
    (spiffs_store_measurement 2 sample_env (some (sample_measurement 7))
      (sample_state ⟨1, 1, 2, 9⟩ (some [sample_measurement 6,
        sample_measurement 5]))).2.ring_idx.head = (1 + 1) % 2 ∧
    (spiffs_store_measurement 2 sample_env (some (sample_measurement 7))
      (sample_state ⟨1, 1, 2, 9⟩ (some [sample_measurement 6,
        sample_measurement 5]))).2.ring_idx.tail = (1 + 1) % 2 ∧
    (spiffs_store_measurement 2 sample_env (some (sample_measurement 7))
      (sample_state ⟨1, 1, 2, 9⟩ (some [sample_measurement 6,
        sample_measurement 5]))).2.ring_idx.count = 2 ∧
    (1 : Nat) = 1 ∧
    ((spiffs_store_measurement 2 sample_env (some (sample_measurement 7))
      (sample_state ⟨1, 1, 2, 9⟩ (some [sample_measurement 6,
        sample_measurement 5]))).2.measurements_file.getD [])[1]? =
      some (store_record true sample_env (sample_measurement 7)) :=
  store_on_full_overwrites_oldest 2 (by decide)
    (sample_state ⟨1, 1, 2, 9⟩ (some [sample_measurement 6, sample_measurement 5]))
    (by decide) rfl sample_env (sample_measurement 7) (by decide)

/-- C7: on an initialised module with an empty ring, after `N + k` stores
(`k ≥ 1`) of measurements whose timestamps the normalization leaves as they
are, every record-file call succeeding, `count` is `N`, and `N` successive
`spiffs_get_and_remove_next_measurement` calls return, each with `ESP_OK`, the
measurements from the `k+1`-th to the last in the order they were stored,
leaving the ring empty: the `k` oldest are lost and no other. -/
theorem overflow_evicts_oldest (N k : Nat) (hN : N ≤ INT_MAX) (hk : 1 ≤ k) (s : SpiffsState)
    (hinit : s.spiffs_initialized = true) (hinv : RingInv N s.ring_idx)
    (hempty : s.ring_idx.count = 0) (stores : List (IoEnv × measurement_data_t))
    (hlen : stores.length = N + k)
    (hstores : ∀ p ∈ stores, io_ok p.1 ∧
      store_timestamp s.time_synced (uptime_seconds p.1) (time_to_u32 p.1.now) p.2.timestamp =
        p.2.timestamp)
    (gets : List IoEnv) (hgets : gets.length = N) (hgok : ∀ e ∈ gets, io_ok e) :
    (store_all N stores s).ring_idx.count = N ∧
    (get_all N gets (store_all N stores s)).1 =
      (stores.drop k).map (fun p => (esp_err_t.ESP_OK, some p.2)) ∧
    (get_all N gets (store_all N stores s)).2.ring_idx.count = 0 := by
  have h := store_all_unaltered N hN s hinit hinv hempty stores hstores
  have e0 : stores.length - N = k := by omega
  rw [e0] at h
  have hl : ((stores.map (fun p => p.2)).drop k).length = N := by
    simp [hlen]
  obtain ⟨h1, h2⟩ := get_all_ready N hN gets _ _ h (by rw [hl, hgets]) hgok
  rw [← hl] at hgets
  rw [hgets, List.take_length] at h1
  rw [hgets, List.drop_length] at h2
  refine ⟨?_, ?_, ?_⟩
  · rw [← h.2.2.1, hl]
  · rw [h1, ← List.map_drop, List.map_map]
    rfl
  · have := h2.2.2.1
    simpa using this.symm

/-- Witness of C7: three records through a ring of capacity 2. -/
theorem overflow_evicts_oldest_witness :
    (store_all 2 [(sample_env, sample_measurement 1), (sample_env, sample_measurement 2),
      (sample_env, sample_measurement 3)] (sample_state zero_index none)).ring_idx.count = 2 ∧
    (get_all 2 [sample_env, sample_env]
      (store_all 2 [(sample_env, sample_measurement 1), (sample_env, sample_measurement 2),
        (sample_env, sample_measurement 3)] (sample_state zero_index none))).1 =
      ([(sample_env, sample_measurement 1), (sample_env, sample_measurement 2),
        (sample_env, sample_measurement 3)].drop 1).map
          (fun p => (esp_err_t.ESP_OK, some p.2)) ∧
    (get_all 2 [sample_env, sample_env]
      (store_all 2 [(sample_env, sample_measurement 1), (sample_env, sample_measurement 2),
        (sample_env, sample_measurement 3)]
        (sample_state zero_index none))).2.ring_idx.count = 0 :=
  overflow_evicts_oldest 2 1 (by decide) (by decide) (sample_state zero_index none) rfl
    (by decide) rfl
    [(sample_env, sample_measurement 1), (sample_env, sample_measurement 2),
      (sample_env, sample_measurement 3)] rfl (by decide) [sample_env, sample_env] rfl
    (by decide)

/-- C8: on a ring with `count = N`, `spiffs_rollback_measurement(m)` returns
an error, which is `ESP_ERR_NO_MEM` when the module is initialised and the
mutex obtained, and leaves the whole state as it was: `head`, `tail`, `count`,
`total_written` and both files. -/
theorem rollback_refuses_when_full (N : Nat) (s : SpiffsState) (hfull : s.ring_idx.count = N)
    (env : IoEnv) (m : measurement_data_t) :
    (spiffs_rollback_measurement N env (some m) s).1 ≠ .ESP_OK ∧
    (spiffs_rollback_measurement N env (some m) s).2 = s ∧
    (s.spiffs_initialized = true → env.mutex_taken = true →
      (spiffs_rollback_measurement N env (some m) s).1 = .ESP_ERR_NO_MEM) := by
  have hge : s.ring_idx.count ≥ N := by omega
  unfold spiffs_rollback_measurement
  dsimp only
  refine ⟨?_, ?_, ?_⟩
  · split
    · simp
    · split
      · simp
      · simp [hge]
  · split
    · rfl
    · split
      · rfl
      · simp [hge]
  · intro hinit hmutex
    simp [hinit, hmutex, hge]

/-- Witness of C8: a full ring of capacity 2. -/
theorem rollback_refuses_when_full_witness :
    (spiffs_rollback_measurement 2 sample_env (some (sample_measurement 7))
      (sample_state ⟨1, 1, 2, 9⟩ (some [sample_measurement 6,
        sample_measurement 5]))).1 ≠ .ESP_OK ∧
    (spiffs_rollback_measurement 2 sample_env (some (sample_measurement 7))
      (sample_state ⟨1, 1, 2, 9⟩ (some [sample_measurement 6, sample_measurement 5]))).2 =
      sample_state ⟨1, 1, 2, 9⟩ (some [sample_measurement 6, sample_measurement 5]) ∧
    (spiffs_rollback_measurement 2 sample_env (some (sample_measurement 7))
      (sample_state ⟨1, 1, 2, 9⟩ (some [sample_measurement 6,
        sample_measurement 5]))).1 = .ESP_ERR_NO_MEM :=
  ⟨(rollback_refuses_when_full 2
      (sample_state ⟨1, 1, 2, 9⟩ (some [sample_measurement 6, sample_measurement 5])) rfl
      sample_env (sample_measurement 7)).1,
   (rollback_refuses_when_full 2
      (sample_state ⟨1, 1, 2, 9⟩ (some [sample_measurement 6, sample_measurement 5])) rfl
      sample_env (sample_measurement 7)).2.1,
   (rollback_refuses_when_full 2
      (sample_state ⟨1, 1, 2, 9⟩ (some [sample_measurement 6, sample_measurement 5])) rfl
      sample_env (sample_measurement 7)).2.2 rfl rfl⟩

/-- C9: on an initialised module with the mutex obtained,
`spiffs_get_and_remove_next_measurement` on a ring with `count = 0` returns
`ESP_ERR_NOT_FOUND` and leaves the whole state (so `head`, `tail`, `count` and
`total_written`) as it was; on a ring with `count > 0` whose record file
exists and can be opened, positioned and read at slot `tail`, it returns
`ESP_OK` with the record of slot `tail`. -/
theorem get_and_remove_empty_or_tail (N : Nat) (env : IoEnv) (s : SpiffsState)
    (hinit : s.spiffs_initialized = true) (hmutex : env.mutex_taken = true) :
    (s.ring_idx.count = 0 →
      spiffs_get_and_remove_next_measurement N env true s =
        (.ESP_ERR_NOT_FOUND, none, s)) ∧
    (∀ f r, s.ring_idx.count > 0 → s.measurements_file = some f →
      env.rec_fopen_ok = true → env.rec_fseek_ok = true → env.rec_fread_ok = true →
      f[s.ring_idx.tail]? = some r →
      (spiffs_get_and_remove_next_measurement N env true s).1 = .ESP_OK ∧
      (spiffs_get_and_remove_next_measurement N env true s).2.1 = some r) := by
  refine ⟨fun h0 => get_empty_eq N env s hinit hmutex h0, ?_⟩
  intro f r hpos hfile ho hs hr hslot
  have hne : s.ring_idx.count ≠ 0 := by omega
  unfold spiffs_get_and_remove_next_measurement fopen_rb fread_at
  simp [hinit, hmutex, ho, hs, hr, hne, hfile, hslot]

/-- Witness of C9: an empty ring and a ring holding two records. -/
theorem get_and_remove_empty_or_tail_witness :
    spiffs_get_and_remove_next_measurement 3 sample_env true
        (sample_state ⟨1, 1, 0, 9⟩ (some [sample_measurement 6])) =
      (.ESP_ERR_NOT_FOUND, none, sample_state ⟨1, 1, 0, 9⟩ (some [sample_measurement 6])) ∧
    (spiffs_get_and_remove_next_measurement 3 sample_env true
      (sample_state ⟨1, 2, 2, 9⟩ (some [sample_measurement 6, zero_measurement,
        sample_measurement 5]))).1 = .ESP_OK ∧
    (spiffs_get_and_remove_next_measurement 3 sample_env true
      (sample_state ⟨1, 2, 2, 9⟩ (some [sample_measurement 6, zero_measurement,
        sample_measurement 5]))).2.1 = some (sample_measurement 5) :=
  ⟨(get_and_remove_empty_or_tail 3 sample_env
      (sample_state ⟨1, 1, 0, 9⟩ (some [sample_measurement 6])) rfl rfl).1 rfl,
   (get_and_remove_empty_or_tail 3 sample_env
      (sample_state ⟨1, 2, 2, 9⟩ (some [sample_measurement 6, zero_measurement,
        sample_measurement 5])) rfl rfl).2
      [sample_measurement 6, zero_measurement, sample_measurement 5] (sample_measurement 5)
      (by decide) rfl rfl rfl rfl rfl⟩

/-- Counterexample to C10 as stated: an index file written by a build of
capacity 200 (`head = 150`, `tail = 100`, `count = 50`) is loaded unchanged by
a build of capacity 100, because only `count` is checked; afterwards
`head = 150` while `(tail + count) mod 100 = 50`. -/
theorem load_spiffs_index_keeps_bad_head :
    ¬ ((load_spiffs_index 100 sample_env
          (boot_state (.record ⟨150, 100, 50, 350⟩) none)).2.ring_idx.count ≤ 100 ∧
        (load_spiffs_index 100 sample_env
          (boot_state (.record ⟨150, 100, 50, 350⟩) none)).2.ring_idx.head =
        ((load_spiffs_index 100 sample_env
            (boot_state (.record ⟨150, 100, 50, 350⟩) none)).2.ring_idx.tail +
          (load_spiffs_index 100 sample_env
            (boot_state (.record ⟨150, 100, 50, 350⟩) none)).2.ring_idx.count) % 100) := by
  decide

/-- C10, amended: for every content of the index file, after
`load_spiffs_index` the in-memory index has `count ≤ N`; it is all zeros when
the file is absent or cannot be opened, holds less than one index record or
cannot be read, or has a `count` above `N`; otherwise it is the index of the
file, unchanged, so that it satisfies the ring invariant when the index of the
file does. -/
theorem load_spiffs_index_result (N : Nat) (env : IoEnv) (s : SpiffsState) :
    (load_spiffs_index N env s).2.ring_idx.count ≤ N ∧
    ((s.index_file = .absent ∨ s.index_file = .truncated ∨ env.idx_fopen_rb_ok = false ∨
        env.idx_fread_ok = false ∨ (∃ idx, s.index_file = .record idx ∧ N < idx.count)) →
      (load_spiffs_index N env s).2.ring_idx = zero_index) ∧
    (∀ idx, s.index_file = .record idx → idx.count ≤ N → env.idx_fopen_rb_ok = true →
      env.idx_fread_ok = true →
      load_spiffs_index N env s = (.ESP_OK, { s with ring_idx := idx }) ∧
      (RingInv N idx → RingInv N (load_spiffs_index N env s).2.ring_idx)) := by
  refine ⟨?_, ?_, ?_⟩
  · unfold load_spiffs_index
    split
    · rw [load_reset_ring_idx]; exact Nat.zero_le _
    · rw [load_reset_ring_idx]; exact Nat.zero_le _
    · split
      · rw [load_reset_ring_idx]; exact Nat.zero_le _
      · rename_i hc
        simp at hc
        exact hc.2
  · intro h
    unfold load_spiffs_index
    split
    · exact load_reset_ring_idx _ _
    · exact load_reset_ring_idx _ _
    · split
      · exact load_reset_ring_idx _ _
      · rename_i idx heq hc
        simp at hc
        exfalso
        by_cases ho : env.idx_fopen_rb_ok = true
        · simp only [ho, if_true] at heq
          rcases h with h | h | h | h | ⟨idx', h, hlt⟩
          · rw [h] at heq; cases heq
          · rw [h] at heq; cases heq
          · rw [h] at ho; cases ho
          · rw [h] at hc; cases hc.1
          · rw [h] at heq
            cases heq
            omega
        · simp only [ho, if_false] at heq
          cases heq
  · intro idx hfile hle ho hr
    have e : load_spiffs_index N env s = (.ESP_OK, { s with ring_idx := idx }) := by
      unfold load_spiffs_index
      simp only [ho, if_true, hfile, hr]
      simp [hle]
    rw [e]
    exact ⟨rfl, fun h => h⟩

/-- Witness of C10, amended: the index file is absent at first boot; an index
file that satisfies the ring invariant is loaded as it is. -/
theorem load_spiffs_index_result_witness :
    (load_spiffs_index 100 sample_env (boot_state .absent none)).2.ring_idx = zero_index ∧
    load_spiffs_index 100 sample_env (boot_state (.record ⟨50, 30, 20, 350⟩) none) =
      (.ESP_OK, { boot_state (.record ⟨50, 30, 20, 350⟩) none with
        ring_idx := ⟨50, 30, 20, 350⟩ }) ∧
    RingInv 100 (load_spiffs_index 100 sample_env
      (boot_state (.record ⟨50, 30, 20, 350⟩) none)).2.ring_idx :=
  ⟨(load_spiffs_index_result 100 sample_env (boot_state .absent none)).2.1 (Or.inl rfl),
   ((load_spiffs_index_result 100 sample_env
      (boot_state (.record ⟨50, 30, 20, 350⟩) none)).2.2 ⟨50, 30, 20, 350⟩ rfl (by decide)
      rfl rfl).1,
   ((load_spiffs_index_result 100 sample_env
      (boot_state (.record ⟨50, 30, 20, 350⟩) none)).2.2 ⟨50, 30, 20, 350⟩ rfl (by decide)
      rfl rfl).2 (by decide)⟩

theorem uptime_seconds_le (env : IoEnv) : uptime_seconds env ≤ 4294967 := by
  unfold uptime_seconds u32_mul U32
  omega

/-- Counterexample to C11 as stated: a record stamped 0 (taken in the first
second after boot) satisfies `ts ≤ uptime_s + 60`, yet with time synced it is
written with timestamp 0, not with `now - (uptime_s - ts)`. -/
theorem store_keeps_zero_timestamp :
    (0 : Nat) ≤ uptime_seconds sample_env + 60 ∧
    ((spiffs_store_measurement 3 sample_env (some { sample_measurement 1 with timestamp := 0 })
      (sample_state zero_index none)).2.measurements_file.getD [])[0]? =
      some { sample_measurement 1 with timestamp := 0 } ∧
    u32_sub (time_to_u32 sample_env.now) (u32_sub (uptime_seconds sample_env) 0) ≠ 0 := by
  decide

/-- C11, amended: when `spiffs_store_measurement` returns `ESP_OK`, the record
it wrote at slot `head` is the measurement with, when time is synced and the
timestamp `ts` is not 0 and `ts ≤ uptime_s + 60`, the timestamp
`now - (uptime_s - ts)` computed in 32-bit unsigned arithmetic from the uptime
and the wall clock read by the call; when time is not synced, or `ts = 0`, the
record is written unchanged. -/
theorem store_normalizes_seconds (N : Nat) (env : IoEnv) (m : measurement_data_t)
    (s : SpiffsState) (hok : (spiffs_store_measurement N env (some m) s).1 = .ESP_OK) :
    (s.time_synced = true → m.timestamp ≠ 0 → m.timestamp ≤ uptime_seconds env + 60 →
      ((spiffs_store_measurement N env (some m) s).2.measurements_file.getD
          [])[s.ring_idx.head]? =
        some { m with
               timestamp :=
                 u32_sub (time_to_u32 env.now) (u32_sub (uptime_seconds env) m.timestamp) }) ∧
    (s.time_synced = false ∨ m.timestamp = 0 →
      ((spiffs_store_measurement N env (some m) s).2.measurements_file.getD
          [])[s.ring_idx.head]? = some m) := by
  obtain ⟨_, f, _, _, hfile⟩ := store_ok_inv N env m s hok
  rw [hfile]
  simp only [Option.getD_some, fwrite_at_self]
  have hup := uptime_seconds_le env
  refine ⟨?_, ?_⟩
  · intro hs h0 hle
    have e : u32_add (uptime_seconds env) 60 = uptime_seconds env + 60 :=
      u32_add_small _ _ (by omega)
    unfold store_record store_timestamp
    simp [hs, h0, e, hle]
  · intro h
    unfold store_record store_timestamp
    rcases h with h | h
    · simp [h]
    · cases m
      simp_all

/-- Witness of C11, amended: a record stamped 5 s after boot, stored 10 s
after boot with time synced, and the same store with time not synced. -/
theorem store_normalizes_seconds_witness :
    ((spiffs_store_measurement 3 sample_env (some { sample_measurement 1 with timestamp := 5 })
      (sample_state zero_index none)).2.measurements_file.getD [])[0]? =
      some { sample_measurement 1 with timestamp := 1700000595 } ∧
    ((spiffs_store_measurement 3 sample_env (some { sample_measurement 1 with timestamp := 5 })
      { sample_state zero_index none with time_synced := false }).2.measurements_file.getD
        [])[0]? = some { sample_measurement 1 with timestamp := 5 } :=
  ⟨(store_normalizes_seconds 3 sample_env { sample_measurement 1 with timestamp := 5 }
      (sample_state zero_index none) (by decide)).1 rfl (by decide) (by decide),
   (store_normalizes_seconds 3 sample_env { sample_measurement 1 with timestamp := 5 }
      { sample_state zero_index none with time_synced := false } (by decide)).2 (Or.inl rfl)⟩

theorem store_timestamp_outside (uptime_s now32 r : Nat) (hu : uptime_s ≤ 4294967)
    (hb : ¬ r ≤ uptime_s + 60)
    (hc : ¬ (r > uptime_s * 1000 ∧ r / 1000 ≤ uptime_s)) :
    store_timestamp true uptime_s now32 r = r := by
  have e1 : u32_add uptime_s 60 = uptime_s + 60 := u32_add_small _ _ (by omega)
  have e2 : u32_mul uptime_s 1000 = uptime_s * 1000 := by
    unfold u32_mul U32; omega
  unfold store_timestamp
  simp only [e1, e2, hb, hc, if_false, ite_self]

theorem store_timestamp_seconds (uptime_s now32 ts : Nat) (hu : uptime_s ≤ 4294967)
    (h0 : ts ≠ 0) (hb : ts ≤ uptime_s + 60) :
    store_timestamp true uptime_s now32 ts = u32_sub now32 (u32_sub uptime_s ts) := by
  have e1 : u32_add uptime_s 60 = uptime_s + 60 := u32_add_small _ _ (by omega)
  unfold store_timestamp
  simp [e1, hb, h0]

theorem store_timestamp_millis (uptime_s now32 ts : Nat) (hu : uptime_s ≤ 4294967)
    (h0 : ts ≠ 0) (hb : ¬ ts ≤ uptime_s + 60)
    (hc : ts > uptime_s * 1000 ∧ ts / 1000 ≤ uptime_s) :
    store_timestamp true uptime_s now32 ts = u32_sub now32 (u32_sub uptime_s (ts / 1000)) := by
  have e1 : u32_add uptime_s 60 = uptime_s + 60 := u32_add_small _ _ (by omega)
  have e2 : u32_mul uptime_s 1000 = uptime_s * 1000 := by
    unfold u32_mul U32; omega
  unfold store_timestamp
  simp only [e1, e2, hb, hc, h0, if_false, if_true, ne_eq, not_false_eq_true, and_self]

theorem seconds_result_bounds (uptime_s now32 ts : Nat) (hu : uptime_s ≤ now32)
    (hnow : now32 + 60 < 4294967296) (hb : ts ≤ uptime_s + 60) :
    now32 ≤ u32_sub now32 (u32_sub uptime_s ts) + uptime_s ∧
      u32_sub now32 (u32_sub uptime_s ts) ≤ now32 + 60 := by
  by_cases hle : ts ≤ uptime_s
  · have e : u32_sub uptime_s ts = uptime_s - ts := by
      unfold u32_sub U32; omega
    rw [e]
    unfold u32_sub U32
    omega
  · have e : u32_sub uptime_s ts = 4294967296 - (ts - uptime_s) := by
      unfold u32_sub U32; omega
    rw [e]
    unfold u32_sub U32
    omega

theorem millis_result_eq (uptime_s now32 ts : Nat)
    (hnow : now32 < 4294967296) (hc : ts > uptime_s * 1000 ∧ ts / 1000 ≤ uptime_s) :
    u32_sub now32 (u32_sub uptime_s (ts / 1000)) = now32 := by
  have e : u32_sub uptime_s (ts / 1000) = 0 := by
    unfold u32_sub U32; omega
  rw [e]
  unfold u32_sub U32
  omega

/-- Counterexample to C12 as stated: 1704067 s after boot with the wall clock
at 1704067600, a record stamped 100 s earlier is normalized to 1704067500;
that value lies in the millisecond window of the uptime, so a second
application gives 1704067600. -/
theorem store_timestamp_twice_differs :
    (1704067200 : Nat) ≤ 1704067600 ∧ (1704067 : Nat) ≤ 4294967 ∧
    store_timestamp true 1704067 1704067600 1703967 = 1704067500 ∧
    store_timestamp true 1704067 1704067600
      (store_timestamp true 1704067 1704067600 1703967) = 1704067600 := by
  decide

theorem seconds_value (uptime_s now32 ts : Nat) (hu : uptime_s ≤ 4294967)
    (hn : 1704067200 ≤ now32) (hlt : now32 < 4294967296) (hb : ts ≤ uptime_s + 60) :
    u32_sub now32 (u32_sub uptime_s ts) = (now32 + ts - uptime_s) % 4294967296 := by
  by_cases hle : ts ≤ uptime_s
  · have e : u32_sub uptime_s ts = uptime_s - ts := by
      unfold u32_sub U32; omega
    rw [e]
    unfold u32_sub U32
    omega
  · have e : u32_sub uptime_s ts = 4294967296 - (ts - uptime_s) := by
      unfold u32_sub U32; omega
    rw [e]
    unfold u32_sub U32
    omega

theorem store_timestamp_zero (uptime_s now32 : Nat) :
    store_timestamp true uptime_s now32 0 = 0 := by
  simp [store_timestamp]

theorem twice_of_seconds (uptime_s now32 ts : Nat) (hu : uptime_s ≤ 4294967)
    (hn : 1704067200 ≤ now32) (hlt : now32 < 4294967296) (h0 : ts ≠ 0)
    (hb : ts ≤ uptime_s + 60) :
    store_timestamp true uptime_s now32 ts = (now32 + ts - uptime_s) % 4294967296 := by
  rw [store_timestamp_seconds uptime_s now32 ts hu h0 hb,
    seconds_value uptime_s now32 ts hu hn hlt hb]

theorem twice_differs_at (uptime_s now32 ts r : Nat) (hu : uptime_s ≤ 4294967)
    (hn : 1704067200 ≤ now32) (hlt : now32 < 4294967296) (h0 : ts ≠ 0)
    (hb : ts ≤ uptime_s + 60) (hr : now32 + ts - uptime_s = r) (hrlt : r < 4294967296)
    (hwin : r > uptime_s * 1000 ∧ r / 1000 ≤ uptime_s) (hne : r ≠ now32) :
    store_timestamp true uptime_s now32 (store_timestamp true uptime_s now32 ts) ≠
      store_timestamp true uptime_s now32 ts := by
  have e1 : store_timestamp true uptime_s now32 ts = r := by
    rw [twice_of_seconds uptime_s now32 ts hu hn hlt h0 hb, hr, Nat.mod_eq_of_lt hrlt]
  rw [e1, store_timestamp_millis uptime_s now32 r hu (by omega) (by omega) hwin,
    millis_result_eq uptime_s now32 r hlt hwin]
  exact fun h => hne h.symm

/-- C12, amended: with time synced, `1704067200 <= now < 2^32` and
`uptime_s <= 4294967`, applying the store-time normalization to `ts` and again
to the result, with the same `uptime_s` and `now`, gives the same value as
applying it once for every `ts` if and only if `now + 60 <= 2^32` and the
values that the seconds rule produces, `now - uptime_s + 1` to `now + 60`,
miss the millisecond window `uptime_s * 1000 + 1` to `uptime_s * 1000 + 999`
of the uptime: `now + 60 <= uptime_s * 1000` or
`uptime_s * 1000 + 998 + uptime_s < now`. -/
theorem store_timestamp_idempotent (uptime_s now32 : Nat) (hu : uptime_s ≤ 4294967)
    (hn : 1704067200 ≤ now32) (hlt : now32 < 4294967296) :
    (∀ ts, store_timestamp true uptime_s now32 (store_timestamp true uptime_s now32 ts) =
      store_timestamp true uptime_s now32 ts) ↔
    (now32 + 60 ≤ 4294967296 ∧
      (now32 + 60 ≤ uptime_s * 1000 ∨ uptime_s * 1000 + 998 + uptime_s < now32)) := by
  constructor
  · intro hall
    by_contra hnot
    by_cases hwrap : now32 + 60 ≤ 4294967296
    · have hband : uptime_s * 1000 < now32 + 60 ∧ now32 ≤ uptime_s * 1000 + 998 + uptime_s := by
        constructor
        · by_contra h
          exact hnot ⟨hwrap, Or.inl (by omega)⟩
        · by_contra h
          exact hnot ⟨hwrap, Or.inr (by omega)⟩
      by_cases hlow : uptime_s * 1000 + 1 ≤ now32 - uptime_s + 1
      · exact twice_differs_at uptime_s now32 1 (now32 - uptime_s + 1) hu hn hlt (by omega)
          (by omega) (by omega) (by omega) (by omega) (by omega) (hall 1)
      · by_cases heq : now32 = uptime_s * 1000 + 1
        · exact twice_differs_at uptime_s now32 (uptime_s + 1) (uptime_s * 1000 + 2) hu hn hlt
            (by omega) (by omega) (by omega) (by omega) (by omega) (by omega)
            (hall (uptime_s + 1))
        · exact twice_differs_at uptime_s now32 (uptime_s * 1000 + 1 + uptime_s - now32)
            (uptime_s * 1000 + 1) hu hn hlt (by omega) (by omega) (by omega) (by omega)
            (by omega) (by omega) (hall (uptime_s * 1000 + 1 + uptime_s - now32))
    · have h := hall (uptime_s + (4294967296 - now32) + 1)
      have e1 : store_timestamp true uptime_s now32 (uptime_s + (4294967296 - now32) + 1) = 1 := by
        rw [twice_of_seconds uptime_s now32 _ hu hn hlt (by omega) (by omega)]
        omega
      rw [e1, twice_of_seconds uptime_s now32 1 hu hn hlt (by omega) (by omega)] at h
      omega
  · rintro ⟨hwrap, hmiss⟩ ts
    by_cases h0 : ts = 0
    · subst h0
      rw [store_timestamp_zero, store_timestamp_zero]
    · by_cases hb : ts ≤ uptime_s + 60
      · rw [twice_of_seconds uptime_s now32 ts hu hn hlt h0 hb]
        by_cases hfull : now32 + ts - uptime_s = 4294967296
        · rw [hfull]
          exact store_timestamp_zero uptime_s now32
        · have hr : (now32 + ts - uptime_s) % 4294967296 = now32 + ts - uptime_s :=
            Nat.mod_eq_of_lt (by omega)
          rw [hr]
          exact store_timestamp_outside uptime_s now32 _ hu (by omega) (by omega)
      · by_cases hc : ts > uptime_s * 1000 ∧ ts / 1000 ≤ uptime_s
        · rw [store_timestamp_millis uptime_s now32 ts hu h0 hb hc,
            millis_result_eq uptime_s now32 ts hlt hc]
          by_cases hc' : now32 > uptime_s * 1000 ∧ now32 / 1000 ≤ uptime_s
          · rw [store_timestamp_millis uptime_s now32 now32 hu (by omega) (by omega) hc',
              millis_result_eq uptime_s now32 now32 hlt hc']
          · exact store_timestamp_outside uptime_s now32 now32 hu (by omega) hc'
        · rw [store_timestamp_outside uptime_s now32 ts hu hb hc]
          exact store_timestamp_outside uptime_s now32 ts hu hb hc

/-- Witness of C12, amended: 10 s after boot at epoch 1750000000 the condition
holds and a record stamped 5 s after boot is normalized to the same value by
one and by two applications; 1704067 s after boot at epoch 1704067600 the
condition fails. -/
theorem store_timestamp_idempotent_witness :
    store_timestamp true 10 1750000000 (store_timestamp true 10 1750000000 5) =
      store_timestamp true 10 1750000000 5 ∧
    ¬ (∀ ts, store_timestamp true 1704067 1704067600
        (store_timestamp true 1704067 1704067600 ts) =
      store_timestamp true 1704067 1704067600 ts) :=
  ⟨(store_timestamp_idempotent 10 1750000000 (by decide) (by decide) (by decide)).2
      ⟨by decide, Or.inr (by decide)⟩ 5,
    fun h => absurd
      ((store_timestamp_idempotent 1704067 1704067600 (by decide) (by decide)
        (by decide)).1 h)
      (by decide)⟩

/-- Counterexample to C18 as stated: an entry saved at 1700000000 and loaded
exactly `DNS_CACHE_TTL_SECONDS` (86400 s) later, with time synced, is accepted
and kept although `now - saved_at < 86400` does not hold: the code expires an
entry only when its age is greater than the TTL. -/
theorem dns_load_accepts_age_equal_ttl :
    ¬ ((1700086400 : Int) - 1700000000 < 86400) ∧
    dns_load_cached_broker_ip DNS_CACHE_TTL_SECONDS_DEFAULT (sample_nvs_env 1700086400)
        (sample_dns_state (some 1700000000)) =
      (.ESP_OK, { sample_dns_state (some 1700000000) with
        mqtt_broker_ip := "203.0.113.10".toList }) := by
  decide

/-- C18, amended: for a persisted entry that is read without fault, with
`saved_at ≠ 0`, when time is synced (`now > 100000`),
`dns_load_cached_broker_ip` returns `ESP_OK` with the IP loaded and the entry
kept if and only if `now - saved_at ≤ DNS_CACHE_TTL_SECONDS` in 32-bit unsigned
arithmetic; otherwise it returns `ESP_ERR_NVS_NOT_FOUND`, empties the
broker-IP string and, when NVS can be opened for writing, erases both keys. -/
theorem dns_load_checks_ttl (ttl : Nat) (env : NvsEnv) (st : DnsState) (ip : List Char)
    (saved_at : Nat) (hopen : env.nvs_open_readonly = .ESP_OK)
    (hstr : env.nvs_get_str = .ESP_OK) (hu32 : env.nvs_get_u32 = .ESP_OK)
    (hip : st.nvs.broker_ip = some ip) (hlen : ip.length < MQTT_BROKER_IP_SIZE)
    (hts : st.nvs.broker_ip_ts = some saved_at) (hne : saved_at ≠ 0)
    (hnow : env.now > 100000) :
    (u32_sub (time_to_u32 env.now) saved_at ≤ ttl % U32 →
      dns_load_cached_broker_ip ttl env st = (.ESP_OK, { st with mqtt_broker_ip := ip })) ∧
    (¬ u32_sub (time_to_u32 env.now) saved_at ≤ ttl % U32 →
      (dns_load_cached_broker_ip ttl env st).1 = .ESP_ERR_NVS_NOT_FOUND ∧
      (dns_load_cached_broker_ip ttl env st).2.mqtt_broker_ip = [] ∧
      (env.nvs_open_readwrite = .ESP_OK →
        (dns_load_cached_broker_ip ttl env st).2.nvs =
          { broker_ip := none, broker_ip_ts := none })) := by
  have hlen' : ip.length + 1 ≤ MQTT_BROKER_IP_SIZE := hlen
  have e1 : nvs_get_str env st.nvs.broker_ip = (.ESP_OK, some ip) := by
    unfold nvs_get_str
    simp [hstr, hip, hlen']
  have e2 : nvs_get_u32 env st.nvs.broker_ip_ts = (.ESP_OK, saved_at) := by
    unfold nvs_get_u32
    simp [hu32, hts]
  unfold dns_load_cached_broker_ip
  simp only [hopen, e1, e2, ne_eq, not_true_eq_false, false_and, if_false, hne,
    not_false_eq_true, if_true, hnow, gt_iff_lt]
  refine ⟨?_, ?_⟩
  · intro h
    have h' : ¬ ttl % U32 < u32_sub (time_to_u32 env.now) saved_at := by omega
    simp [h']
  · intro h
    have h' : ttl % U32 < u32_sub (time_to_u32 env.now) saved_at := by omega
    simp only [h', if_true, true_and]
    intro hrw
    unfold dns_clear_cached_broker_ip
    simp [hrw]

/-- Witness of C18, amended: the entry of scenario S5 one second after its TTL
and one hour after it was saved. -/
theorem dns_load_checks_ttl_witness :
    (dns_load_cached_broker_ip DNS_CACHE_TTL_SECONDS_DEFAULT (sample_nvs_env 1700086401)
        (sample_dns_state (some 1700000000))).1 = .ESP_ERR_NVS_NOT_FOUND ∧
    (dns_load_cached_broker_ip DNS_CACHE_TTL_SECONDS_DEFAULT (sample_nvs_env 1700086401)
        (sample_dns_state (some 1700000000))).2.mqtt_broker_ip = [] ∧
    (dns_load_cached_broker_ip DNS_CACHE_TTL_SECONDS_DEFAULT (sample_nvs_env 1700086401)
        (sample_dns_state (some 1700000000))).2.nvs =
      { broker_ip := none, broker_ip_ts := none } ∧
    dns_load_cached_broker_ip DNS_CACHE_TTL_SECONDS_DEFAULT (sample_nvs_env 1700003600)
        (sample_dns_state (some 1700000000)) =
      (.ESP_OK, { sample_dns_state (some 1700000000) with
        mqtt_broker_ip := "203.0.113.10".toList }) :=
  ⟨((dns_load_checks_ttl DNS_CACHE_TTL_SECONDS_DEFAULT (sample_nvs_env 1700086401)
      (sample_dns_state (some 1700000000)) "203.0.113.10".toList 1700000000 rfl rfl rfl rfl
      (by decide) rfl (by decide) (by decide)).2 (by decide)).1,
   ((dns_load_checks_ttl DNS_CACHE_TTL_SECONDS_DEFAULT (sample_nvs_env 1700086401)
      (sample_dns_state (some 1700000000)) "203.0.113.10".toList 1700000000 rfl rfl rfl rfl
      (by decide) rfl (by decide) (by decide)).2 (by decide)).2.1,
   ((dns_load_checks_ttl DNS_CACHE_TTL_SECONDS_DEFAULT (sample_nvs_env 1700086401)
      (sample_dns_state (some 1700000000)) "203.0.113.10".toList 1700000000 rfl rfl rfl rfl
      (by decide) rfl (by decide) (by decide)).2 (by decide)).2.2 rfl,
   (dns_load_checks_ttl DNS_CACHE_TTL_SECONDS_DEFAULT (sample_nvs_env 1700003600)
      (sample_dns_state (some 1700000000)) "203.0.113.10".toList 1700000000 rfl rfl rfl rfl
      (by decide) rfl (by decide) (by decide)).1 (by decide)⟩

/-- C19: for a persisted entry whose IP is read without fault and whose
`saved_at` is 0 or whose timestamp key is missing, for every current time and
whatever reading the timestamp returns, `dns_load_cached_broker_ip` returns
`ESP_OK` with the cached IP in the broker-IP string and leaves the persisted
entry as it is. -/
theorem dns_load_accepts_unstamped (ttl : Nat) (env : NvsEnv) (st : DnsState)
    (ip : List Char) (hopen : env.nvs_open_readonly = .ESP_OK)
    (hstr : env.nvs_get_str = .ESP_OK) (hip : st.nvs.broker_ip = some ip)
    (hlen : ip.length < MQTT_BROKER_IP_SIZE)
    (hts : st.nvs.broker_ip_ts = some 0 ∨ st.nvs.broker_ip_ts = none) :
    dns_load_cached_broker_ip ttl env st = (.ESP_OK, { st with mqtt_broker_ip := ip }) := by
  have hlen' : ip.length + 1 ≤ MQTT_BROKER_IP_SIZE := hlen
  have e1 : nvs_get_str env st.nvs.broker_ip = (.ESP_OK, some ip) := by
    unfold nvs_get_str
    simp [hstr, hip, hlen']
  have e2 : (nvs_get_u32 env st.nvs.broker_ip_ts).2 = 0 := by
    unfold nvs_get_u32
    rcases hts with h | h <;> rw [h] <;> split <;> rfl
  unfold dns_load_cached_broker_ip
  simp only [hopen, e1, e2, ne_eq, not_true_eq_false, if_false, ite_self]

/-- Witness of C19: an entry saved with timestamp 0 and an entry without
timestamp key, loaded long after the TTL. -/
theorem dns_load_accepts_unstamped_witness :
    dns_load_cached_broker_ip DNS_CACHE_TTL_SECONDS_DEFAULT (sample_nvs_env 1900000000)
        (sample_dns_state (some 0)) =
      (.ESP_OK, { sample_dns_state (some 0) with mqtt_broker_ip := "203.0.113.10".toList }) ∧
    dns_load_cached_broker_ip DNS_CACHE_TTL_SECONDS_DEFAULT (sample_nvs_env 1900000000)
        (sample_dns_state none) =
      (.ESP_OK, { sample_dns_state none with mqtt_broker_ip := "203.0.113.10".toList }) :=
  ⟨dns_load_accepts_unstamped DNS_CACHE_TTL_SECONDS_DEFAULT (sample_nvs_env 1900000000)
      (sample_dns_state (some 0)) "203.0.113.10".toList rfl rfl rfl (by decide) (Or.inl rfl),
   dns_load_accepts_unstamped DNS_CACHE_TTL_SECONDS_DEFAULT (sample_nvs_env 1900000000)
      (sample_dns_state none) "203.0.113.10".toList rfl rfl rfl (by decide) (Or.inr rfl)⟩

/-- Counterexample to C20 as stated: with time synced and the wall clock at
1704067200 (2024-01-01 00:00:00 UTC), inside `1704067200 ≤ t < 1893456000`,
the measurement taken 10 s after boot is stamped 10, not 1704067200. -/
theorem measurement_at_2024_uses_uptime :
    ((1704067200 : Int) ≤ 1704067200 ∧ (1704067200 : Int) < 1893456000) ∧
    measurement_task_timestamp true 1704067200 1000 10 = 10 := by
  decide

/-- C20, amended: the timestamp of a new measurement is the wall-clock value
`t` when time is synced and `1704067200 < t < 1893456000` (both bounds
excluded); in every other case it is the uptime, `tick_count *
portTICK_PERIOD_MS` in 32-bit unsigned arithmetic, in whole seconds. -/
theorem measurement_timestamp_rule (time_synced : Bool) (t : Int)
    (tick_count portTICK_PERIOD_MS : Nat) :
    (time_synced = true ∧ 1704067200 < t ∧ t < 1893456000 →
      (measurement_task_timestamp time_synced t tick_count portTICK_PERIOD_MS : Int) = t) ∧
    (¬ (time_synced = true ∧ 1704067200 < t ∧ t < 1893456000) →
      measurement_task_timestamp time_synced t tick_count portTICK_PERIOD_MS =
        u32_mul tick_count portTICK_PERIOD_MS / 1000) := by
  unfold measurement_task_timestamp
  refine ⟨?_, ?_⟩
  · rintro ⟨hs, h1, h2⟩
    have hsane : (t > 1704067200 ∧ t < 1893456000) := ⟨h1, h2⟩
    simp only [hs, hsane, and_self, decide_True, Bool.and_self, if_true]
    unfold time_to_u32
    omega
  · intro h
    by_cases hs : time_synced = true
    · have hsane : ¬ (t > 1704067200 ∧ t < 1893456000) := fun hh => h ⟨hs, hh.1, hh.2⟩
      simp [hs, hsane]
    · simp [hs]

/-- Witness of C20, amended: one second into 2024 with time synced, and the
same instant with time not synced. -/
theorem measurement_timestamp_rule_witness :
    (measurement_task_timestamp true 1704067201 1000 10 : Int) = 1704067201 ∧
    measurement_task_timestamp false 1704067201 1000 10 = u32_mul 1000 10 / 1000 :=
  ⟨(measurement_timestamp_rule true 1704067201 1000 10).1 (by decide),
   (measurement_timestamp_rule false 1704067201 1000 10).2 (by decide)⟩

/-! ## The throttle and the pending-publish table -/

theorem pending_shift_left_length (c : Int) :
    ∀ (fuel j : Nat) (msgs : List mqtt_pending_t),
      (pending_shift_left c fuel j msgs).length = msgs.length := by
  intro fuel
  induction fuel with
  | zero => intro j msgs; rfl
  | succ fuel ih =>
    intro j msgs
    unfold pending_shift_left
    split
    · rw [ih]; simp
    · rfl

theorem pending_shift_left_get (c : Nat) :
    ∀ (fuel j : Nat) (msgs : List mqtt_pending_t) (k : Nat), c ≤ msgs.length →
      c - 1 - j ≤ fuel →
      (pending_shift_left (c : Int) fuel j msgs)[k]? =
        if j ≤ k ∧ k + 1 < c then msgs[k + 1]? else msgs[k]? := by
  intro fuel
  induction fuel with
  | zero =>
    intro j msgs k _ hf
    have : ¬ (j ≤ k ∧ k + 1 < c) := by omega
    simp [pending_shift_left, this]
  | succ fuel ih =>
    intro j msgs k hlen hf
    unfold pending_shift_left
    by_cases hj : (j : Int) < (c : Int) - 1
    · have hj' : j + 1 < c := by omega
      simp only [hj, if_true]
      rw [ih (j + 1) _ k (by simpa using hlen) (by omega)]
      have hget : msgs[j + 1]? = some (msgs.getD (j + 1) zero_pending) := by
        have hlt : j + 1 < msgs.length := by omega
        simp [List.getD_eq_getElem?_getD, List.getElem?_eq_getElem hlt]
      by_cases h1 : j + 1 ≤ k ∧ k + 1 < c
      · have h2 : j ≤ k ∧ k + 1 < c := by omega
        have hne : j ≠ k + 1 := by omega
        simp only [h1, h2, and_self, if_true]
        rw [List.getElem?_set_ne hne]
      · simp only [h1, if_false]
        by_cases hk : k = j
        · subst hk
          have h2 : k ≤ k ∧ k + 1 < c := by omega
          have hlt : k < msgs.length := by omega
          simp only [h2, and_self, if_true, hget]
          simp [hlt]
        · have h2 : ¬ (j ≤ k ∧ k + 1 < c) := by omega
          simp only [h2, if_false]
          rw [List.getElem?_set_ne (Ne.symm hk)]
    · have h2 : ¬ (j ≤ k ∧ k + 1 < c) := by omega
      simp only [hj, if_false, h2]

theorem pending_shift_left_table (c i : Nat) (msgs : List mqtt_pending_t)
    (hlen : c ≤ msgs.length) (hi : i < c) :
    (pending_shift_left (c : Int) c i msgs).take (c - 1) = (msgs.take c).eraseIdx i := by
  apply List.ext_getElem?
  intro k
  rw [List.getElem?_take, List.getElem?_eraseIdx, List.getElem?_take, List.getElem?_take,
    pending_shift_left_get c c i msgs k hlen (by omega)]
  by_cases hk : k < c - 1
  · by_cases hki : k < i
    · have h1 : ¬ (i ≤ k ∧ k + 1 < c) := by omega
      have h2 : k < c := by omega
      simp [hk, hki, h1, h2]
    · have h1 : i ≤ k ∧ k + 1 < c := by omega
      have h2 : k + 1 < c := by omega
      simp [hk, hki, h1, h2]
  · by_cases hki : k < i
    · omega
    · have h2 : ¬ k + 1 < c := by omega
      simp [hk, hki, h2]

theorem published_scan_none (id : Int) (st : MqttState)
    (h : ∀ k : Nat, (k : Int) < st.mqtt_pending_count →
      (st.mqtt_pending_msgs.getD k zero_pending).msg_id ≠ id) :
    ∀ (fuel i : Nat), published_scan id fuel i st = st := by
  intro fuel
  induction fuel with
  | zero => intro i; rfl
  | succ fuel ih =>
    intro i
    unfold published_scan
    split
    · rename_i hi
      simp only [h i hi, if_false]
      exact ih (i + 1)
    · rfl

theorem published_scan_found (id : Int) (st : MqttState) (i0 : Nat)
    (hi0 : (i0 : Int) < st.mqtt_pending_count)
    (hbefore : ∀ k : Nat, k < i0 → (st.mqtt_pending_msgs.getD k zero_pending).msg_id ≠ id)
    (hat : (st.mqtt_pending_msgs.getD i0 zero_pending).msg_id = id) :
    ∀ (fuel i : Nat), i ≤ i0 → i0 - i < fuel →
      published_scan id fuel i st = published_removed st i0 := by
  intro fuel
  induction fuel with
  | zero => intro i _ hf; omega
  | succ fuel ih =>
    intro i hi hf
    unfold published_scan
    have hlt : (i : Int) < st.mqtt_pending_count := by omega
    simp only [hlt, if_true]
    by_cases hi' : i = i0
    · subst hi'
      simp only [hat, if_true]
      rfl
    · have hne := hbefore i (by omega)
      simp only [hne, if_false]
      exact ih (i + 1) (by omega) (by omega)

theorem first_split (id : Int) (l : List mqtt_pending_t) (h : ∃ e ∈ l, e.msg_id = id) :
    ∃ pre e post, l = pre ++ e :: post ∧ e.msg_id = id ∧ ∀ x ∈ pre, x.msg_id ≠ id := by
  induction l with
  | nil => obtain ⟨e, he, _⟩ := h; cases he
  | cons a l ih =>
    by_cases ha : a.msg_id = id
    · exact ⟨[], a, l, rfl, ha, fun x hx => by cases hx⟩
    · obtain ⟨e, he, hid⟩ := h
      have hmem : e ∈ l := by
        rcases List.mem_cons.mp he with h1 | h1
        · subst h1; exact absurd hid ha
        · exact h1
      obtain ⟨pre, e', post, hl, he', hpre⟩ := ih ⟨e, hmem, hid⟩
      refine ⟨a :: pre, e', post, by rw [hl]; rfl, he', ?_⟩
      intro x hx
      rcases List.mem_cons.mp hx with h1 | h1
      · subst h1; exact ha
      · exact hpre x h1

theorem eraseIdx_split (pre post : List mqtt_pending_t) (e : mqtt_pending_t) :
    (pre ++ e :: post).eraseIdx pre.length = pre ++ post := by
  induction pre with
  | nil => rfl
  | cons a pre ih => simp [List.eraseIdx, ih]

theorem table_getD (st : MqttState) (hinv : PendingInv st) (k : Nat)
    (hk : (k : Int) < st.mqtt_pending_count) :
    (pending_table st)[k]? = some (st.mqtt_pending_msgs.getD k zero_pending) := by
  obtain ⟨h0, hmax, hlen⟩ := hinv
  have hM : MAX_PENDING_MSGS = 10 := rfl
  have hlt : k < st.mqtt_pending_msgs.length := by omega
  have hkc : k < st.mqtt_pending_count.toNat := by omega
  unfold pending_table
  rw [List.getElem?_take]
  simp [hkc, List.getD_eq_getElem?_getD, List.getElem?_eq_getElem hlt]

theorem published_spec (env : HandlerEnv) (id : Int) (st : MqttState) (dns : DnsState)
    (hinv : PendingInv st) :
    ((∃ e ∈ pending_table st, e.msg_id = id) →
      (mqtt_event_handler env (.MQTT_EVENT_PUBLISHED id) st dns).1.mqtt_messages_sent =
        u32_add st.mqtt_messages_sent 1 ∧
      ∃ pre e post, pending_table st = pre ++ e :: post ∧ e.msg_id = id ∧
        (∀ x ∈ pre, x.msg_id ≠ id) ∧
        pending_table (mqtt_event_handler env (.MQTT_EVENT_PUBLISHED id) st dns).1 =
          pre ++ post) ∧
    ((∀ e ∈ pending_table st, e.msg_id ≠ id) →
      mqtt_event_handler env (.MQTT_EVENT_PUBLISHED id) st dns = (st, dns)) := by
  have hinv' := hinv
  obtain ⟨h0, hmax, hlen⟩ := hinv
  have hM : MAX_PENDING_MSGS = 10 := rfl
  have htl : (pending_table st).length = st.mqtt_pending_count.toNat := by
    unfold pending_table
    rw [List.length_take]
    omega
  refine ⟨?_, ?_⟩
  · intro hex
    obtain ⟨pre, e, post, hsplit, he, hpre⟩ := first_split id _ hex
    have hlen2 : pre.length + 1 + post.length = st.mqtt_pending_count.toNat := by
      rw [← htl, hsplit]; simp; omega
    have hi0 : ((pre.length : Nat) : Int) < st.mqtt_pending_count := by omega
    have hat : (st.mqtt_pending_msgs.getD pre.length zero_pending) = e := by
      have h1 := table_getD st hinv' pre.length hi0
      have h2 : (pre ++ e :: post)[pre.length]? = some e := by
        rw [List.getElem?_append_right (Nat.le_refl _)]; simp
      rw [hsplit, h2] at h1
      exact (Option.some.inj h1).symm
    have hbefore : ∀ k : Nat, k < pre.length →
        (st.mqtt_pending_msgs.getD k zero_pending).msg_id ≠ id := by
      intro k hk
      have h1 := table_getD st hinv' k (by omega)
      rw [hsplit, List.getElem?_append_left hk, List.getElem?_eq_getElem hk] at h1
      have h2 : st.mqtt_pending_msgs.getD k zero_pending = pre[k] := by
        simpa using h1.symm
      rw [h2]
      exact hpre _ (List.getElem_mem _)
    have hscan := published_scan_found id st pre.length hi0 hbefore (by rw [hat]; exact he)
      st.mqtt_pending_count.toNat 0 (Nat.zero_le _) (by omega)
    have hres : mqtt_event_handler env (.MQTT_EVENT_PUBLISHED id) st dns =
        (published_removed st pre.length, dns) := by
      show (published_scan id st.mqtt_pending_count.toNat 0 st, dns) = _
      rw [hscan]
    rw [hres]
    refine ⟨rfl, pre, e, post, hsplit, he, hpre, ?_⟩
    obtain ⟨c, hc⟩ : ∃ c : Nat, st.mqtt_pending_count = (c : Int) :=
      ⟨st.mqtt_pending_count.toNat, by omega⟩
    have hsplit' : List.take c st.mqtt_pending_msgs = pre ++ e :: post := by
      have := hsplit
      unfold pending_table at this
      rw [hc] at this
      simpa using this
    unfold pending_table published_removed
    simp only [hc, Int.toNat_ofNat]
    have e1 : ((c : Int) - 1).toNat = c - 1 := by omega
    rw [e1, pending_shift_left_table c pre.length _ (by omega) (by omega), hsplit',
      eraseIdx_split]
  · intro hall
    have hnone : ∀ k : Nat, (k : Int) < st.mqtt_pending_count →
        (st.mqtt_pending_msgs.getD k zero_pending).msg_id ≠ id := by
      intro k hk
      have h1 := table_getD st hinv' k hk
      exact hall _ (List.getElem?_mem h1)
    show (published_scan id st.mqtt_pending_count.toNat 0 st, dns) = _
    rw [published_scan_none id st hnone]

/-- C14: for every throttle state and every tick `now` read by
`mqtt_throttle_check`, the result is true iff `batch_count < MQTT_BATCH_SIZE`
or `now - last_batch_time`, modulo 2^32, is at least the batch delay in ticks
(`pdMS_TO_TICKS(MQTT_BATCH_DELAY_MS)`); when `batch_count ≥ MQTT_BATCH_SIZE` and
the delay has elapsed the state becomes `batch_count = 0` with
`last_batch_time` the tick read by `mqtt_throttle_reset_batch` (`now` again
unless a tick elapsed in between), and in every other case the state is
unchanged. -/
theorem mqtt_throttle_check_spec (batch_delay_ticks now reset_tick : Nat) (st : MqttState) :
    ((mqtt_throttle_check batch_delay_ticks now reset_tick st).1 = true ↔
      (st.mqtt_batch_count < MQTT_BATCH_SIZE ∨
        u32_sub now st.last_batch_time ≥ batch_delay_ticks)) ∧
    (st.mqtt_batch_count ≥ MQTT_BATCH_SIZE ∧
        u32_sub now st.last_batch_time ≥ batch_delay_ticks →
      (mqtt_throttle_check batch_delay_ticks now reset_tick st).2 =
        { st with mqtt_batch_count := 0, last_batch_time := reset_tick }) ∧
    (¬ (st.mqtt_batch_count ≥ MQTT_BATCH_SIZE ∧
        u32_sub now st.last_batch_time ≥ batch_delay_ticks) →
      (mqtt_throttle_check batch_delay_ticks now reset_tick st).2 = st) := by
  have hB : MQTT_BATCH_SIZE = 3 := rfl
  by_cases h0 : st.mqtt_batch_count = 0
  · have e : mqtt_throttle_check batch_delay_ticks now reset_tick st = (true, st) := by
      unfold mqtt_throttle_check
      simp [h0]
    rw [e]
    exact ⟨⟨fun _ => Or.inl (by omega), fun _ => rfl⟩, fun h => (by omega), fun _ => rfl⟩
  · by_cases hfull : st.mqtt_batch_count ≥ MQTT_BATCH_SIZE
    · by_cases hd : u32_sub now st.last_batch_time ≥ batch_delay_ticks
      · have e : mqtt_throttle_check batch_delay_ticks now reset_tick st =
            (true, { st with mqtt_batch_count := 0, last_batch_time := reset_tick }) := by
          unfold mqtt_throttle_check mqtt_throttle_reset_batch
          simp [h0, hfull, hd]
        rw [e]
        exact ⟨⟨fun _ => Or.inr hd, fun _ => rfl⟩, fun _ => rfl,
          fun h => absurd ⟨hfull, hd⟩ h⟩
      · have e : mqtt_throttle_check batch_delay_ticks now reset_tick st = (false, st) := by
          unfold mqtt_throttle_check
          simp [h0, hfull, hd]
        rw [e]
        refine ⟨⟨fun h => (by cases h), fun h => ?_⟩, fun h => absurd h.2 hd, fun _ => rfl⟩
        rcases h with h | h
        · omega
        · exact absurd h hd
    · have hlt : st.mqtt_batch_count < MQTT_BATCH_SIZE := by omega
      have e : mqtt_throttle_check batch_delay_ticks now reset_tick st = (true, st) := by
        unfold mqtt_throttle_check
        simp [h0, hfull, hlt]
      rw [e]
      exact ⟨⟨fun _ => Or.inl hlt, fun _ => rfl⟩, fun h => absurd h.1 hfull, fun _ => rfl⟩

/-- Witness of C14: a full batch closed at tick 1000, consulted 150 ticks and
200 ticks later with a delay of 200 ticks. -/
theorem mqtt_throttle_check_spec_witness :
    (mqtt_throttle_check 200 1150 1150
      { sample_mqtt_state [] with mqtt_batch_count := 3, last_batch_time := 1000 }).2 =
      { sample_mqtt_state [] with mqtt_batch_count := 3, last_batch_time := 1000 } ∧
    (mqtt_throttle_check 200 1200 1200
      { sample_mqtt_state [] with mqtt_batch_count := 3, last_batch_time := 1000 }).2 =
      { sample_mqtt_state [] with mqtt_batch_count := 0, last_batch_time := 1200 } ∧
    (mqtt_throttle_check 200 1200 1200
      { sample_mqtt_state [] with mqtt_batch_count := 3, last_batch_time := 1000 }).1 = true :=
  ⟨(mqtt_throttle_check_spec 200 1150 1150
      { sample_mqtt_state [] with mqtt_batch_count := 3, last_batch_time := 1000 }).2.2
      (by decide),
   (mqtt_throttle_check_spec 200 1200 1200
      { sample_mqtt_state [] with mqtt_batch_count := 3, last_batch_time := 1000 }).2.1
      (by decide),
   (mqtt_throttle_check_spec 200 1200 1200
      { sample_mqtt_state [] with mqtt_batch_count := 3, last_batch_time := 1000 }).1.mpr
      (by decide)⟩

/-- C15: for every well-formed pending-publish table and every `msg_id`,
handling `MQTT_EVENT_PUBLISHED(msg_id)`: if some entry has that `msg_id`,
`mqtt_messages_sent` is incremented once (as a `uint32_t`) and the first entry
with that `msg_id` is removed, every other entry being kept in its order; if no
entry has that `msg_id`, the whole state is unchanged. -/
theorem published_removes_one (env : HandlerEnv) (id : Int) (st : MqttState) (dns : DnsState)
    (hinv : PendingInv st) :
    ((∃ e ∈ pending_table st, e.msg_id = id) →
      (mqtt_event_handler env (.MQTT_EVENT_PUBLISHED id) st dns).1.mqtt_messages_sent =
        u32_add st.mqtt_messages_sent 1 ∧
      ∃ pre e post, pending_table st = pre ++ e :: post ∧ e.msg_id = id ∧
        (∀ x ∈ pre, x.msg_id ≠ id) ∧
        pending_table (mqtt_event_handler env (.MQTT_EVENT_PUBLISHED id) st dns).1 =
          pre ++ post) ∧
    ((∀ e ∈ pending_table st, e.msg_id ≠ id) →
      mqtt_event_handler env (.MQTT_EVENT_PUBLISHED id) st dns = (st, dns)) :=
  published_spec env id st dns hinv

/-- Witness of C15: a table of three entries, the acknowledgement of the
second and an acknowledgement that matches none. -/
theorem published_removes_one_witness :
    ((mqtt_event_handler sample_handler_env (.MQTT_EVENT_PUBLISHED 12)
        (sample_mqtt_state [sample_pending 11 1 false, sample_pending 12 2 true,
          sample_pending 13 3 false]) (sample_dns_state none)).1.mqtt_messages_sent =
        u32_add 7 1 ∧
      ∃ pre e post,
        pending_table (sample_mqtt_state [sample_pending 11 1 false, sample_pending 12 2 true,
          sample_pending 13 3 false]) = pre ++ e :: post ∧ e.msg_id = 12 ∧
        (∀ x ∈ pre, x.msg_id ≠ 12) ∧
        pending_table (mqtt_event_handler sample_handler_env (.MQTT_EVENT_PUBLISHED 12)
          (sample_mqtt_state [sample_pending 11 1 false, sample_pending 12 2 true,
            sample_pending 13 3 false]) (sample_dns_state none)).1 = pre ++ post) ∧
    mqtt_event_handler sample_handler_env (.MQTT_EVENT_PUBLISHED 99)
        (sample_mqtt_state [sample_pending 11 1 false, sample_pending 12 2 true,
          sample_pending 13 3 false]) (sample_dns_state none) =
      (sample_mqtt_state [sample_pending 11 1 false, sample_pending 12 2 true,
        sample_pending 13 3 false], sample_dns_state none) :=
  ⟨(published_removes_one sample_handler_env 12
      (sample_mqtt_state [sample_pending 11 1 false, sample_pending 12 2 true,
        sample_pending 13 3 false]) (sample_dns_state none) (by decide)).1
      ⟨sample_pending 12 2 true, by decide, rfl⟩,
   (published_removes_one sample_handler_env 99
      (sample_mqtt_state [sample_pending 11 1 false, sample_pending 12 2 true,
        sample_pending 13 3 false]) (sample_dns_state none) (by decide)).2 (by decide)⟩

theorem pending_append_spec (entry : mqtt_pending_t) (st : MqttState) (hinv : PendingInv st)
    (hlt : st.mqtt_pending_count < (MAX_PENDING_MSGS : Int)) :
    pending_table (pending_append entry st) = pending_table st ++ [entry] ∧
      (pending_append entry st).mqtt_messages_sent = st.mqtt_messages_sent := by
  obtain ⟨h0, hmax, hlen⟩ := hinv
  have hM : MAX_PENDING_MSGS = 10 := rfl
  obtain ⟨c, hc⟩ : ∃ c : Nat, st.mqtt_pending_count = (c : Int) :=
    ⟨st.mqtt_pending_count.toNat, by omega⟩
  have hcl : c < st.mqtt_pending_msgs.length := by omega
  unfold pending_append pending_table
  simp only [hlt, if_true, and_true]
  simp only [hc, Int.toNat_ofNat]
  have e1 : ((c : Int) + 1).toNat = c + 1 := by omega
  rw [e1]
  apply List.ext_getElem?
  intro k
  rw [List.getElem?_take, List.getElem?_set]
  by_cases hk : k < c
  · have h1 : k < c + 1 := by omega
    have h2 : c ≠ k := by omega
    rw [List.getElem?_append_left (by rw [List.length_take]; omega), List.getElem?_take]
    simp [h1, h2, hk]
  · by_cases hk2 : k = c
    · subst hk2
      rw [List.getElem?_append_right (by rw [List.length_take]; omega)]
      simp [hcl, Nat.min_eq_left (Nat.le_of_lt hcl)]
    · have h1 : ¬ k < c + 1 := by omega
      rw [List.getElem?_append_right (by rw [List.length_take]; omega)]
      simp only [h1, if_false]
      rw [List.length_take, Nat.min_eq_left (Nat.le_of_lt hcl)]
      have : k - c ≠ 0 := by omega
      cases hkc : k - c with
      | zero => omega
      | succ n => rfl

theorem pending_append_inv (entry : mqtt_pending_t) (st : MqttState) (hinv : PendingInv st) :
    PendingInv (pending_append entry st) := by
  obtain ⟨h0, hmax, hlen⟩ := hinv
  unfold pending_append
  split
  · rename_i hlt
    refine ⟨?_, ?_, ?_⟩
    · show 0 ≤ st.mqtt_pending_count + 1
      omega
    · show st.mqtt_pending_count + 1 ≤ (MAX_PENDING_MSGS : Int)
      omega
    · show (st.mqtt_pending_msgs.set _ _).length = MAX_PENDING_MSGS
      rw [List.length_set]; exact hlen
  · exact ⟨h0, hmax, hlen⟩

theorem published_scan_inv (id : Int) (st : MqttState) (hinv : PendingInv st) :
    ∀ (fuel i : Nat), PendingInv (published_scan id fuel i st) := by
  obtain ⟨h0, hmax, hlen⟩ := hinv
  intro fuel
  induction fuel with
  | zero => intro i; exact ⟨h0, hmax, hlen⟩
  | succ fuel ih =>
    intro i
    unfold published_scan
    split
    · rename_i hi
      split
      · refine ⟨?_, ?_, ?_⟩
        · show 0 ≤ st.mqtt_pending_count - 1
          omega
        · show st.mqtt_pending_count - 1 ≤ (MAX_PENDING_MSGS : Int)
          omega
        · show (pending_shift_left _ _ _ _).length = MAX_PENDING_MSGS
          rw [pending_shift_left_length]; exact hlen
      · exact ih (i + 1)
    · exact ⟨h0, hmax, hlen⟩

theorem mqtt_event_handler_inv (env : HandlerEnv) (event : mqtt_event) (st : MqttState)
    (dns : DnsState) (hinv : PendingInv st) :
    PendingInv (mqtt_event_handler env event st dns).1 := by
  cases event with
  | MQTT_EVENT_CONNECTED => exact hinv
  | MQTT_EVENT_DISCONNECTED =>
    unfold mqtt_event_handler count_failure
    dsimp only
    split <;> exact hinv
  | MQTT_EVENT_PUBLISHED id => exact published_scan_inv id st hinv _ _
  | MQTT_EVENT_ERROR =>
    unfold mqtt_event_handler count_failure
    dsimp only
    split <;> exact hinv
  | MQTT_EVENT_DATA => exact hinv
  | MQTT_EVENT_OTHER => exact hinv

theorem mqtt_publish_measurement_inv (env : PublishEnv)
    (measurement : Option measurement_data_t) (st : MqttState) (hinv : PendingInv st) :
    PendingInv (mqtt_publish_measurement env measurement st).2 := by
  unfold mqtt_publish_measurement
  cases measurement with
  | none => exact hinv
  | some m =>
    dsimp only
    repeat' split
    all_goals first
      | exact hinv
      | exact pending_append_inv _ _ hinv

theorem backlog_submitted_inv (env : TaskEnv) (msg_id : Int) (m : measurement_data_t)
    (st : MqttState) (locals : PublishLocals) (hinv : PendingInv st) :
    PendingInv (backlog_submitted env msg_id m st locals).1 := by
  unfold backlog_submitted
  dsimp only
  repeat' split
  all_goals first
    | exact hinv
    | exact pending_append_inv _ _ hinv


theorem throttle_keeps (d now r : Nat) (st : MqttState) :
    (mqtt_throttle_check d now r st).2 = st ∨
      (mqtt_throttle_check d now r st).2 =
        { st with mqtt_batch_count := 0, last_batch_time := r } := by
  unfold mqtt_throttle_check mqtt_throttle_reset_batch
  repeat' split
  all_goals first
    | exact Or.inl rfl
    | exact Or.inr rfl

theorem backlog_submitted_table (env : TaskEnv) (msg_id : Int) (m : measurement_data_t)
    (st : MqttState) (locals : PublishLocals) (hinv : PendingInv st)
    (hlt : st.mqtt_pending_count < (MAX_PENDING_MSGS : Int)) :
    pending_table (backlog_submitted env msg_id m st locals).1 =
        pending_table st ++ [{ msg_id := msg_id, measurement := m, is_stored := true }] ∧
      (backlog_submitted env msg_id m st locals).1.mqtt_messages_sent =
        st.mqtt_messages_sent := by
  unfold backlog_submitted
  dsimp only
  split
  · have h := pending_append_spec { msg_id := msg_id, measurement := m, is_stored := true }
      (mqtt_throttle_reset_batch env.batch_reset_tick
        { st with
          mqtt_publish_attempts := u32_add st.mqtt_publish_attempts 1
          mqtt_batch_count := u32_add st.mqtt_batch_count 1
          last_mqtt_activity_time := env.backlog_activity_tick
          last_batch_time := env.batch_full_tick }) hinv hlt
    have hlt' : (mqtt_throttle_reset_batch env.batch_reset_tick
        { st with
          mqtt_publish_attempts := u32_add st.mqtt_publish_attempts 1
          mqtt_batch_count := u32_add st.mqtt_batch_count 1
          last_mqtt_activity_time := env.backlog_activity_tick
          last_batch_time := env.batch_full_tick }).mqtt_pending_count <
        (MAX_PENDING_MSGS : Int) := hlt
    simp only [hlt', if_true]
    exact h
  · have h := pending_append_spec { msg_id := msg_id, measurement := m, is_stored := true }
      { st with
        mqtt_publish_attempts := u32_add st.mqtt_publish_attempts 1
        mqtt_batch_count := u32_add st.mqtt_batch_count 1
        last_mqtt_activity_time := env.backlog_activity_tick } hinv hlt
    simp only [hlt, if_true]
    exact h

theorem published_counts (env : HandlerEnv) (st : MqttState) (dns : DnsState)
    (hinv : PendingInv st) (tbl : List mqtt_pending_t) (entry : mqtt_pending_t)
    (htbl : pending_table st = tbl ++ [entry]) :
    (mqtt_event_handler env (.MQTT_EVENT_PUBLISHED entry.msg_id) st dns).1.mqtt_messages_sent =
      u32_add st.mqtt_messages_sent 1 :=
  ((published_spec env entry.msg_id st dns hinv).1
    ⟨entry, by rw [htbl]; simp, rfl⟩).1

theorem backlog_submitted_full (env : TaskEnv) (msg_id : Int) (m : measurement_data_t)
    (st : MqttState) (locals : PublishLocals)
    (hfull : ¬ st.mqtt_pending_count < (MAX_PENDING_MSGS : Int)) :
    (backlog_submitted env msg_id m st locals).1.mqtt_pending_msgs = st.mqtt_pending_msgs ∧
    (backlog_submitted env msg_id m st locals).1.mqtt_pending_count = st.mqtt_pending_count ∧
    (backlog_submitted env msg_id m st locals).2 = locals := by
  unfold backlog_submitted mqtt_throttle_reset_batch
  dsimp only
  split
  · simp [hfull]
  · simp [hfull]

theorem pending_table_congr (a b : MqttState)
    (h1 : a.mqtt_pending_msgs = b.mqtt_pending_msgs)
    (h2 : a.mqtt_pending_count = b.mqtt_pending_count) : pending_table a = pending_table b := by
  unfold pending_table
  rw [h1, h2]

/-- Counterexample to C16 as stated: with ten unacknowledged entries in the
table, a direct publish for which the broker returns message id 42 succeeds
but appends nothing, and the later `MQTT_EVENT_PUBLISHED(42)` matches no entry
and is not counted in `mqtt_messages_sent`. -/
theorem full_table_drops_submission :
    (42 : Int) ≥ 0 ∧
    (mqtt_publish_measurement { mqtt_mutex_taken := true, publish_msg_id := 42, tick := 1000 }
      (some (sample_measurement 42)) (sample_mqtt_state full_table)).1 = true ∧
    pending_table (mqtt_publish_measurement
      { mqtt_mutex_taken := true, publish_msg_id := 42, tick := 1000 }
      (some (sample_measurement 42)) (sample_mqtt_state full_table)).2 = full_table ∧
    (mqtt_event_handler sample_handler_env (.MQTT_EVENT_PUBLISHED 42)
      (mqtt_publish_measurement { mqtt_mutex_taken := true, publish_msg_id := 42, tick := 1000 }
        (some (sample_measurement 42)) (sample_mqtt_state full_table)).2
      (sample_dns_state none)).1.mqtt_messages_sent =
      (sample_mqtt_state full_table).mqtt_messages_sent := by
  decide

/-- C16, amended: while the pending-publish table holds fewer than
`MAX_PENDING_MSGS` entries, a publish submission for which the broker returns
a non-negative message id appends `{msg_id, measurement, was_from_backlog}` to
the table, with `was_from_backlog` false for a direct publish
(`mqtt_publish_measurement`) and true for a backlog publish (the backlog step
of `mqtt_publish_task`), and the `MQTT_EVENT_PUBLISHED` with that id handled
next is matched and counted in `mqtt_messages_sent`. When the table is full,
the same submission, direct or from the backlog, appends nothing: the array,
the count and so the table are what they were. -/
theorem submission_is_recorded (m : measurement_data_t) (henv : HandlerEnv) (dns : DnsState) :
    (∀ (env : PublishEnv) (st : MqttState), PendingInv st →
      st.mqtt_pending_count < (MAX_PENDING_MSGS : Int) → st.mqtt_client = true →
      env.mqtt_mutex_taken = true → env.publish_msg_id ≥ 0 →
      (mqtt_publish_measurement env (some m) st).1 = true ∧
      pending_table (mqtt_publish_measurement env (some m) st).2 =
        pending_table st ++
          [{ msg_id := env.publish_msg_id, measurement := m, is_stored := false }] ∧
      (mqtt_event_handler henv (.MQTT_EVENT_PUBLISHED env.publish_msg_id)
        (mqtt_publish_measurement env (some m) st).2 dns).1.mqtt_messages_sent =
        u32_add st.mqtt_messages_sent 1) ∧
    (∀ (N : Nat) (env : TaskEnv) (ps : PublisherState) (spiffs : SpiffsState),
      PendingInv ps.mqtt → ps.mqtt.mqtt_pending_count < (MAX_PENDING_MSGS : Int) →
      ps.mqtt.mqtt_client = true →
      (mqtt_throttle_check env.batch_delay_ticks env.throttle_tick env.throttle_reset_tick
        ps.mqtt).1 = true →
      spiffs_get_and_remove_next_measurement N env.get_io true ps.spiffs =
        (.ESP_OK, some m, spiffs) →
      env.backlog_mutex = true → env.backlog_msg_id ≥ 0 →
      pending_table (backlog_step N env ps).mqtt =
        pending_table ps.mqtt ++
          [{ msg_id := env.backlog_msg_id, measurement := m, is_stored := true }] ∧
      (mqtt_event_handler henv (.MQTT_EVENT_PUBLISHED env.backlog_msg_id)
        (backlog_step N env ps).mqtt dns).1.mqtt_messages_sent =
        u32_add ps.mqtt.mqtt_messages_sent 1) ∧
    (∀ (env : PublishEnv) (st : MqttState),
      ¬ st.mqtt_pending_count < (MAX_PENDING_MSGS : Int) → st.mqtt_client = true →
      env.mqtt_mutex_taken = true → env.publish_msg_id ≥ 0 →
      (mqtt_publish_measurement env (some m) st).1 = true ∧
      (mqtt_publish_measurement env (some m) st).2.mqtt_pending_msgs = st.mqtt_pending_msgs ∧
      (mqtt_publish_measurement env (some m) st).2.mqtt_pending_count =
        st.mqtt_pending_count ∧
      pending_table (mqtt_publish_measurement env (some m) st).2 = pending_table st) ∧
    (∀ (N : Nat) (env : TaskEnv) (ps : PublisherState) (spiffs : SpiffsState),
      ¬ ps.mqtt.mqtt_pending_count < (MAX_PENDING_MSGS : Int) →
      ps.mqtt.mqtt_client = true →
      (mqtt_throttle_check env.batch_delay_ticks env.throttle_tick env.throttle_reset_tick
        ps.mqtt).1 = true →
      spiffs_get_and_remove_next_measurement N env.get_io true ps.spiffs =
        (.ESP_OK, some m, spiffs) →
      env.backlog_mutex = true → env.backlog_msg_id ≥ 0 →
      (backlog_step N env ps).mqtt.mqtt_pending_msgs = ps.mqtt.mqtt_pending_msgs ∧
      (backlog_step N env ps).mqtt.mqtt_pending_count = ps.mqtt.mqtt_pending_count ∧
      pending_table (backlog_step N env ps).mqtt = pending_table ps.mqtt ∧
      (backlog_step N env ps).spiffs = spiffs) := by
  refine ⟨?_, ?_, ?_, ?_⟩
  · intro env st hinv hroom hclient hmutex hid
    have hres : mqtt_publish_measurement env (some m) st =
        (true, pending_append
          { msg_id := env.publish_msg_id, measurement := m, is_stored := false }
          { st with
            mqtt_publish_attempts := u32_add st.mqtt_publish_attempts 1
            last_mqtt_activity_time := env.tick }) := by
      unfold mqtt_publish_measurement
      simp [hclient, hmutex, hid]
    have hspec := pending_append_spec
      { msg_id := env.publish_msg_id, measurement := m, is_stored := false }
      { st with
        mqtt_publish_attempts := u32_add st.mqtt_publish_attempts 1
        last_mqtt_activity_time := env.tick } hinv hroom
    have hinv2 := pending_append_inv
      { msg_id := env.publish_msg_id, measurement := m, is_stored := false }
      { st with
        mqtt_publish_attempts := u32_add st.mqtt_publish_attempts 1
        last_mqtt_activity_time := env.tick } hinv
    rw [hres]
    refine ⟨rfl, hspec.1, ?_⟩
    have h := published_counts henv _ dns hinv2 _ _ hspec.1
    rw [hspec.2] at h
    exact h
  · intro N env ps spiffs hinv hroom hclient hthrottle hget hmutex hid
    have hkeep := throttle_keeps env.batch_delay_ticks env.throttle_tick
      env.throttle_reset_tick ps.mqtt
    have hinv1 : PendingInv (mqtt_throttle_check env.batch_delay_ticks env.throttle_tick
        env.throttle_reset_tick ps.mqtt).2 := by
      rcases hkeep with h | h <;> rw [h] <;> exact hinv
    have hroom1 : (mqtt_throttle_check env.batch_delay_ticks env.throttle_tick
        env.throttle_reset_tick ps.mqtt).2.mqtt_pending_count < (MAX_PENDING_MSGS : Int) := by
      rcases hkeep with h | h <;> rw [h] <;> exact hroom
    have hclient1 : (mqtt_throttle_check env.batch_delay_ticks env.throttle_tick
        env.throttle_reset_tick ps.mqtt).2.mqtt_client = true := by
      rcases hkeep with h | h <;> rw [h] <;> exact hclient
    have htbl1 : pending_table (mqtt_throttle_check env.batch_delay_ticks env.throttle_tick
        env.throttle_reset_tick ps.mqtt).2 = pending_table ps.mqtt := by
      rcases hkeep with h | h
      · rw [h]
      · rw [h]; rfl
    have hsent1 : (mqtt_throttle_check env.batch_delay_ticks env.throttle_tick
        env.throttle_reset_tick ps.mqtt).2.mqtt_messages_sent = ps.mqtt.mqtt_messages_sent := by
      rcases hkeep with h | h
      · rw [h]
      · rw [h]
    have hres : (backlog_step N env ps).mqtt =
        (backlog_submitted env env.backlog_msg_id m
          (mqtt_throttle_check env.batch_delay_ticks env.throttle_tick
            env.throttle_reset_tick ps.mqtt).2 ps.locals).1 := by
      unfold backlog_step
      simp [hthrottle, hget, hmutex, hclient1, hid]
    have hspec := backlog_submitted_table env env.backlog_msg_id m _ ps.locals hinv1 hroom1
    have hinv2 := backlog_submitted_inv env env.backlog_msg_id m _ ps.locals hinv1
    rw [hres]
    refine ⟨by rw [hspec.1, htbl1], ?_⟩
    have h := published_counts henv _ dns hinv2 _ _ hspec.1
    rw [hspec.2, hsent1] at h
    exact h
  · intro env st hfull hclient hmutex hid
    have hres : mqtt_publish_measurement env (some m) st =
        (true, pending_append
          { msg_id := env.publish_msg_id, measurement := m, is_stored := false }
          { st with
            mqtt_publish_attempts := u32_add st.mqtt_publish_attempts 1
            last_mqtt_activity_time := env.tick }) := by
      unfold mqtt_publish_measurement
      simp [hclient, hmutex, hid]
    have hkeep : pending_append
        { msg_id := env.publish_msg_id, measurement := m, is_stored := false }
        { st with
          mqtt_publish_attempts := u32_add st.mqtt_publish_attempts 1
          last_mqtt_activity_time := env.tick } =
        { st with
          mqtt_publish_attempts := u32_add st.mqtt_publish_attempts 1
          last_mqtt_activity_time := env.tick } := by
      unfold pending_append
      simp only [hfull, if_false]
    rw [hres, hkeep]
    exact ⟨rfl, rfl, rfl, rfl⟩
  · intro N env ps spiffs hfull hclient hthrottle hget hmutex hid
    have hkeep := throttle_keeps env.batch_delay_ticks env.throttle_tick
      env.throttle_reset_tick ps.mqtt
    have hfull1 : ¬ (mqtt_throttle_check env.batch_delay_ticks env.throttle_tick
        env.throttle_reset_tick ps.mqtt).2.mqtt_pending_count < (MAX_PENDING_MSGS : Int) := by
      rcases hkeep with h | h <;> rw [h] <;> exact hfull
    have hclient1 : (mqtt_throttle_check env.batch_delay_ticks env.throttle_tick
        env.throttle_reset_tick ps.mqtt).2.mqtt_client = true := by
      rcases hkeep with h | h <;> rw [h] <;> exact hclient
    have hmsgs1 : (mqtt_throttle_check env.batch_delay_ticks env.throttle_tick
        env.throttle_reset_tick ps.mqtt).2.mqtt_pending_msgs = ps.mqtt.mqtt_pending_msgs := by
      rcases hkeep with h | h <;> rw [h]
    have hcount1 : (mqtt_throttle_check env.batch_delay_ticks env.throttle_tick
        env.throttle_reset_tick ps.mqtt).2.mqtt_pending_count = ps.mqtt.mqtt_pending_count := by
      rcases hkeep with h | h <;> rw [h]
    have hres : backlog_step N env ps =
        { ps with
          spiffs := spiffs
          mqtt := (backlog_submitted env env.backlog_msg_id m
            (mqtt_throttle_check env.batch_delay_ticks env.throttle_tick
              env.throttle_reset_tick ps.mqtt).2 ps.locals).1
          locals := (backlog_submitted env env.backlog_msg_id m
            (mqtt_throttle_check env.batch_delay_ticks env.throttle_tick
              env.throttle_reset_tick ps.mqtt).2 ps.locals).2 } := by
      unfold backlog_step
      simp [hthrottle, hget, hmutex, hclient1, hid]
    obtain ⟨k1, k2, _⟩ := backlog_submitted_full env env.backlog_msg_id m _ ps.locals hfull1
    rw [hres]
    refine ⟨by rw [k1, hmsgs1], by rw [k2, hcount1], ?_, rfl⟩
    exact pending_table_congr _ _ (by rw [k1, hmsgs1]) (by rw [k2, hcount1])

/-- Witness of C16, amended: a direct publish and a backlog publish on a table
that holds one entry, then on a full table. -/
theorem submission_is_recorded_witness :
    pending_table (mqtt_publish_measurement
      { mqtt_mutex_taken := true, publish_msg_id := 42, tick := 1000 }
      (some (sample_measurement 1)) (sample_mqtt_state [sample_pending 11 7 false])).2 =
      pending_table (sample_mqtt_state [sample_pending 11 7 false]) ++
        [{ msg_id := 42, measurement := sample_measurement 1, is_stored := false }] ∧
    pending_table (backlog_step 10 (flush_env 1000 42) flush_start).mqtt =
      pending_table flush_start.mqtt ++
        [{ msg_id := 42, measurement := sample_measurement 1, is_stored := true }] ∧
    pending_table (mqtt_publish_measurement
      { mqtt_mutex_taken := true, publish_msg_id := 42, tick := 1000 }
      (some (sample_measurement 42)) (sample_mqtt_state full_table)).2 =
      pending_table (sample_mqtt_state full_table) ∧
    pending_table (backlog_step 10 (flush_env 1000 42) full_table_flush).mqtt =
      pending_table full_table_flush.mqtt :=
  ⟨((submission_is_recorded (sample_measurement 1) sample_handler_env
      (sample_dns_state none)).1
      { mqtt_mutex_taken := true, publish_msg_id := 42, tick := 1000 }
      (sample_mqtt_state [sample_pending 11 7 false]) (by decide) (by decide) rfl rfl
      (by decide)).2.1,
   ((submission_is_recorded (sample_measurement 1) sample_handler_env
      (sample_dns_state none)).2.1 10 (flush_env 1000 42) flush_start
      (spiffs_get_and_remove_next_measurement 10 (flush_env 1000 42).get_io true
        flush_start.spiffs).2.2
      (by decide) (by decide) rfl (by decide) (by decide) rfl (by decide)).1,
   ((submission_is_recorded (sample_measurement 42) sample_handler_env
      (sample_dns_state none)).2.2.1
      { mqtt_mutex_taken := true, publish_msg_id := 42, tick := 1000 }
      (sample_mqtt_state full_table) (by decide) rfl rfl (by decide)).2.2.2,
   ((submission_is_recorded (sample_measurement 1) sample_handler_env
      (sample_dns_state none)).2.2.2 10 (flush_env 1000 42) full_table_flush
      (spiffs_get_and_remove_next_measurement 10 (flush_env 1000 42).get_io true
        full_table_flush.spiffs).2.2
      (by decide) rfl (by decide) (by decide) rfl (by decide)).2.2.1⟩

theorem apply_pending_ops_inv (ops : List PendingOp) :
    ∀ (s : MqttState × DnsState), PendingInv s.1 →
      PendingInv (ops.foldl (fun s op => apply_pending_op op s) s).1 := by
  induction ops with
  | nil => intro s h; exact h
  | cons op rest ih =>
    intro s h
    apply ih
    cases op with
    | direct env m => exact mqtt_publish_measurement_inv env (some m) s.1 h
    | backlog env msg_id m locals => exact backlog_submitted_inv env msg_id m s.1 locals h
    | event env ev => exact mqtt_event_handler_inv env ev s.1 s.2 h

/-- C17: `0 ≤ mqtt_pending_count ≤ MAX_PENDING_MSGS` holds at boot and after
every sequence, in any order, of direct submissions
(`mqtt_publish_measurement`), recorded backlog submissions and broker session
events, `MQTT_EVENT_PUBLISHED` with a matching id or not among them. -/
theorem pending_count_bounded (ops : List PendingOp) (dns : DnsState) :
    0 ≤ (ops.foldl (fun s op => apply_pending_op op s)
      (boot_mqtt_state, dns)).1.mqtt_pending_count ∧
    (ops.foldl (fun s op => apply_pending_op op s)
      (boot_mqtt_state, dns)).1.mqtt_pending_count ≤ (MAX_PENDING_MSGS : Int) := by
  have hboot : PendingInv boot_mqtt_state := by decide
  have h := apply_pending_ops_inv ops (boot_mqtt_state, dns) hboot
  exact ⟨h.1, h.2.1⟩

theorem backlog_submitted_never_full (env : TaskEnv) (msg_id : Int) (m : measurement_data_t)
    (st : MqttState) (locals : PublishLocals) :
    (backlog_submitted env msg_id m st locals).1.mqtt_batch_count < MQTT_BATCH_SIZE := by
  have hB : MQTT_BATCH_SIZE = 3 := rfl
  unfold backlog_submitted pending_append mqtt_throttle_reset_batch
  dsimp only
  repeat' split
  all_goals first
    | (show (0 : Nat) < MQTT_BATCH_SIZE; omega)
    | (show u32_add st.mqtt_batch_count 1 < MQTT_BATCH_SIZE; omega)

/-- C13, the code at the failing input: a flush of scenario S2 (five records,
broker connected, every submission succeeding, iterations 11 ticks apart at 100
ticks per second, batch delay 200 ticks). The third submission, at tick 1022,
fills the batch and `mqtt_batch_count` is reset to 0 at once; the fourth
iteration, 11 ticks (110 ms) later, submits the fourth record. -/
theorem flush_is_not_throttled :
    ((mqtt_publish_task_iteration 10 (flush_env 1022 103)
      (mqtt_publish_task_iteration 10 (flush_env 1011 102)
        (mqtt_publish_task_iteration 10 (flush_env 1000 101)
          flush_start))).mqtt.mqtt_publish_attempts = 3 ∧
    (mqtt_publish_task_iteration 10 (flush_env 1022 103)
      (mqtt_publish_task_iteration 10 (flush_env 1011 102)
        (mqtt_publish_task_iteration 10 (flush_env 1000 101)
          flush_start))).mqtt.mqtt_batch_count = 0 ∧
    (mqtt_publish_task_iteration 10 (flush_env 1022 103)
      (mqtt_publish_task_iteration 10 (flush_env 1011 102)
        (mqtt_publish_task_iteration 10 (flush_env 1000 101)
          flush_start))).mqtt.last_batch_time = 1022) ∧
    u32_sub 1033 1022 < 200 ∧
    (mqtt_publish_task_iteration 10 (flush_env 1033 104)
      (mqtt_publish_task_iteration 10 (flush_env 1022 103)
        (mqtt_publish_task_iteration 10 (flush_env 1011 102)
          (mqtt_publish_task_iteration 10 (flush_env 1000 101)
            flush_start)))).mqtt.mqtt_publish_attempts = 4 ∧
    pending_table (mqtt_publish_task_iteration 10 (flush_env 1033 104)
      (mqtt_publish_task_iteration 10 (flush_env 1022 103)
        (mqtt_publish_task_iteration 10 (flush_env 1011 102)
          (mqtt_publish_task_iteration 10 (flush_env 1000 101)
            flush_start)))).mqtt =
      [sample_pending 101 1 true, sample_pending 102 2 true, sample_pending 103 3 true,
        sample_pending 104 4 true] := by
  decide

/-! ## Errors on the record file and the ring index -/

theorem store_file_error_keeps_index (N : Nat) (env : IoEnv)
    (measurement : Option measurement_data_t) (s : SpiffsState)
    (h : fopen_rw_or_create env s.measurements_file = none ∨ env.rec_fseek_ok = false ∨
      env.rec_fwrite_ok = false) :
    (spiffs_store_measurement N env measurement s).2.ring_idx = s.ring_idx := by
  unfold spiffs_store_measurement
  cases measurement with
  | none => rfl
  | some m =>
    dsimp only
    split
    · rfl
    · split
      · rfl
      · cases hf : fopen_rw_or_create env s.measurements_file with
        | none => rfl
        | some f =>
          rw [hf] at h
          rcases h with h | h | h
          · cases h
          · simp [h]
          · simp only [h]
            split <;> rfl

theorem get_error_keeps_state (N : Nat) (env : IoEnv) (out_nonnull : Bool) (s : SpiffsState)
    (h : (spiffs_get_and_remove_next_measurement N env out_nonnull s).1 ≠ .ESP_OK) :
    (spiffs_get_and_remove_next_measurement N env out_nonnull s).2.2 = s := by
  unfold spiffs_get_and_remove_next_measurement at h ⊢
  split
  · rfl
  · split
    · rfl
    · split
      · rfl
      · rename_i h1 h2 h3
        simp only [h1, h2, h3, if_false] at h
        cases hf : fopen_rb env s.measurements_file with
        | none => rfl
        | some f =>
          rw [hf] at h
          dsimp only at h ⊢
          split
          · rfl
          · rename_i h4
            simp only [h4, if_false] at h
            cases hr : fread_at env f s.ring_idx.tail with
            | none => rfl
            | some r =>
              rw [hr] at h
              exact absurd rfl h

theorem rollback_open_error_keeps_state (N : Nat) (env : IoEnv)
    (measurement : Option measurement_data_t) (s : SpiffsState)
    (h : fopen_rw_or_create env s.measurements_file = none) :
    (spiffs_rollback_measurement N env measurement s).2 = s := by
  unfold spiffs_rollback_measurement
  cases measurement with
  | none => rfl
  | some m =>
    dsimp only
    split
    · rfl
    · split
      · rfl
      · split
        · rfl
        · rw [h]

/-- C30, the call that does not keep the index: when
`spiffs_rollback_measurement` has opened the record file on a ring with
`count < N` and its `fseek` or `fwrite` fails, it returns `ESP_FAIL` with the
in-memory index already changed: `tail` moved one slot back and `count`
increased by one. (`spiffs_store_measurement` and
`spiffs_get_and_remove_next_measurement` leave the index unchanged in the
same situation.) -/
theorem rollback_file_error_moves_index (N : Nat) (hN : N ≤ INT_MAX) (env : IoEnv)
    (m : measurement_data_t) (s : SpiffsState) (f : List measurement_data_t)
    (hinit : s.spiffs_initialized = true) (hmutex : env.mutex_taken = true)
    (hinv : RingInv N s.ring_idx) (hlt : s.ring_idx.count < N)
    (hopen : fopen_rw_or_create env s.measurements_file = some f)
    (hfail : env.rec_fseek_ok = false ∨ env.rec_fwrite_ok = false) :
    (spiffs_rollback_measurement N env (some m) s).1 = .ESP_FAIL ∧
    (spiffs_rollback_measurement N env (some m) s).2.ring_idx =
      rollback_retreat N s.ring_idx ∧
    (spiffs_rollback_measurement N env (some m) s).2.ring_idx.count = s.ring_idx.count + 1 ∧
    (spiffs_rollback_measurement N env (some m) s).2.ring_idx.tail =
      (s.ring_idx.tail + (N - 1)) % N ∧
    (spiffs_rollback_measurement N env (some m) s).2.ring_idx ≠ s.ring_idx := by
  have hN' : N ≤ 2147483647 := hN
  have hge : ¬ s.ring_idx.count ≥ N := by omega
  have hc : (rollback_retreat N s.ring_idx).count = s.ring_idx.count + 1 := by
    show u32_add s.ring_idx.count 1 = _
    exact u32_add_small _ _ (by omega)
  have ht : (rollback_retreat N s.ring_idx).tail = (s.ring_idx.tail + (N - 1)) % N :=
    rollback_tail N s.ring_idx.tail hN hinv.1
  have hne : rollback_retreat N s.ring_idx ≠ s.ring_idx := by
    intro e
    rw [e] at hc
    omega
  have key : spiffs_rollback_measurement N env (some m) s =
      (.ESP_FAIL, { s with measurements_file := some f,
                           ring_idx := rollback_retreat N s.ring_idx }) := by
    unfold spiffs_rollback_measurement
    rcases hfail with h | h
    · simp [hinit, hmutex, hge, hopen, h]
    · simp only [hinit, hmutex, hge, hopen, h]
      simp
  rw [key]
  exact ⟨rfl, rfl, hc, ht, hne⟩

/-- Witness of C30: a rollback into the ring of capacity 3 holding one record
at slot 0, with a failing `fwrite`: `ESP_FAIL` is returned and the index went
from tail 0, count 1 to tail 2, count 2. -/
theorem rollback_file_error_moves_index_witness :
    (spiffs_rollback_measurement 3 write_fault_env (some (sample_measurement 4))
      (sample_state ⟨1, 0, 1, 9⟩ (some [sample_measurement 6]))).1 = .ESP_FAIL ∧
    (spiffs_rollback_measurement 3 write_fault_env (some (sample_measurement 4))
      (sample_state ⟨1, 0, 1, 9⟩ (some [sample_measurement 6]))).2.ring_idx =
        rollback_retreat 3 ⟨1, 0, 1, 9⟩ ∧
    (spiffs_rollback_measurement 3 write_fault_env (some (sample_measurement 4))
      (sample_state ⟨1, 0, 1, 9⟩ (some [sample_measurement 6]))).2.ring_idx.count = 1 + 1 ∧
    (spiffs_rollback_measurement 3 write_fault_env (some (sample_measurement 4))
      (sample_state ⟨1, 0, 1, 9⟩ (some [sample_measurement 6]))).2.ring_idx.tail =
        (0 + (3 - 1)) % 3 ∧
    (spiffs_rollback_measurement 3 write_fault_env (some (sample_measurement 4))
      (sample_state ⟨1, 0, 1, 9⟩ (some [sample_measurement 6]))).2.ring_idx ≠ ⟨1, 0, 1, 9⟩ :=
  rollback_file_error_moves_index 3 (by decide) write_fault_env (sample_measurement 4)
    (sample_state ⟨1, 0, 1, 9⟩ (some [sample_measurement 6])) [sample_measurement 6]
    rfl rfl (by decide) (by decide) rfl (Or.inr rfl)

/-! ## Stores and rollbacks into a ring that is not full: the record file opened or created anew -/

theorem window_cons (N : Nat) (f : List measurement_data_t) (t : Nat)
    (xs : List measurement_data_t) (m : measurement_data_t) (ht : t < N)
    (hlen : xs.length < N) (h : Window N f ((t + 1) % N) xs) :
    Window N (fwrite_at f t m) t (m :: xs) := by
  intro i hi
  cases i with
  | zero => simp [Nat.mod_eq_of_lt ht, fwrite_at_self]
  | succ k =>
    simp only [List.length_cons] at hi
    have hk : k < xs.length := by omega
    have hf := h k hk
    rw [Nat.mod_add_mod] at hf
    have e : t + 1 + k = t + (k + 1) := by omega
    rw [e] at hf
    have hne : (t + (k + 1)) % N ≠ t := by
      have h0 := slot_ne N t 0 (k + 1) (by omega) (by omega)
      rw [Nat.add_zero, Nat.mod_eq_of_lt ht] at h0
      exact fun h' => h0 h'.symm
    have hsome : xs[k]? = some xs[k] := List.getElem?_eq_getElem hk
    have hin : (t + (k + 1)) % N < f.length := by
      by_contra hge
      rw [List.getElem?_eq_none (by omega)] at hf
      rw [hsome] at hf
      cases hf
    rw [fwrite_at_other f t _ m hne hin, hf]
    simp

theorem rollback_ok_state (N : Nat) (env : IoEnv) (m : measurement_data_t) (s : SpiffsState)
    (hinit : s.spiffs_initialized = true) (h : io_ok env) (hlt : s.ring_idx.count < N) :
    (spiffs_rollback_measurement N env (some m) s).2 =
      (save_spiffs_index env
        { s with
          measurements_file :=
            some (fwrite_at (s.measurements_file.getD []) (rollback_retreat N s.ring_idx).tail m)
          ring_idx := rollback_retreat N s.ring_idx }).2 := by
  have hf := fopen_rw_or_create_ok env s.measurements_file h
  have hge : ¬ s.ring_idx.count ≥ N := by omega
  obtain ⟨h0, _, _, h3, _, h5⟩ := h
  unfold spiffs_rollback_measurement
  simp only [hinit, h0, h3, h5, hf, hge, Bool.not_true, if_false, Bool.false_eq_true]
  split <;> simp_all

theorem rollback_step (N : Nat) (hN : N ≤ INT_MAX) (env : IoEnv) (m : measurement_data_t)
    (s : SpiffsState) (xs : List measurement_data_t) (henv : io_ok env)
    (h : Ready N s xs) (hlt : s.ring_idx.count < N) :
    Ready N (spiffs_rollback_measurement N env (some m) s).2 (m :: xs) := by
  obtain ⟨hinit, hinv, hlen, hwin⟩ := h
  have hinv' := rollback_retreat_inv N hN _ hinv hlt
  have hN' : N ≤ 2147483647 := hN
  have ht := rollback_tail N s.ring_idx.tail hN hinv.1
  have htail : (rollback_retreat N s.ring_idx).tail = (s.ring_idx.tail + (N - 1)) % N := ht
  have hback : ((rollback_retreat N s.ring_idx).tail + 1) % N = s.ring_idx.tail := by
    rw [htail, Nat.mod_add_mod]
    have e : s.ring_idx.tail + (N - 1) + 1 = s.ring_idx.tail + N := by
      have := hinv.1
      omega
    rw [e, Nat.add_mod_right, Nat.mod_eq_of_lt hinv.1]
  rw [rollback_ok_state N env m s hinit henv hlt]
  refine ⟨?_, ?_, ?_, ?_⟩
  · rw [save_spiffs_index_spiffs_initialized]; exact hinit
  · rw [save_spiffs_index_ring_idx]; exact hinv'
  · rw [save_spiffs_index_ring_idx]
    show (m :: xs).length = u32_add s.ring_idx.count 1
    rw [u32_add_small _ _ (by omega)]
    simp only [List.length_cons]
    omega
  · rw [save_spiffs_index_ring_idx, save_spiffs_index_measurements_file]
    show Window N (fwrite_at _ (rollback_retreat N s.ring_idx).tail m)
      (rollback_retreat N s.ring_idx).tail (m :: xs)
    apply window_cons N _ _ xs m hinv'.1 (by omega)
    rw [hback]
    exact hwin

theorem window_prefix (N : Nat) (f : List measurement_data_t) (t : Nat)
    (xs ys : List measurement_data_t) (h : Window N f t (xs ++ ys)) :
    ∀ i, i < xs.length → f[(t + i) % N]? = xs[i]? := by
  intro i hi
  rw [h i (by simp; omega), List.getElem?_append_left hi]

theorem fopen_opened (env : IoEnv) (file : Option (List measurement_data_t))
    (f : List measurement_data_t) (hopen : env.rec_fopen_ok = true)
    (hf : fopen_rw_or_create env file = some f) : f = file.getD [] := by
  unfold fopen_rw_or_create at hf
  cases file with
  | none =>
    simp only [hopen, if_true] at hf
    split at hf
    · cases hf; rfl
    · cases hf
  | some g =>
    simp only [hopen, if_true] at hf
    cases hf
    rfl

theorem fwrite_at_nil (slot : Nat) (m : measurement_data_t) :
    fwrite_at [] slot m = List.replicate slot zero_measurement ++ [m] := by
  simp [fwrite_at]

theorem recreated_slot (slot j : Nat) (m : measurement_data_t) (hj : j ≠ slot) :
    (List.replicate slot zero_measurement ++ [m])[j]? =
      if j < slot then some zero_measurement else none := by
  by_cases h : j < slot
  · rw [if_pos h, List.getElem?_append_left (by simpa using h)]
    simp [List.getElem?_replicate, h]
  · rw [if_neg h, List.getElem?_eq_none]
    simp
    omega

theorem store_ok_state (N : Nat) (env : IoEnv) (m : measurement_data_t) (s : SpiffsState)
    (h : (spiffs_store_measurement N env (some m) s).1 = .ESP_OK) :
    ∃ f, fopen_rw_or_create env s.measurements_file = some f ∧
      (spiffs_store_measurement N env (some m) s).2 =
        (save_spiffs_index env
          { s with
            measurements_file :=
              some (fwrite_at f s.ring_idx.head (store_record s.time_synced env m))
            ring_idx := store_advance N s.ring_idx }).2 := by
  unfold spiffs_store_measurement at h ⊢
  dsimp only at h ⊢
  split at h
  · cases h
  · rename_i hinit
    split at h
    · cases h
    · rename_i hmutex
      split at h
      · cases h
      · rename_i f hf
        split at h
        · cases h
        · rename_i hseek
          split at h
          · cases h
          · rename_i hwrite
            refine ⟨f, hf, ?_⟩
            simp only [hinit, hmutex, hf, hseek, hwrite]
            simp

theorem ready_written (N : Nat) (hN : N ≤ INT_MAX) (env : IoEnv) (m : measurement_data_t)
    (s : SpiffsState) (xs : List measurement_data_t) (h : Ready N s xs) :
    Ready N
      (save_spiffs_index env
        { s with
          measurements_file :=
            some (fwrite_at (s.measurements_file.getD []) s.ring_idx.head
              (store_record s.time_synced env m))
          ring_idx := store_advance N s.ring_idx }).2
      ((if s.ring_idx.count < N then xs else xs.drop 1) ++
        [store_record s.time_synced env m]) := by
  have h1 := (store_step N hN
    { env with mutex_taken := true, rec_fopen_ok := true, rec_fopen_wb_ok := true,
               rec_fseek_ok := true, rec_fread_ok := true, rec_fwrite_ok := true }
    m s xs ⟨rfl, rfl, rfl, rfl, rfl, rfl⟩ h).1
  rw [store_ok_eq N _ m s h.1 ⟨rfl, rfl, rfl, rfl, rfl, rfl⟩] at h1
  exact h1

theorem ready_rolled_back (N : Nat) (hN : N ≤ INT_MAX) (env : IoEnv) (m : measurement_data_t)
    (s : SpiffsState) (xs : List measurement_data_t) (h : Ready N s xs)
    (hlt : s.ring_idx.count < N) :
    Ready N
      (save_spiffs_index env
        { s with
          measurements_file :=
            some (fwrite_at (s.measurements_file.getD []) (rollback_retreat N s.ring_idx).tail m)
          ring_idx := rollback_retreat N s.ring_idx }).2
      (m :: xs) := by
  have h1 := rollback_step N hN
    { env with mutex_taken := true, rec_fopen_ok := true, rec_fopen_wb_ok := true,
               rec_fseek_ok := true, rec_fread_ok := true, rec_fwrite_ok := true }
    m s xs ⟨rfl, rfl, rfl, rfl, rfl, rfl⟩ h hlt
  rw [rollback_ok_state N _ m s h.1 ⟨rfl, rfl, rfl, rfl, rfl, rfl⟩ hlt] at h1
  exact h1

theorem store_ok_ready (N : Nat) (hN : N ≤ INT_MAX) (env : IoEnv) (m : measurement_data_t)
    (s : SpiffsState) (xs : List measurement_data_t) (h : Ready N s xs)
    (hok : (spiffs_store_measurement N env (some m) s).1 = .ESP_OK)
    (hopen : env.rec_fopen_ok = true) :
    Ready N (spiffs_store_measurement N env (some m) s).2
      ((if s.ring_idx.count < N then xs else xs.drop 1) ++
        [store_record s.time_synced env m]) := by
  obtain ⟨f, hf, hst⟩ := store_ok_state N env m s hok
  have e := fopen_opened env _ f hopen hf
  subst e
  rw [hst]
  exact ready_written N hN env m s xs h

theorem rollback_ok_ready (N : Nat) (hN : N ≤ INT_MAX) (env : IoEnv) (m : measurement_data_t)
    (s : SpiffsState) (xs : List measurement_data_t) (h : Ready N s xs)
    (hok : (spiffs_rollback_measurement N env (some m) s).1 = .ESP_OK)
    (hopen : env.rec_fopen_ok = true) :
    Ready N (spiffs_rollback_measurement N env (some m) s).2 (m :: xs) := by
  obtain ⟨_, hlt, f, hf, hst⟩ := rollback_ok_inv N env m s hok
  have e := fopen_opened env _ f hopen hf
  subst e
  rw [hst]
  exact ready_rolled_back N hN env m s xs h hlt

theorem store_opened_ready (N : Nat) (hN : N ≤ INT_MAX) (env : IoEnv) (m : measurement_data_t)
    (s : SpiffsState) (xs : List measurement_data_t) (h : Ready N s xs)
    (hopen : env.rec_fopen_ok = true) :
    Ready N (spiffs_store_measurement N env (some m) s).2 xs ∨
    Ready N (spiffs_store_measurement N env (some m) s).2
      ((if s.ring_idx.count < N then xs else xs.drop 1) ++
        [store_record s.time_synced env m]) := by
  have hinit := h.1
  by_cases hmutex : env.mutex_taken = true
  · cases hf : fopen_rw_or_create env s.measurements_file with
    | none =>
      left
      have e : spiffs_store_measurement N env (some m) s = (.ESP_FAIL, s) := by
        unfold spiffs_store_measurement
        simp [hinit, hmutex, hf]
      rw [e]
      exact h
    | some f =>
      have e0 := fopen_opened env _ f hopen hf
      subst e0
      have hkeep : Ready N { s with measurements_file := some (s.measurements_file.getD []) }
          xs := ⟨h.1, h.2.1, h.2.2.1, h.2.2.2⟩
      by_cases hseek : env.rec_fseek_ok = true
      · by_cases hwrite : env.rec_fwrite_ok = true
        · right
          have e : spiffs_store_measurement N env (some m) s =
              save_spiffs_index env
                { s with
                  measurements_file :=
                    some (fwrite_at (s.measurements_file.getD []) s.ring_idx.head
                      (store_record s.time_synced env m))
                  ring_idx := store_advance N s.ring_idx } := by
            unfold spiffs_store_measurement
            simp [hinit, hmutex, hf, hseek, hwrite]
          rw [e]
          exact ready_written N hN env m s xs h
        · left
          have e : spiffs_store_measurement N env (some m) s =
              (.ESP_FAIL, { s with measurements_file := some (s.measurements_file.getD []) }) := by
            unfold spiffs_store_measurement
            simp [hinit, hmutex, hf, hseek, hwrite]
          rw [e]
          exact hkeep
      · left
        have e : spiffs_store_measurement N env (some m) s =
            (.ESP_FAIL, { s with measurements_file := some (s.measurements_file.getD []) }) := by
          unfold spiffs_store_measurement
          simp [hinit, hmutex, hf, hseek]
        rw [e]
        exact hkeep
  · left
    have e : spiffs_store_measurement N env (some m) s = (.ESP_ERR_TIMEOUT, s) := by
      unfold spiffs_store_measurement
      simp [hinit, hmutex]
    rw [e]
    exact h

/-- When `fopen(MEASUREMENTS_FILE, "r+b")` opens the record file, a
`spiffs_store_measurement` and a `spiffs_rollback_measurement` that return
`ESP_OK` on a ring with `count < N` that holds the records `xs` write no slot
of a live record: every live slot holds afterwards the record it held before,
and later removals whose record-file calls succeed return the records of `xs`
unchanged and in their order, followed by the stored record after a store and
preceded by the rolled-back record after a rollback. -/
theorem opened_file_keeps_live_records (N : Nat) (hN : N ≤ INT_MAX) (s : SpiffsState)
    (xs : List measurement_data_t) (h : Ready N s xs) (hlt : s.ring_idx.count < N)
    (env : IoEnv) (hopen : env.rec_fopen_ok = true) (m : measurement_data_t)
    (gets : List IoEnv) (hgets : ∀ e ∈ gets, io_ok e) (hlen : gets.length = xs.length + 1) :
    ((spiffs_store_measurement N env (some m) s).1 = .ESP_OK →
      Window N ((spiffs_store_measurement N env (some m) s).2.measurements_file.getD [])
        s.ring_idx.tail xs ∧
      (get_all N gets (spiffs_store_measurement N env (some m) s).2).1 =
        (xs ++ [store_record s.time_synced env m]).map
          (fun x => (esp_err_t.ESP_OK, some x))) ∧
    ((spiffs_rollback_measurement N env (some m) s).1 = .ESP_OK →
      Window N ((spiffs_rollback_measurement N env (some m) s).2.measurements_file.getD [])
        s.ring_idx.tail xs ∧
      (get_all N gets (spiffs_rollback_measurement N env (some m) s).2).1 =
        (m :: xs).map (fun x => (esp_err_t.ESP_OK, some x))) := by
  have hN' : N ≤ 2147483647 := hN
  refine ⟨fun hok => ?_, fun hok => ?_⟩
  · have hstore := store_ok_ready N hN env m s xs h hok hopen
    simp only [hlt, if_true] at hstore
    obtain ⟨_, _, _, hidx, _⟩ := store_ok_inv N env m s hok
    have htail : (spiffs_store_measurement N env (some m) s).2.ring_idx.tail =
        s.ring_idx.tail := by
      rw [hidx]
      unfold store_advance
      simp [hlt]
    obtain ⟨hinit, hinv, hcount, hwin⟩ := h
    refine ⟨?_, ?_⟩
    · have hw := window_prefix N _ _ xs _ hstore.2.2.2
      rw [htail] at hw
      exact hw
    · have hg := (get_all_ready N hN gets _ _ hstore (by simp; omega) hgets).1
      rw [hg, List.take_of_length_le (by simp; omega)]
  · have hroll := rollback_ok_ready N hN env m s xs h hok hopen
    obtain ⟨_, _, f, hf, hst⟩ := rollback_ok_inv N env m s hok
    have e0 := fopen_opened env _ f hopen hf
    subst e0
    obtain ⟨hinit, hinv, hcount, hwin⟩ := h
    refine ⟨?_, ?_⟩
    · intro i hi
      have hw := hroll.2.2.2 (i + 1) (by simp; omega)
      rw [hst, save_spiffs_index_ring_idx, save_spiffs_index_measurements_file] at hw
      rw [hst, save_spiffs_index_measurements_file]
      have ht : (rollback_retreat N s.ring_idx).tail = (s.ring_idx.tail + (N - 1)) % N :=
        rollback_tail N s.ring_idx.tail hN hinv.1
      have e : ((rollback_retreat N s.ring_idx).tail + (i + 1)) % N =
          (s.ring_idx.tail + i) % N := by
        rw [ht, Nat.mod_add_mod]
        have e1 : s.ring_idx.tail + (N - 1) + (i + 1) = s.ring_idx.tail + i + N := by
          have := hinv.1
          omega
        rw [e1, Nat.add_mod_right]
      rw [e] at hw
      rw [hw]
      simp
    · have hg := (get_all_ready N hN gets _ _ hroll (by simp; omega) hgets).1
      rw [hg, List.take_of_length_le (by simp; omega)]

/-- C29, the calls that destroy live records: on an initialised module with
the mutex obtained and `count < N`, let `fopen(MEASUREMENTS_FILE, "r+b")`
return NULL (whatever the record file holds) and let every later call
succeed: the `fopen` with mode `"wb"`, `fseek`, `fwrite` and the two calls of
`save_spiffs_index`. Then `spiffs_store_measurement` and
`spiffs_rollback_measurement` return `ESP_OK`, and the record file they leave
holds zero bytes up to the written slot, the new record at that slot and
nothing else: a slot `j` other than the written one reads as a zero record
when it is before the written slot and is past the end of file otherwise. -/
theorem recreated_file_loses_live_records (N : Nat) (env : IoEnv) (m : measurement_data_t)
    (s : SpiffsState) (j : Nat) (hinit : s.spiffs_initialized = true)
    (hlt : s.ring_idx.count < N) (hmutex : env.mutex_taken = true)
    (hopen : env.rec_fopen_ok = false) (hwb : env.rec_fopen_wb_ok = true)
    (hseek : env.rec_fseek_ok = true) (hwrite : env.rec_fwrite_ok = true)
    (hidx : env.idx_fopen_wb_ok = true) (hidxw : env.idx_fwrite_ok = true) :
    (spiffs_store_measurement N env (some m) s).1 = .ESP_OK ∧
    (spiffs_store_measurement N env (some m) s).2.measurements_file =
      some (List.replicate s.ring_idx.head zero_measurement ++
        [store_record s.time_synced env m]) ∧
    (j ≠ s.ring_idx.head →
      ((spiffs_store_measurement N env (some m) s).2.measurements_file.getD [])[j]? =
        if j < s.ring_idx.head then some zero_measurement else none) ∧
    (spiffs_rollback_measurement N env (some m) s).1 = .ESP_OK ∧
    (spiffs_rollback_measurement N env (some m) s).2.measurements_file =
      some (List.replicate (rollback_retreat N s.ring_idx).tail zero_measurement ++ [m]) ∧
    (j ≠ (rollback_retreat N s.ring_idx).tail →
      ((spiffs_rollback_measurement N env (some m) s).2.measurements_file.getD [])[j]? =
        if j < (rollback_retreat N s.ring_idx).tail then some zero_measurement else none) := by
  have hge : ¬ s.ring_idx.count ≥ N := by omega
  have hf : fopen_rw_or_create env s.measurements_file = some [] := by
    unfold fopen_rw_or_create
    simp [hopen, hwb]
  have es : spiffs_store_measurement N env (some m) s =
      (.ESP_OK,
        { s with
          measurements_file :=
            some (List.replicate s.ring_idx.head zero_measurement ++
              [store_record s.time_synced env m])
          ring_idx := store_advance N s.ring_idx
          index_file := .record (store_advance N s.ring_idx) }) := by
    unfold spiffs_store_measurement save_spiffs_index
    simp [hinit, hmutex, hf, hseek, hwrite, hidx, hidxw, fwrite_at_nil]
  have er : spiffs_rollback_measurement N env (some m) s =
      (.ESP_OK,
        { s with
          measurements_file :=
            some (List.replicate (rollback_retreat N s.ring_idx).tail zero_measurement ++ [m])
          ring_idx := rollback_retreat N s.ring_idx
          index_file := .record (rollback_retreat N s.ring_idx) }) := by
    unfold spiffs_rollback_measurement save_spiffs_index
    simp [hinit, hmutex, hge, hf, hseek, hwrite, hidx, hidxw, fwrite_at_nil]
  rw [es, er]
  exact ⟨rfl, rfl, fun hj => recreated_slot _ _ _ hj, rfl, rfl,
    fun hj => recreated_slot _ _ _ hj⟩

/-- Witness of C29: the ring of capacity 3 holds the measurements 5 and 6
(slots 2 and 0, next write at slot 1) and two removals would return them. A
store, or a rollback, of measurement 7 whose `fopen` with mode `"r+b"` fails
returns `ESP_OK` and leaves a file of two records, a zero record and
measurement 7; slot 2 is past its end. After the store the next removals fail;
after the rollback the first one returns measurement 7 and the next ones
fail. -/
theorem recreated_file_loses_live_records_witness :
    ((spiffs_store_measurement 3 recreate_env (some (sample_measurement 7))
        two_record_state).1 = .ESP_OK ∧
      (spiffs_store_measurement 3 recreate_env (some (sample_measurement 7))
        two_record_state).2.measurements_file =
        some (List.replicate two_record_state.ring_idx.head zero_measurement ++
          [store_record two_record_state.time_synced recreate_env (sample_measurement 7)]) ∧
      ((spiffs_store_measurement 3 recreate_env (some (sample_measurement 7))
        two_record_state).2.measurements_file.getD [])[2]? =
        (if 2 < two_record_state.ring_idx.head then some zero_measurement else none) ∧
      (spiffs_rollback_measurement 3 recreate_env (some (sample_measurement 7))
        two_record_state).1 = .ESP_OK ∧
      (spiffs_rollback_measurement 3 recreate_env (some (sample_measurement 7))
        two_record_state).2.measurements_file =
        some (List.replicate (rollback_retreat 3 two_record_state.ring_idx).tail
          zero_measurement ++ [sample_measurement 7]) ∧
      ((spiffs_rollback_measurement 3 recreate_env (some (sample_measurement 7))
        two_record_state).2.measurements_file.getD [])[2]? =
        (if 2 < (rollback_retreat 3 two_record_state.ring_idx).tail then some zero_measurement
          else none)) ∧
    Ready 3 two_record_state [sample_measurement 5, sample_measurement 6] ∧
    (get_all 3 [sample_env, sample_env] two_record_state).1 =
      [(.ESP_OK, some (sample_measurement 5)), (.ESP_OK, some (sample_measurement 6))] ∧
    (get_all 3 [sample_env, sample_env, sample_env]
      (spiffs_store_measurement 3 recreate_env (some (sample_measurement 7))
        two_record_state).2).1 =
      [(.ESP_FAIL, none), (.ESP_FAIL, none), (.ESP_FAIL, none)] ∧
    (get_all 3 [sample_env, sample_env, sample_env]
      (spiffs_rollback_measurement 3 recreate_env (some (sample_measurement 7))
        two_record_state).2).1 =
      [(.ESP_OK, some (sample_measurement 7)), (.ESP_FAIL, none), (.ESP_FAIL, none)] :=
  ⟨⟨(recreated_file_loses_live_records 3 recreate_env (sample_measurement 7) two_record_state 2
        rfl (by decide) rfl rfl rfl rfl rfl rfl rfl).1,
      (recreated_file_loses_live_records 3 recreate_env (sample_measurement 7) two_record_state 2
        rfl (by decide) rfl rfl rfl rfl rfl rfl rfl).2.1,
      (recreated_file_loses_live_records 3 recreate_env (sample_measurement 7) two_record_state 2
        rfl (by decide) rfl rfl rfl rfl rfl rfl rfl).2.2.1 (by decide),
      (recreated_file_loses_live_records 3 recreate_env (sample_measurement 7) two_record_state 2
        rfl (by decide) rfl rfl rfl rfl rfl rfl rfl).2.2.2.1,
      (recreated_file_loses_live_records 3 recreate_env (sample_measurement 7) two_record_state 2
        rfl (by decide) rfl rfl rfl rfl rfl rfl rfl).2.2.2.2.1,
      (recreated_file_loses_live_records 3 recreate_env (sample_measurement 7) two_record_state 2
        rfl (by decide) rfl rfl rfl rfl rfl rfl rfl).2.2.2.2.2 (by decide)⟩,
    by decide, by decide, by decide, by decide⟩

/-! ## Millisecond timestamps at store time -/

/-- Counterexample to C23 as stated: 1800000 s after boot, with time synced and
the wall clock at 1750000000, the measurement stamped 1749999995 (wall clock,
5 s earlier) is stored. Its timestamp satisfies `ts > uptime_s + 60` and
`ts / 1000 <= uptime_s`, and `now - (uptime_s - ts / 1000)` is 1749949999; the
store returns `ESP_OK` and the record written at slot `head` carries
1749999995, unchanged. -/
theorem store_keeps_epoch_timestamp :
    recent_measurement.timestamp > uptime_seconds long_uptime_env + 60 ∧
    recent_measurement.timestamp / 1000 ≤ uptime_seconds long_uptime_env ∧
    u32_sub (time_to_u32 long_uptime_env.now)
      (u32_sub (uptime_seconds long_uptime_env) (recent_measurement.timestamp / 1000)) =
        1749949999 ∧
    (spiffs_store_measurement 3 long_uptime_env (some recent_measurement)
      (sample_state zero_index none)).1 = .ESP_OK ∧
    ((spiffs_store_measurement 3 long_uptime_env (some recent_measurement)
      (sample_state zero_index none)).2.measurements_file.getD [])[0]? =
        some recent_measurement ∧
    recent_measurement.timestamp = 1749999995 := by
  decide

theorem store_ok_written (N : Nat) (env : IoEnv) (m : measurement_data_t) (s : SpiffsState)
    (hok : (spiffs_store_measurement N env (some m) s).1 = .ESP_OK) :
    ((spiffs_store_measurement N env (some m) s).2.measurements_file.getD [])[
      s.ring_idx.head]? = some (store_record s.time_synced env m) := by
  obtain ⟨_, f, _, _, hfile⟩ := store_ok_inv N env m s hok
  rw [hfile]
  simp only [Option.getD_some]
  exact fwrite_at_self _ _ _

/-- C23, amended: with time synced, let a measurement with timestamp
`ts > uptime_s + 60` be stored by a `spiffs_store_measurement` that returns
`ESP_OK`. If `ts > uptime_s * 1000` and `ts / 1000 <= uptime_s` (a
milliseconds-since-boot value of the current second), the record written at
slot `head` carries `now - (uptime_s - ts / 1000)`, which is `(uint32_t)now`;
every other such timestamp, wall-clock timestamps included, is written
unchanged. -/
theorem store_millis_rule (N : Nat) (env : IoEnv) (m : measurement_data_t) (s : SpiffsState)
    (hsync : s.time_synced = true)
    (hok : (spiffs_store_measurement N env (some m) s).1 = .ESP_OK)
    (h1 : m.timestamp > uptime_seconds env + 60) :
    (m.timestamp > uptime_seconds env * 1000 ∧ m.timestamp / 1000 ≤ uptime_seconds env →
      ((spiffs_store_measurement N env (some m) s).2.measurements_file.getD [])[
        s.ring_idx.head]? =
        some { m with
          timestamp :=
            u32_sub (time_to_u32 env.now)
              (u32_sub (uptime_seconds env) (m.timestamp / 1000)) } ∧
      u32_sub (time_to_u32 env.now) (u32_sub (uptime_seconds env) (m.timestamp / 1000)) =
        time_to_u32 env.now) ∧
    (¬ (m.timestamp > uptime_seconds env * 1000 ∧ m.timestamp / 1000 ≤ uptime_seconds env) →
      ((spiffs_store_measurement N env (some m) s).2.measurements_file.getD [])[
        s.ring_idx.head]? = some m) := by
  have hu := uptime_seconds_le env
  have hw := store_ok_written N env m s hok
  have hnow : time_to_u32 env.now < 4294967296 := by
    unfold time_to_u32
    omega
  refine ⟨?_, ?_⟩
  · intro hc
    refine ⟨?_, millis_result_eq _ _ _ hnow hc⟩
    rw [hw]
    unfold store_record
    rw [hsync, store_timestamp_millis _ _ _ hu (by omega) (by omega) hc]
  · intro hc
    rw [hw, store_record_eq_self]
    rw [hsync]
    exact store_timestamp_outside _ _ _ hu (by omega) hc

/-- Witness of C23, amended: 10 s after boot at epoch 1700000600 the stamp
10500 (a millisecond value of the current second) is written as 1700000600;
1800000 s after boot at epoch 1750000000 the wall-clock stamp 1749999995 is
written unchanged. -/
theorem store_millis_rule_witness :
    (((spiffs_store_measurement 3 sample_env (some millis_measurement)
        (sample_state zero_index none)).2.measurements_file.getD [])[
        (sample_state zero_index none).ring_idx.head]? =
        some { millis_measurement with
          timestamp :=
            u32_sub (time_to_u32 sample_env.now)
              (u32_sub (uptime_seconds sample_env) (millis_measurement.timestamp / 1000)) } ∧
      u32_sub (time_to_u32 sample_env.now)
        (u32_sub (uptime_seconds sample_env) (millis_measurement.timestamp / 1000)) =
        time_to_u32 sample_env.now) ∧
    ((spiffs_store_measurement 3 long_uptime_env (some recent_measurement)
      (sample_state zero_index none)).2.measurements_file.getD [])[
      (sample_state zero_index none).ring_idx.head]? = some recent_measurement :=
  ⟨(store_millis_rule 3 sample_env millis_measurement (sample_state zero_index none) rfl
      (by decide) (by decide)).1 (by decide),
    (store_millis_rule 3 long_uptime_env recent_measurement (sample_state zero_index none) rfl
      (by decide) (by decide)).2 (by decide)⟩

/-! ## The link supervisor: attempts, backoff and restart -/

theorem reconnect_connected (l : ReconnectLocals) :
    wifi_reconnect_manager_iteration true l =
      { locals := { failed_attempts := 0, reconnect_interval := 5000 },
        connect_attempted := false, restart := false, delay_ms := 30000 } := by
  unfold wifi_reconnect_manager_iteration
  simp

theorem reconnect_disconnected (l : ReconnectLocals) (hfa : l.failed_attempts < 20)
    (hint : l.reconnect_interval ≤ 300000) :
    (wifi_reconnect_manager_iteration false l).locals.failed_attempts = l.failed_attempts + 1 ∧
    (wifi_reconnect_manager_iteration false l).locals.reconnect_interval ≤ 300000 ∧
    l.reconnect_interval ≤ (wifi_reconnect_manager_iteration false l).locals.reconnect_interval ∧
    (wifi_reconnect_manager_iteration false l).connect_attempted = true ∧
    ((wifi_reconnect_manager_iteration false l).restart = true ↔ l.failed_attempts + 1 = 20) ∧
    ((wifi_reconnect_manager_iteration false l).restart = false →
      (wifi_reconnect_manager_iteration false l).delay_ms =
        (wifi_reconnect_manager_iteration false l).locals.reconnect_interval) := by
  have e1 : u32_add l.failed_attempts 1 = l.failed_attempts + 1 := u32_add_small _ _ (by omega)
  have e2 : u32_mul l.reconnect_interval 2 = l.reconnect_interval * 2 := by
    unfold u32_mul U32; omega
  unfold wifi_reconnect_manager_iteration max_interval
  simp only [e1, e2, Bool.false_eq_true, if_false]
  by_cases h20 : l.failed_attempts + 1 ≥ 20
  · simp only [h20, if_true]
    refine ⟨trivial, ?_, ?_, trivial, ?_, ?_⟩
    · split
      · split <;> omega
      · exact hint
    · split
      · split <;> omega
      · exact Nat.le_refl _
    · constructor
      · intro _; omega
      · intro _; trivial
    · intro h; cases h
  · simp only [h20, if_false]
    refine ⟨trivial, ?_, ?_, trivial, ?_, ?_⟩
    · split
      · split <;> omega
      · exact hint
    · split
      · split <;> omega
      · exact Nat.le_refl _
    · constructor
      · intro h; cases h
      · intro h; omega
    · intro _; trivial

theorem reconnect_run_append (readings : List Bool) (c : Bool) :
    ∀ l : ReconnectLocals, reconnect_run (readings ++ [c]) l =
      reconnect_next (wifi_reconnect_manager_iteration c (reconnect_run readings l)) := by
  induction readings with
  | nil => intro l; rfl
  | cons b rest ih =>
    intro l
    show reconnect_run (rest ++ [c]) _ = _
    rw [ih]
    rfl

theorem attempts_since_connected_append (readings : List Bool) (c : Bool) :
    attempts_since_connected (readings ++ [c]) =
      if c then 0 else (attempts_since_connected readings + 1) % 20 := by
  unfold attempts_since_connected
  rw [List.reverse_append]
  cases c with
  | true => simp
  | false =>
    simp only [List.reverse_cons, List.reverse_nil, List.nil_append, List.singleton_append,
      Bool.false_eq_true, if_false]
    rw [List.takeWhile_cons]
    simp only [Bool.not_false, if_true, List.length_cons]
    omega

theorem reconnect_run_spec (readings : List Bool) :
    (reconnect_run readings reconnect_start).failed_attempts =
      attempts_since_connected readings ∧
    (reconnect_run readings reconnect_start).failed_attempts < 20 ∧
    (reconnect_run readings reconnect_start).reconnect_interval ≤ 300000 := by
  induction readings using List.reverseRecOn with
  | nil => exact ⟨rfl, by decide, by decide⟩
  | append_singleton rest c ih =>
    obtain ⟨h1, h2, h3⟩ := ih
    rw [reconnect_run_append, attempts_since_connected_append]
    cases c with
    | true =>
      rw [reconnect_connected]
      exact ⟨rfl, by decide, by decide⟩
    | false =>
      obtain ⟨d1, d2, _, _, d5, _⟩ := reconnect_disconnected _ h2 h3
      simp only [Bool.false_eq_true, if_false]
      unfold reconnect_next
      by_cases hr : (wifi_reconnect_manager_iteration false
          (reconnect_run rest reconnect_start)).restart = true
      · have h20 := d5.1 hr
        rw [if_pos hr, ← h1, h20]
        exact ⟨rfl, by decide, by decide⟩
      · have hn : ¬ (reconnect_run rest reconnect_start).failed_attempts + 1 = 20 :=
          fun h => hr (d5.2 h)
        rw [if_neg hr, d1, ← h1]
        refine ⟨?_, by omega, d2⟩
        rw [Nat.mod_eq_of_lt (by omega)]

/-- C21: for every sequence of readings of `WIFI_CONNECTED_BIT` since the task
started and every next reading, with `l` the locals before the next iteration:
`failed_attempts` is the number of attempts since the link was last observed
connected or since boot; the iteration calls `esp_restart()` iff it finds the
link down and its attempt is the 20th of them; an iteration that finds the
link up sets the count to 0 and the interval to 5000 ms; and the retry
interval is at most 300000 ms before and after the iteration, as is the delay
of an iteration that retries. -/
theorem restart_at_twentieth_attempt (readings : List Bool) (wifi_connected : Bool) :
    (reconnect_run readings reconnect_start).failed_attempts =
      attempts_since_connected readings ∧
    ((wifi_reconnect_manager_iteration wifi_connected
        (reconnect_run readings reconnect_start)).connect_attempted = true ↔
      wifi_connected = false) ∧
    ((wifi_reconnect_manager_iteration wifi_connected
        (reconnect_run readings reconnect_start)).restart = true ↔
      wifi_connected = false ∧ attempts_since_connected readings + 1 = 20) ∧
    (wifi_connected = true →
      (wifi_reconnect_manager_iteration wifi_connected
        (reconnect_run readings reconnect_start)).locals =
          { reconnect_interval := 5000, failed_attempts := 0 }) ∧
    (reconnect_run readings reconnect_start).reconnect_interval ≤ 300000 ∧
    (wifi_reconnect_manager_iteration wifi_connected
      (reconnect_run readings reconnect_start)).locals.reconnect_interval ≤ 300000 ∧
    ((wifi_reconnect_manager_iteration wifi_connected
        (reconnect_run readings reconnect_start)).restart = false →
      (wifi_reconnect_manager_iteration wifi_connected
        (reconnect_run readings reconnect_start)).delay_ms ≤ 300000) := by
  obtain ⟨h1, h2, h3⟩ := reconnect_run_spec readings
  cases wifi_connected with
  | true =>
    rw [reconnect_connected]
    refine ⟨h1, ?_, ?_, fun _ => rfl, h3, by decide, fun _ => by decide⟩
    · constructor <;> intro h <;> cases h
    · constructor
      · intro h; cases h
      · intro h; cases h.1
  | false =>
    obtain ⟨_, d2, _, d4, d5, d6⟩ := reconnect_disconnected _ h2 h3
    refine ⟨h1, ?_, ?_, (fun h => by cases h), h3, d2, ?_⟩
    · exact ⟨fun _ => rfl, fun _ => d4⟩
    · rw [d5, h1]
      exact ⟨fun h => ⟨rfl, h⟩, fun h => h.2⟩
    · intro h
      rw [d6 h]
      exact d2


/-! ## The consecutive-failure counter and the resolver cache -/

theorem published_scan_consec (id : Int) (st : MqttState) :
    ∀ (fuel i : Nat),
      (published_scan id fuel i st).mqtt_consec_failures = st.mqtt_consec_failures := by
  intro fuel
  induction fuel with
  | zero => intro i; rfl
  | succ fuel ih =>
    intro i
    unfold published_scan
    split
    · split
      · rfl
      · exact ih (i + 1)
    · rfl

theorem handler_counts_failures (env : HandlerEnv) (event : mqtt_event) (st : MqttState)
    (dns : DnsState) (h0 : 0 ≤ st.mqtt_consec_failures) (h2 : st.mqtt_consec_failures ≤ 2) :
    (mqtt_event_handler env event st dns).1.mqtt_consec_failures =
      (if is_connected_event event then 0
        else if is_failure_event event then (st.mqtt_consec_failures + 1) % 3
        else st.mqtt_consec_failures) ∧
    (mqtt_event_handler env event st dns).2 =
      (if is_failure_event event = true ∧ st.mqtt_consec_failures + 1 = 3 then
        (dns_clear_cached_broker_ip env.nvs dns).2
      else dns) := by
  cases event with
  | MQTT_EVENT_CONNECTED => exact ⟨rfl, rfl⟩
  | MQTT_EVENT_DISCONNECTED =>
    unfold mqtt_event_handler count_failure is_connected_event is_failure_event
    dsimp only
    by_cases h : st.mqtt_consec_failures + 1 ≥ 3
    · have e : st.mqtt_consec_failures + 1 = 3 := by omega
      simp [e]
    · have e : ¬ st.mqtt_consec_failures + 1 = 3 := by omega
      simp only [h, e, if_false, and_false, Bool.false_eq_true, if_true]
      refine ⟨?_, trivial⟩
      omega
  | MQTT_EVENT_PUBLISHED msg_id =>
    refine ⟨?_, ?_⟩
    · show (published_scan msg_id _ 0 st).mqtt_consec_failures = _
      rw [published_scan_consec]
      rfl
    · rfl
  | MQTT_EVENT_ERROR =>
    unfold mqtt_event_handler count_failure is_connected_event is_failure_event
    dsimp only
    by_cases h : st.mqtt_consec_failures + 1 ≥ 3
    · have e : st.mqtt_consec_failures + 1 = 3 := by omega
      simp [e]
    · have e : ¬ st.mqtt_consec_failures + 1 = 3 := by omega
      simp only [h, e, if_false, and_false, Bool.false_eq_true, if_true]
      refine ⟨?_, trivial⟩
      omega
  | MQTT_EVENT_DATA => exact ⟨rfl, rfl⟩
  | MQTT_EVENT_OTHER => exact ⟨rfl, rfl⟩

theorem handle_events_append (steps : List (HandlerEnv × mqtt_event)) (env : HandlerEnv)
    (event : mqtt_event) :
    ∀ s : MqttState × DnsState, handle_events (steps ++ [(env, event)]) s =
      mqtt_event_handler env event (handle_events steps s).1 (handle_events steps s).2 := by
  induction steps with
  | nil => intro s; rfl
  | cons p rest ih =>
    intro s
    obtain ⟨e, ev⟩ := p
    show handle_events (rest ++ [(env, event)]) _ = _
    rw [ih]
    rfl

theorem failures_since_reset_append (events : List mqtt_event) (event : mqtt_event) :
    failures_since_reset (events ++ [event]) =
      if is_connected_event event then 0
      else if is_failure_event event then (failures_since_reset events + 1) % 3
      else failures_since_reset events := by
  unfold failures_since_reset
  rw [List.reverse_append]
  simp only [List.reverse_cons, List.reverse_nil, List.nil_append, List.singleton_append]
  rw [List.takeWhile_cons]
  cases event <;> simp [is_connected_event, is_failure_event, List.filter_cons]

theorem handle_events_counter (steps : List (HandlerEnv × mqtt_event)) (st : MqttState)
    (dns : DnsState) (h0 : st.mqtt_consec_failures = 0) :
    (handle_events steps (st, dns)).1.mqtt_consec_failures =
      (failures_since_reset (steps.map Prod.snd) : Int) := by
  induction steps using List.reverseRecOn with
  | nil => simpa [handle_events, failures_since_reset] using h0
  | append_singleton rest p ih =>
    obtain ⟨env, event⟩ := p
    have hlt : failures_since_reset (rest.map Prod.snd) < 3 := Nat.mod_lt _ (by decide)
    rw [handle_events_append, List.map_append, List.map_singleton,
      failures_since_reset_append,
      (handler_counts_failures env event _ _ (by rw [ih]; omega) (by rw [ih]; omega)).1, ih]
    split
    · rfl
    · split
      · omega
      · rfl

/-- C24: for every sequence of events handled since the counter was 0 (as it
is at boot) and every next event: the counter before the event is the number
of DISCONNECTED or ERROR events since the last CONNECTED event or the last
clear; if the event is DISCONNECTED or ERROR and the third of them,
`mqtt_event_handler` leaves the resolver cache as
`dns_clear_cached_broker_ip` leaves it (both keys erased when NVS opens) and
the counter at 0; otherwise the resolver cache is unchanged; CONNECTED sets
the counter to 0; and the counter is 0, 1 or 2 after the event. -/
theorem cache_cleared_at_third_failure (steps : List (HandlerEnv × mqtt_event))
    (env : HandlerEnv) (event : mqtt_event) (st : MqttState) (dns : DnsState)
    (h0 : st.mqtt_consec_failures = 0) :
    (handle_events steps (st, dns)).1.mqtt_consec_failures =
      (failures_since_reset (steps.map Prod.snd) : Int) ∧
    (is_failure_event event = true ∧ failures_since_reset (steps.map Prod.snd) + 1 = 3 →
      (mqtt_event_handler env event (handle_events steps (st, dns)).1
        (handle_events steps (st, dns)).2).2 =
          (dns_clear_cached_broker_ip env.nvs (handle_events steps (st, dns)).2).2 ∧
      (env.nvs.nvs_open_readwrite = .ESP_OK →
        (mqtt_event_handler env event (handle_events steps (st, dns)).1
          (handle_events steps (st, dns)).2).2.nvs =
            { broker_ip := none, broker_ip_ts := none }) ∧
      (mqtt_event_handler env event (handle_events steps (st, dns)).1
        (handle_events steps (st, dns)).2).1.mqtt_consec_failures = 0) ∧
    (¬ (is_failure_event event = true ∧ failures_since_reset (steps.map Prod.snd) + 1 = 3) →
      (mqtt_event_handler env event (handle_events steps (st, dns)).1
        (handle_events steps (st, dns)).2).2 = (handle_events steps (st, dns)).2) ∧
    (is_connected_event event = true →
      (mqtt_event_handler env event (handle_events steps (st, dns)).1
        (handle_events steps (st, dns)).2).1.mqtt_consec_failures = 0) ∧
    0 ≤ (mqtt_event_handler env event (handle_events steps (st, dns)).1
        (handle_events steps (st, dns)).2).1.mqtt_consec_failures ∧
    (mqtt_event_handler env event (handle_events steps (st, dns)).1
        (handle_events steps (st, dns)).2).1.mqtt_consec_failures ≤ 2 := by
  have hc := handle_events_counter steps st dns h0
  have hlt : failures_since_reset (steps.map Prod.snd) < 3 := Nat.mod_lt _ (by decide)
  obtain ⟨k1, k2⟩ := handler_counts_failures env event (handle_events steps (st, dns)).1
    (handle_events steps (st, dns)).2 (by rw [hc]; omega) (by rw [hc]; omega)
  rw [hc] at k1 k2
  refine ⟨hc, ?_, ?_, ?_, ?_, ?_⟩
  · intro h
    have h3 : is_failure_event event = true ∧
        (failures_since_reset (steps.map Prod.snd) : Int) + 1 = 3 := ⟨h.1, by omega⟩
    rw [if_pos h3] at k2
    refine ⟨k2, ?_, ?_⟩
    · intro hopen
      rw [k2]
      unfold dns_clear_cached_broker_ip
      simp [hopen]
    · rw [k1]
      have hf := h.1
      cases event <;> simp_all [is_connected_event, is_failure_event]
  · intro h
    have h3 : ¬ (is_failure_event event = true ∧
        (failures_since_reset (steps.map Prod.snd) : Int) + 1 = 3) :=
      fun h' => h ⟨h'.1, by omega⟩
    rw [if_neg h3] at k2
    exact k2
  · intro h
    rw [k1, if_pos h]
  · rw [k1]
    split
    · exact Int.le_refl _
    · split <;> omega
  · rw [k1]
    split
    · decide
    · split <;> omega

/-- Witness of C24: from boot, a disconnect and an error are handled and a
second disconnect arrives: it is the third failure, the two keys of the
resolver cache are erased and the counter is 0 again. -/
theorem cache_cleared_at_third_failure_witness :
    (mqtt_event_handler sample_handler_env .MQTT_EVENT_DISCONNECTED
      (handle_events two_failures (boot_mqtt_state, sample_dns_state (some 1700000000))).1
      (handle_events two_failures (boot_mqtt_state, sample_dns_state (some 1700000000))).2).2 =
        (dns_clear_cached_broker_ip sample_handler_env.nvs
          (handle_events two_failures
            (boot_mqtt_state, sample_dns_state (some 1700000000))).2).2 ∧
    (mqtt_event_handler sample_handler_env .MQTT_EVENT_DISCONNECTED
      (handle_events two_failures (boot_mqtt_state, sample_dns_state (some 1700000000))).1
      (handle_events two_failures
        (boot_mqtt_state, sample_dns_state (some 1700000000))).2).2.nvs =
        { broker_ip := none, broker_ip_ts := none } ∧
    (mqtt_event_handler sample_handler_env .MQTT_EVENT_DISCONNECTED
      (handle_events two_failures (boot_mqtt_state, sample_dns_state (some 1700000000))).1
      (handle_events two_failures
        (boot_mqtt_state, sample_dns_state (some 1700000000))).2).1.mqtt_consec_failures = 0 :=
  ⟨((cache_cleared_at_third_failure two_failures sample_handler_env .MQTT_EVENT_DISCONNECTED
      boot_mqtt_state (sample_dns_state (some 1700000000)) rfl).2.1 ⟨rfl, by decide⟩).1,
    ((cache_cleared_at_third_failure two_failures sample_handler_env .MQTT_EVENT_DISCONNECTED
      boot_mqtt_state (sample_dns_state (some 1700000000)) rfl).2.1 ⟨rfl, by decide⟩).2.1 rfl,
    ((cache_cleared_at_third_failure two_failures sample_handler_env .MQTT_EVENT_DISCONNECTED
      boot_mqtt_state (sample_dns_state (some 1700000000)) rfl).2.1 ⟨rfl, by decide⟩).2.2⟩


/-! ## An iteration of the publisher that finds a fresh measurement -/

theorem publish_false_keeps (env : PublishEnv) (measurement : Option measurement_data_t)
    (st : MqttState) (h : (mqtt_publish_measurement env measurement st).1 = false) :
    (mqtt_publish_measurement env measurement st).2 = st := by
  cases measurement with
  | none => rfl
  | some m =>
    by_cases h1 : st.mqtt_client = true
    · by_cases h2 : env.mqtt_mutex_taken = true
      · by_cases h3 : env.publish_msg_id ≥ 0
        · simp [mqtt_publish_measurement, h1, h2, h3] at h
        · simp [mqtt_publish_measurement, h1, h2, h3]
      · simp [mqtt_publish_measurement, h1, h2]
    · simp [mqtt_publish_measurement, h1]

theorem publish_true_submitted (env : PublishEnv) (measurement : Option measurement_data_t)
    (st : MqttState) (h : (mqtt_publish_measurement env measurement st).1 = true) :
    0 ≤ env.publish_msg_id ∧ st.mqtt_client = true ∧
    (mqtt_publish_measurement env measurement st).2.mqtt_publish_attempts =
      u32_add st.mqtt_publish_attempts 1 := by
  cases measurement with
  | none => cases h
  | some m =>
    by_cases h1 : st.mqtt_client = true
    · by_cases h2 : env.mqtt_mutex_taken = true
      · by_cases h3 : env.publish_msg_id ≥ 0
        · refine ⟨h3, h1, ?_⟩
          simp only [mqtt_publish_measurement, h1, h2, h3, Bool.not_true, Bool.false_eq_true,
            if_false, if_true]
          unfold pending_append
          split <;> rfl
        · simp [mqtt_publish_measurement, h1, h2, h3] at h
      · simp [mqtt_publish_measurement, h1, h2] at h
    · simp [mqtt_publish_measurement, h1] at h

theorem fresh_iteration_eq (N : Nat) (env : TaskEnv) (ps : PublisherState)
    (measurement : measurement_data_t) (rest : List measurement_data_t)
    (hq : ps.measurement_queue = measurement :: rest) :
    mqtt_publish_task_iteration N env ps =
      if ps.mqtt.mqtt_connected_bit = true then
        if (mqtt_publish_measurement env.direct (some measurement)
            (heartbeat env ps.mqtt)).1 = true then
          { spiffs := ps.spiffs,
            mqtt := (mqtt_publish_measurement env.direct (some measurement)
              (heartbeat env ps.mqtt)).2,
            measurement_queue := rest,
            locals := { ps.locals with processing_spiffs := false } }
        else
          { spiffs := (spiffs_store_measurement N env.store_io (some measurement) ps.spiffs).2,
            mqtt := (mqtt_publish_measurement env.direct (some measurement)
              (heartbeat env ps.mqtt)).2,
            measurement_queue := rest,
            locals := { ps.locals with
              processing_spiffs := false
              failed_publishes := u32_add ps.locals.failed_publishes 1 } }
      else
        { spiffs := (spiffs_store_measurement N env.store_io (some measurement) ps.spiffs).2,
          mqtt := heartbeat env ps.mqtt, measurement_queue := rest,
          locals := { ps.locals with processing_spiffs := false } } := by
  unfold mqtt_publish_task_iteration heartbeat
  rw [hq]

/-- Counterexample to C22 as stated, on three iterations with the broker
session down and measurement 3 in the queue.
(a) The ring of capacity 2 is full with the measurements 1 and 2: the
iteration dequeues measurement 3 and stores it, and the store overwrites the
oldest backlog record: the removals that returned 1 and 2 before the
iteration return 2 and 3 after it.
(b) The ring of capacity 3 holds the measurements 1 and 2 and the `fwrite` of
the store fails: `spiffs_store_measurement` returns `ESP_FAIL`, the iteration
does not look at that value, and measurement 3 has left the queue without
being submitted (the broker state is unchanged) or stored (the ring is
unchanged and holds the measurements 1 and 2 only).
(c) The same ring, and `fopen` with mode `"r+b"` returns NULL in the store:
the store creates the record file anew and returns `ESP_OK`, and the three
removals that follow return two zero records and measurement 3, so the
backlog records 1 and 2 are gone. -/
theorem fresh_store_fails_or_removes_backlog :
    (full_ring_publisher.measurement_queue = [sample_measurement 3] ∧
      (get_all 2 [sample_env, sample_env] full_ring_publisher.spiffs).1 =
        [(.ESP_OK, some (sample_measurement 1)), (.ESP_OK, some (sample_measurement 2))] ∧
      (mqtt_publish_task_iteration 2 (flush_env 1000 1) full_ring_publisher).measurement_queue =
        [] ∧
      (get_all 2 [sample_env, sample_env]
        (mqtt_publish_task_iteration 2 (flush_env 1000 1) full_ring_publisher).spiffs).1 =
        [(.ESP_OK, some (sample_measurement 2)), (.ESP_OK, some (sample_measurement 3))]) ∧
    (backlog_publisher.measurement_queue = [sample_measurement 3] ∧
      backlog_publisher.mqtt.mqtt_connected_bit = false ∧
      (spiffs_store_measurement 3 store_fault_task_env.store_io (some (sample_measurement 3))
        backlog_publisher.spiffs).1 = .ESP_FAIL ∧
      (mqtt_publish_task_iteration 3 store_fault_task_env backlog_publisher).measurement_queue =
        [] ∧
      (mqtt_publish_task_iteration 3 store_fault_task_env backlog_publisher).mqtt =
        backlog_publisher.mqtt ∧
      (mqtt_publish_task_iteration 3 store_fault_task_env backlog_publisher).spiffs =
        backlog_publisher.spiffs ∧
      (get_all 3 [sample_env, sample_env, sample_env]
        (mqtt_publish_task_iteration 3 store_fault_task_env backlog_publisher).spiffs).1 =
        [(.ESP_OK, some (sample_measurement 1)), (.ESP_OK, some (sample_measurement 2)),
          (.ESP_ERR_NOT_FOUND, none)]) ∧
    ((spiffs_store_measurement 3 recreate_task_env.store_io (some (sample_measurement 3))
        backlog_publisher.spiffs).1 = .ESP_OK ∧
      (get_all 3 [sample_env, sample_env] backlog_publisher.spiffs).1 =
        [(.ESP_OK, some (sample_measurement 1)), (.ESP_OK, some (sample_measurement 2))] ∧
      (mqtt_publish_task_iteration 3 recreate_task_env backlog_publisher).measurement_queue =
        [] ∧
      (get_all 3 [sample_env, sample_env, sample_env]
        (mqtt_publish_task_iteration 3 recreate_task_env backlog_publisher).spiffs).1 =
        [(.ESP_OK, some zero_measurement), (.ESP_OK, some zero_measurement),
          (.ESP_OK, some (sample_measurement 3))]) := by
  decide

/-- C22, amended: an iteration of `mqtt_publish_task` that finds `measurement`
at the front of the queue dequeues it. With the broker connected and
`mqtt_publish_measurement` returning true, the measurement was submitted
(`esp_mqtt_client_publish` returned a non-negative id, the attempt is
counted) and the ring is left exactly as it was. Otherwise the ring is left
as `spiffs_store_measurement(measurement)` leaves it and no other ring
operation is run; when that call returns `ESP_OK` the measurement is stored
in the ring: the slot of the old `head` holds its record and the index has
advanced. When moreover `fopen` with mode `"r+b"` opens the record file in
that store, no backlog record leaves the ring other than the oldest one of a
full ring: the ring holds afterwards either the records it held before, or
these followed by the stored one, less the oldest when the ring was full; it
is the latter when the store returns `ESP_OK` or its record-file calls all
succeed. This holds for every value of the batch counter and of
`processing_spiffs`. -/
theorem fresh_measurement_submitted_or_stored (N : Nat) (hN : N ≤ INT_MAX) (env : TaskEnv)
    (ps : PublisherState) (measurement : measurement_data_t)
    (rest : List measurement_data_t) (hq : ps.measurement_queue = measurement :: rest) :
    (mqtt_publish_task_iteration N env ps).measurement_queue = rest ∧
    (ps.mqtt.mqtt_connected_bit = true ∧
      (mqtt_publish_measurement env.direct (some measurement)
        (heartbeat env ps.mqtt)).1 = true →
      (mqtt_publish_task_iteration N env ps).spiffs = ps.spiffs ∧
      (mqtt_publish_task_iteration N env ps).mqtt =
        (mqtt_publish_measurement env.direct (some measurement) (heartbeat env ps.mqtt)).2 ∧
      0 ≤ env.direct.publish_msg_id ∧
      (mqtt_publish_task_iteration N env ps).mqtt.mqtt_publish_attempts =
        u32_add (heartbeat env ps.mqtt).mqtt_publish_attempts 1) ∧
    (¬ (ps.mqtt.mqtt_connected_bit = true ∧
      (mqtt_publish_measurement env.direct (some measurement)
        (heartbeat env ps.mqtt)).1 = true) →
      (mqtt_publish_task_iteration N env ps).spiffs =
        (spiffs_store_measurement N env.store_io (some measurement) ps.spiffs).2 ∧
      (mqtt_publish_task_iteration N env ps).mqtt = heartbeat env ps.mqtt ∧
      ((spiffs_store_measurement N env.store_io (some measurement) ps.spiffs).1 = .ESP_OK →
        ((mqtt_publish_task_iteration N env ps).spiffs.measurements_file.getD [])[
          ps.spiffs.ring_idx.head]? =
          some (store_record ps.spiffs.time_synced env.store_io measurement) ∧
        (mqtt_publish_task_iteration N env ps).spiffs.ring_idx =
          store_advance N ps.spiffs.ring_idx) ∧
      ∀ xs, Ready N ps.spiffs xs → env.store_io.rec_fopen_ok = true →
        ((spiffs_store_measurement N env.store_io (some measurement) ps.spiffs).1 = .ESP_OK ∨
            io_ok env.store_io →
          Ready N (mqtt_publish_task_iteration N env ps).spiffs
            ((if ps.spiffs.ring_idx.count < N then xs else xs.drop 1) ++
              [store_record ps.spiffs.time_synced env.store_io measurement])) ∧
        (Ready N (mqtt_publish_task_iteration N env ps).spiffs xs ∨
          Ready N (mqtt_publish_task_iteration N env ps).spiffs
            ((if ps.spiffs.ring_idx.count < N then xs else xs.drop 1) ++
              [store_record ps.spiffs.time_synced env.store_io measurement]))) := by
  have hstored : (spiffs_store_measurement N env.store_io (some measurement) ps.spiffs).1 =
      .ESP_OK →
      ((spiffs_store_measurement N env.store_io (some measurement)
          ps.spiffs).2.measurements_file.getD [])[ps.spiffs.ring_idx.head]? =
        some (store_record ps.spiffs.time_synced env.store_io measurement) ∧
      (spiffs_store_measurement N env.store_io (some measurement) ps.spiffs).2.ring_idx =
        store_advance N ps.spiffs.ring_idx :=
    fun hok => ⟨store_ok_written N _ _ _ hok, (store_ok_inv N _ _ _ hok).2.choose_spec.2.1⟩
  have hring : ∀ xs, Ready N ps.spiffs xs → env.store_io.rec_fopen_ok = true →
      ((spiffs_store_measurement N env.store_io (some measurement) ps.spiffs).1 = .ESP_OK ∨
          io_ok env.store_io →
        Ready N (spiffs_store_measurement N env.store_io (some measurement) ps.spiffs).2
          ((if ps.spiffs.ring_idx.count < N then xs else xs.drop 1) ++
            [store_record ps.spiffs.time_synced env.store_io measurement])) ∧
      (Ready N (spiffs_store_measurement N env.store_io (some measurement) ps.spiffs).2 xs ∨
        Ready N (spiffs_store_measurement N env.store_io (some measurement) ps.spiffs).2
          ((if ps.spiffs.ring_idx.count < N then xs else xs.drop 1) ++
            [store_record ps.spiffs.time_synced env.store_io measurement])) := by
    intro xs hr hopen
    refine ⟨fun h => ?_, store_opened_ready N hN env.store_io measurement ps.spiffs xs hr hopen⟩
    rcases h with hok | hio
    · exact store_ok_ready N hN env.store_io measurement ps.spiffs xs hr hok hopen
    · exact (store_step N hN env.store_io measurement ps.spiffs xs hio hr).1
  rw [fresh_iteration_eq N env ps measurement rest hq]
  by_cases hc : ps.mqtt.mqtt_connected_bit = true
  · by_cases hp : (mqtt_publish_measurement env.direct (some measurement)
        (heartbeat env ps.mqtt)).1 = true
    · rw [if_pos hc, if_pos hp]
      obtain ⟨p1, _, p3⟩ := publish_true_submitted _ _ _ hp
      exact ⟨rfl, fun _ => ⟨rfl, rfl, p1, p3⟩, fun h => absurd ⟨hc, hp⟩ h⟩
    · rw [if_pos hc, if_neg hp]
      have hf : (mqtt_publish_measurement env.direct (some measurement)
          (heartbeat env ps.mqtt)).1 = false := by
        simpa using hp
      exact ⟨rfl, fun h => absurd h.2 hp,
        fun _ => ⟨rfl, publish_false_keeps _ _ _ hf, hstored, hring⟩⟩
  · rw [if_neg hc]
    exact ⟨rfl, fun h => absurd h.1 hc, fun _ => ⟨rfl, rfl, hstored, hring⟩⟩

/-- Witness of C22: the broker session is down, the ring of capacity 3 holds
the measurements 1 and 2 and the backlog flush is marked active; measurement
3 is dequeued and stored behind them at slot 2. -/
theorem fresh_measurement_submitted_or_stored_witness :
    (mqtt_publish_task_iteration 3 (flush_env 1000 1) backlog_publisher).measurement_queue =
      [] ∧
    (mqtt_publish_task_iteration 3 (flush_env 1000 1) backlog_publisher).spiffs =
      (spiffs_store_measurement 3 (flush_env 1000 1).store_io (some (sample_measurement 3))
        backlog_publisher.spiffs).2 ∧
    (mqtt_publish_task_iteration 3 (flush_env 1000 1) backlog_publisher).mqtt =
      heartbeat (flush_env 1000 1) backlog_publisher.mqtt ∧
    (((mqtt_publish_task_iteration 3 (flush_env 1000 1)
        backlog_publisher).spiffs.measurements_file.getD [])[
        backlog_publisher.spiffs.ring_idx.head]? =
        some (store_record backlog_publisher.spiffs.time_synced (flush_env 1000 1).store_io
          (sample_measurement 3)) ∧
      (mqtt_publish_task_iteration 3 (flush_env 1000 1) backlog_publisher).spiffs.ring_idx =
        store_advance 3 backlog_publisher.spiffs.ring_idx) ∧
    Ready 3 (mqtt_publish_task_iteration 3 (flush_env 1000 1) backlog_publisher).spiffs
      ((if backlog_publisher.spiffs.ring_idx.count < 3 then
          [sample_measurement 1, sample_measurement 2]
        else [sample_measurement 1, sample_measurement 2].drop 1) ++
        [store_record backlog_publisher.spiffs.time_synced (flush_env 1000 1).store_io
          (sample_measurement 3)]) :=
  ⟨(fresh_measurement_submitted_or_stored 3 (by decide) (flush_env 1000 1) backlog_publisher
      (sample_measurement 3) [] rfl).1,
    ((fresh_measurement_submitted_or_stored 3 (by decide) (flush_env 1000 1) backlog_publisher
      (sample_measurement 3) [] rfl).2.2 (by decide)).1,
    ((fresh_measurement_submitted_or_stored 3 (by decide) (flush_env 1000 1) backlog_publisher
      (sample_measurement 3) [] rfl).2.2 (by decide)).2.1,
    ((fresh_measurement_submitted_or_stored 3 (by decide) (flush_env 1000 1) backlog_publisher
      (sample_measurement 3) [] rfl).2.2 (by decide)).2.2.1 (by decide),
    (((fresh_measurement_submitted_or_stored 3 (by decide) (flush_env 1000 1) backlog_publisher
      (sample_measurement 3) [] rfl).2.2 (by decide)).2.2.2
      [sample_measurement 1, sample_measurement 2] (by decide) (by decide)).1
      (Or.inl (by decide))⟩


/-! ## The cached time and the flag `time_synced` -/

theorem time_cache_save_keeps (env : TimeCacheEnv) (t : Int) (st : NtpState) :
    (time_cache_save env t st).2.time_synced = st.time_synced ∧
    (time_cache_save env t st).2.ntp_synced_bit = st.ntp_synced_bit ∧
    (time_cache_save env t st).2.sync_count = st.sync_count ∧
    (time_cache_save env t st).2.last_sync_check = st.last_sync_check ∧
    (time_cache_save env t st).2.current_state = st.current_state := by
  unfold time_cache_save
  split
  · exact ⟨rfl, rfl, rfl, rfl, rfl⟩
  · split <;> exact ⟨rfl, rfl, rfl, rfl, rfl⟩

theorem apply_cached_time_true (env : TimeCacheEnv) (esp_timer_get_time : Nat) (st : NtpState)
    (h : (ntp_apply_cached_time env esp_timer_get_time st).1 = true) :
    ∃ cached : Nat, st.cached_time = some cached ∧ (cached : Int) > 100000 ∧
      ((esp_timer_get_time / 1000000 : Nat) : Int) < NTP_CACHE_MAX_AGE ∧
      (ntp_apply_cached_time env esp_timer_get_time st).2 =
        { st with
          settimeofday := some ((cached : Int) + ((esp_timer_get_time / 1000000 : Nat) : Int))
          time_synced := false, ntp_synced_bit := true } := by
  unfold ntp_apply_cached_time at h ⊢
  dsimp only at h ⊢
  by_cases h1 : (time_cache_load env 0 st).1 = .ESP_OK
  · rw [if_pos h1] at h ⊢
    by_cases h2 : (time_cache_load env 0 st).2 > 100000
    · rw [if_pos h2] at h ⊢
      by_cases h3 : ((esp_timer_get_time / 1000000 : Nat) : Int) < NTP_CACHE_MAX_AGE
      · rw [if_pos h3]
        unfold time_cache_load nvs_get_u32 at h1 h2 ⊢
        cases hc : st.cached_time with
        | none =>
          rw [hc] at h1
          by_cases ho : env.nvs.nvs_open_readonly = .ESP_OK
          · by_cases hg : env.nvs.nvs_get_u32 = .ESP_OK
            · simp [ho, hg] at h1
            · simp [ho, hg] at h1
          · simp [ho] at h1
        | some cached =>
          rw [hc] at h1 h2
          refine ⟨cached, rfl, ?_, h3, ?_⟩
          · by_cases ho : env.nvs.nvs_open_readonly = .ESP_OK
            · by_cases hg : env.nvs.nvs_get_u32 = .ESP_OK
              · simpa [ho, hg] using h2
              · simp [ho, hg] at h1
            · simp [ho] at h1
          · by_cases ho : env.nvs.nvs_open_readonly = .ESP_OK
            · by_cases hg : env.nvs.nvs_get_u32 = .ESP_OK
              · simp [ho, hg]
              · simp [ho, hg] at h1
            · simp [ho] at h1
      · rw [if_neg h3] at h
        cases h
    · rw [if_neg h2] at h
      cases h
  · rw [if_neg h1] at h
    cases h

/-- Counterexample to C25 as stated: the time cache holds 1750000000 and
`ntp_sync_task` starts 5 s after boot with the link up. The cached time is
applied (`time_synced` false, `NTP_SYNCED_BIT` set, clock 1750000005); the
first iteration of the loop, during which no NTP callback runs (`sync_count`
stays 0), finds the bit set and sets `time_synced` to true. -/
theorem cached_time_sets_time_synced :
    (ntp_apply_cached_time sample_cache_env 5000000
      (link_up_ntp_state (some 1750000000))).1 = true ∧
    (ntp_sync_task_start (sample_sync_start_env 1750000005)
      (link_up_ntp_state (some 1750000000))).2.time_synced = false ∧
    (ntp_sync_task_start (sample_sync_start_env 1750000005)
      (link_up_ntp_state (some 1750000000))).2.ntp_synced_bit = true ∧
    (ntp_sync_task_start (sample_sync_start_env 1750000005)
      (link_up_ntp_state (some 1750000000))).2.settimeofday = some 1750000005 ∧
    (ntp_sync_task_iteration quiet_sync_env
      (ntp_sync_task_start (sample_sync_start_env 1750000005)
        (link_up_ntp_state (some 1750000000))).1
      (ntp_sync_task_start (sample_sync_start_env 1750000005)
        (link_up_ntp_state (some 1750000000))).2).2.time_synced = true ∧
    (ntp_sync_task_iteration quiet_sync_env
      (ntp_sync_task_start (sample_sync_start_env 1750000005)
        (link_up_ntp_state (some 1750000000))).1
      (ntp_sync_task_start (sample_sync_start_env 1750000005)
        (link_up_ntp_state (some 1750000000))).2).2.sync_count = 0 := by
  decide

/-- C25, amended: when `ntp_apply_cached_time` returns true at the start of
`ntp_sync_task`, the cache held a value above 100000, the uptime is below
`NTP_CACHE_MAX_AGE`, the clock was set to cached + uptime seconds,
`NTP_SYNCED_BIT` is set and `time_synced` is false, also after the check that
may clear the cache. It stays false only while `current_state` is below
`WIFI_CONNECTED`: an iteration of the loop that runs with `current_state` at
or past `WIFI_CONNECTED` finds the bit set and sets `time_synced` to true
whether or not the NTP callback has run (`sync_count` is unchanged). -/
theorem cached_time_synced_by_first_iteration (env : SyncStartEnv) (st : NtpState)
    (senv : SyncEnv) (cs : system_state_t)
    (h : (ntp_apply_cached_time env.load env.esp_timer_get_time st).1 = true) :
    (∃ cached : Nat, st.cached_time = some cached ∧ (cached : Int) > 100000 ∧
      ((env.esp_timer_get_time / 1000000 : Nat) : Int) < NTP_CACHE_MAX_AGE ∧
      (ntp_apply_cached_time env.load env.esp_timer_get_time st).2.settimeofday =
        some ((cached : Int) + ((env.esp_timer_get_time / 1000000 : Nat) : Int))) ∧
    (ntp_apply_cached_time env.load env.esp_timer_get_time st).2.time_synced = false ∧
    (ntp_apply_cached_time env.load env.esp_timer_get_time st).2.ntp_synced_bit = true ∧
    (ntp_sync_task_start env st).2.time_synced = false ∧
    (ntp_sync_task_start env st).2.ntp_synced_bit = true ∧
    (ntp_sync_task_start env st).2.sync_count = st.sync_count ∧
    (cs.toNat < system_state_t.WIFI_CONNECTED.toNat →
      ntp_sync_task_iteration senv (ntp_sync_task_start env st).1
        { (ntp_sync_task_start env st).2 with current_state := cs } =
        ((ntp_sync_task_start env st).1,
          { (ntp_sync_task_start env st).2 with current_state := cs })) ∧
    (cs.toNat ≥ system_state_t.WIFI_CONNECTED.toNat →
      (ntp_sync_task_iteration senv (ntp_sync_task_start env st).1
        { (ntp_sync_task_start env st).2 with current_state := cs }).2.time_synced = true ∧
      (ntp_sync_task_iteration senv (ntp_sync_task_start env st).1
        { (ntp_sync_task_start env st).2 with current_state := cs }).2.sync_count =
          st.sync_count) := by
  obtain ⟨cached, hc, hgt, hage, hst⟩ := apply_cached_time_true env.load _ st h
  have a1 : (ntp_apply_cached_time env.load env.esp_timer_get_time st).2.time_synced = false := by
    rw [hst]
  have a2 : (ntp_apply_cached_time env.load env.esp_timer_get_time st).2.ntp_synced_bit =
      true := by
    rw [hst]
  have a3 : (ntp_apply_cached_time env.load env.esp_timer_get_time st).2.sync_count =
      st.sync_count := by
    rw [hst]
  have s1 : (ntp_sync_task_start env st).2.time_synced = false ∧
      (ntp_sync_task_start env st).2.ntp_synced_bit = true ∧
      (ntp_sync_task_start env st).2.sync_count = st.sync_count ∧
      (ntp_sync_task_start env st).1.initial_sync_done = false := by
    unfold ntp_sync_task_start ntp_clear_cache
    dsimp only
    split
    · obtain ⟨k1, k2, k3, _, _⟩ := time_cache_save_keeps env.clear 0
        (ntp_apply_cached_time env.load env.esp_timer_get_time st).2
      exact ⟨by rw [k1, a1], by rw [k2, a2], by rw [k3, a3], rfl⟩
    · exact ⟨a1, a2, a3, rfl⟩
  obtain ⟨t1, t2, t3, t4⟩ := s1
  refine ⟨⟨cached, hc, hgt, hage, by rw [hst]⟩, a1, a2, t1, t2, t3, ?_, ?_⟩
  · intro hlow
    have hn : ¬ cs.toNat ≥ system_state_t.WIFI_CONNECTED.toNat := by omega
    unfold ntp_sync_task_iteration
    simp [hn, t1, t4]
  · intro hup
    unfold ntp_sync_task_iteration
    simp [hup, t1, t2, t3]

/-- Witness of C25: the cache holds 1750000000, the task starts 5 s after
boot, and the first iteration runs with `current_state = NTP_SYNCING`. -/
theorem cached_time_synced_by_first_iteration_witness :
    (ntp_sync_task_start (sample_sync_start_env 1750000005)
      (link_up_ntp_state (some 1750000000))).2.time_synced = false ∧
    (ntp_sync_task_start (sample_sync_start_env 1750000005)
      (link_up_ntp_state (some 1750000000))).2.ntp_synced_bit = true ∧
    (ntp_sync_task_iteration quiet_sync_env
      (ntp_sync_task_start (sample_sync_start_env 1750000005)
        (link_up_ntp_state (some 1750000000))).1
      { (ntp_sync_task_start (sample_sync_start_env 1750000005)
          (link_up_ntp_state (some 1750000000))).2 with
        current_state := .NTP_SYNCING }).2.time_synced = true ∧
    (ntp_sync_task_iteration quiet_sync_env
      (ntp_sync_task_start (sample_sync_start_env 1750000005)
        (link_up_ntp_state (some 1750000000))).1
      { (ntp_sync_task_start (sample_sync_start_env 1750000005)
          (link_up_ntp_state (some 1750000000))).2 with
        current_state := .NTP_SYNCING }).2.sync_count =
          (link_up_ntp_state (some 1750000000)).sync_count :=
  ⟨(cached_time_synced_by_first_iteration (sample_sync_start_env 1750000005)
      (link_up_ntp_state (some 1750000000)) quiet_sync_env .NTP_SYNCING (by decide)).2.2.2.1,
    (cached_time_synced_by_first_iteration (sample_sync_start_env 1750000005)
      (link_up_ntp_state (some 1750000000)) quiet_sync_env .NTP_SYNCING
      (by decide)).2.2.2.2.1,
    ((cached_time_synced_by_first_iteration (sample_sync_start_env 1750000005)
      (link_up_ntp_state (some 1750000000)) quiet_sync_env .NTP_SYNCING
      (by decide)).2.2.2.2.2.2.2 (by decide)).1,
    ((cached_time_synced_by_first_iteration (sample_sync_start_env 1750000005)
      (link_up_ntp_state (some 1750000000)) quiet_sync_env .NTP_SYNCING
      (by decide)).2.2.2.2.2.2.2 (by decide)).2⟩

/-! ## The drift monitor -/

theorem callback_keeps_last_sync_check (env : TimeCacheEnv) (tv_sec : Int) (st : NtpState) :
    (time_sync_notification_cb env tv_sec st).last_sync_check = st.last_sync_check := by
  unfold time_sync_notification_cb
  dsimp only
  split
  · rw [(time_cache_save_keeps _ _ _).2.2.2.1]
    split <;> rfl
  · split <;> rfl

/-- C27, what the code does: the answer of `ntp_needs_resync` does not depend
on the sync acknowledgements, for the callback leaves `last_sync_check` as it
is: after any call of `time_sync_notification_cb` the check answers what it
would have answered without it. From boot, a first check at 1700003600, an
acknowledgement at 1700090000 and a check one second later give the answers
false and true (true one second after an acknowledgement); an acknowledgement
at 1700000000 and checks 90000 s and 93600 s later, with no acknowledgement
in between, give false and false. -/
theorem resync_check_ignores_acknowledgements :
    (∀ (env : TimeCacheEnv) (tv_sec now : Int) (st : NtpState),
      (ntp_needs_resync now (time_sync_notification_cb env tv_sec st)).1 =
        (ntp_needs_resync now st).1) ∧
    (ntp_events sample_cache_env
      [.check 1700003600, .acknowledgement 1700090000, .check 1700090001]
      (boot_ntp_state none)).1 = [false, true] ∧
    (ntp_events sample_cache_env
      [.acknowledgement 1700000000, .check 1700090000, .check 1700093600]
      (boot_ntp_state none)).1 = [false, false] := by
  refine ⟨?_, by decide, by decide⟩
  intro env tv_sec now st
  have e := callback_keeps_last_sync_check env tv_sec st
  unfold ntp_needs_resync
  rw [e]
  split
  · rfl
  · split <;> rfl


/-! ## The host name that is resolved -/

theorem starts_with_append (p q : List Char) : starts_with (p ++ q) p = true := by
  induction p with
  | nil => cases q <;> rfl
  | cons c p ih =>
    show (c == c && starts_with (p ++ q) p) = true
    rw [ih]
    simp

theorem strstr_first (sep q : List Char) :
    ∀ pre : List Char,
      (∀ k, k < pre.length → starts_with ((pre ++ (sep ++ q)).drop k) sep = false) →
      strstr (pre ++ (sep ++ q)) sep = some (sep ++ q) := by
  intro pre
  induction pre with
  | nil =>
    intro _
    have hs := starts_with_append sep q
    cases hl : sep ++ q with
    | nil =>
      rw [hl] at hs
      show strstr [] sep = some []
      unfold strstr
      rw [hs]
      rfl
    | cons c rest =>
      rw [hl] at hs
      show strstr (c :: rest) sep = some (c :: rest)
      unfold strstr
      rw [hs]
      rfl
  | cons a pre ih =>
    intro hfirst
    have h0 := hfirst 0 (by simp)
    simp only [List.drop_zero, List.cons_append] at h0
    show strstr (a :: (pre ++ (sep ++ q))) sep = _
    unfold strstr
    rw [h0]
    simp only [Bool.false_eq_true, if_false]
    apply ih
    intro k hk
    have := hfirst (k + 1) (by simp; omega)
    simpa using this

theorem strstr_none (sep : List Char) :
    ∀ s : List Char, (∀ k, k ≤ s.length → starts_with (s.drop k) sep = false) →
      strstr s sep = none := by
  intro s
  induction s with
  | nil =>
    intro h
    have h0 := h 0 (Nat.le_refl _)
    simp only [List.drop_zero] at h0
    unfold strstr
    rw [h0]
    rfl
  | cons a s ih =>
    intro h
    have h0 := h 0 (Nat.zero_le _)
    simp only [List.drop_zero] at h0
    unfold strstr
    rw [h0]
    simp only [Bool.false_eq_true, if_false]
    apply ih
    intro k hk
    have := h (k + 1) (by simp; omega)
    simpa using this

theorem strchr_skip (c : Char) (rest : List Char) :
    ∀ host : List Char, c ∉ host → strchr (host ++ rest) c = strchr rest c := by
  intro host
  induction host with
  | nil => intro _; rfl
  | cons d host ih =>
    intro h
    have hd : d ≠ c := fun e => h (by rw [e]; exact List.mem_cons_self _ _)
    have hh : c ∉ host := fun e => h (List.mem_cons_of_mem _ e)
    rw [← ih hh]
    show (if d = c then some (d :: (host ++ rest)) else strchr (host ++ rest) c) = _
    rw [if_neg hd]

theorem broker_hostname_spec (pre host rest : List Char)
    (hfirst : ∀ k, k < pre.length →
      starts_with ((pre ++ ("://".toList ++ (host ++ rest))).drop k) "://".toList = false)
    (hhost : ':' ∉ host) (hrest : rest = [] ∨ rest.head? = some ':') :
    broker_hostname (pre ++ ("://".toList ++ (host ++ rest))) =
      if host.length < HOSTNAME_SIZE then some host else none := by
  unfold broker_hostname
  rw [strstr_first _ _ pre hfirst]
  have hdrop : ("://".toList ++ (host ++ rest)).drop 3 = host ++ rest := rfl
  simp only [hdrop]
  rw [strchr_skip ':' rest host hhost]
  rcases hrest with h | h
  · subst h
    simp [strchr]
  · cases rest with
    | nil => simp at h
    | cons d r =>
      simp only [List.head?_cons, Option.some.injEq] at h
      subst h
      simp [strchr]

theorem lookups_of_hostname (broker_url hostname : List Char) (ttl : Nat) (env : ResolveEnv)
    (st : DnsState) (h : broker_hostname broker_url = some hostname) :
    0 < (test_dns_resolution broker_url ttl env st).lookups.length ∧
    (test_dns_resolution broker_url ttl env st).lookups =
      List.replicate (test_dns_resolution broker_url ttl env st).lookups.length hostname := by
  unfold test_dns_resolution resolved
  rw [h]
  dsimp only
  cases env.system_lookup <;> cases env.fallback_lookup_1 <;> cases env.fallback_lookup_2 <;>
    cases env.fallback_lookup_3 <;> cases env.fallback_lookup_4 <;>
    first
      | (dsimp only; split <;> simp)
      | simp

/-- C28: let the broker URI be `pre ++ "://" ++ host ++ rest` where `"://"`
starts at no earlier place, `host` holds no colon and `rest` is empty or
starts with a colon. If `host` has fewer than 128 characters,
`test_dns_resolution` makes at least one lookup and every lookup it makes is
for `host` (the list of looked-up names is `host` repeated); if `host` has 128 characters or more, it returns `ESP_FAIL` with
no lookup made and the resolver state unchanged. The same holds for every URI
in which `"://"` starts at no place. -/
theorem hostname_between_separator_and_colon (pre host rest : List Char) (ttl : Nat)
    (env : ResolveEnv) (st : DnsState)
    (hfirst : ∀ k, k < pre.length →
      starts_with ((pre ++ ("://".toList ++ (host ++ rest))).drop k) "://".toList = false)
    (hhost : ':' ∉ host) (hrest : rest = [] ∨ rest.head? = some ':') :
    (host.length < 128 →
      0 < (test_dns_resolution (pre ++ ("://".toList ++ (host ++ rest))) ttl env
        st).lookups.length ∧
      (test_dns_resolution (pre ++ ("://".toList ++ (host ++ rest))) ttl env st).lookups =
        List.replicate
          (test_dns_resolution (pre ++ ("://".toList ++ (host ++ rest))) ttl env
            st).lookups.length host) ∧
    (128 ≤ host.length →
      test_dns_resolution (pre ++ ("://".toList ++ (host ++ rest))) ttl env st =
        { err := .ESP_FAIL, st := st, lookups := [] }) ∧
    (∀ url : List Char,
      (∀ k, k ≤ url.length → starts_with (url.drop k) "://".toList = false) →
      test_dns_resolution url ttl env st = { err := .ESP_FAIL, st := st, lookups := [] }) := by
  have hp := broker_hostname_spec pre host rest hfirst hhost hrest
  refine ⟨?_, ?_, ?_⟩
  · intro hlt
    have hlt' : host.length < HOSTNAME_SIZE := hlt
    rw [if_pos hlt'] at hp
    exact lookups_of_hostname _ host ttl env st hp
  · intro hge
    have hge' : ¬ host.length < HOSTNAME_SIZE := by
      unfold HOSTNAME_SIZE; omega
    rw [if_neg hge'] at hp
    unfold test_dns_resolution
    rw [hp]
  · intro url hnone
    unfold test_dns_resolution broker_hostname
    rw [strstr_none _ url hnone]

/-- Witness of C28: the URI `mqtt://broker.example.org:1883` is resolved as
`broker.example.org`; a URI whose host is 128 letters long fails before any
lookup; a URI without `://` fails before any lookup. -/
theorem hostname_between_separator_and_colon_witness :
    (0 < (test_dns_resolution
        ("mqtt".toList ++ ("://".toList ++ ("broker.example.org".toList ++ ":1883".toList)))
        86400 sample_resolve_env (sample_dns_state none)).lookups.length ∧
      (test_dns_resolution
        ("mqtt".toList ++ ("://".toList ++ ("broker.example.org".toList ++ ":1883".toList)))
        86400 sample_resolve_env (sample_dns_state none)).lookups =
        List.replicate
          (test_dns_resolution
            ("mqtt".toList ++
              ("://".toList ++ ("broker.example.org".toList ++ ":1883".toList)))
            86400 sample_resolve_env (sample_dns_state none)).lookups.length
          "broker.example.org".toList) ∧
    test_dns_resolution ("mqtt".toList ++ ("://".toList ++ (List.replicate 128 'a' ++ [])))
        86400 sample_resolve_env (sample_dns_state none) =
      { err := .ESP_FAIL, st := sample_dns_state none, lookups := [] } ∧
    test_dns_resolution "broker.example.org".toList 86400 sample_resolve_env
        (sample_dns_state none) =
      { err := .ESP_FAIL, st := sample_dns_state none, lookups := [] } :=
  ⟨(hostname_between_separator_and_colon "mqtt".toList "broker.example.org".toList
      ":1883".toList 86400 sample_resolve_env (sample_dns_state none) (by decide) (by decide)
      (Or.inr rfl)).1 (by decide),
    (hostname_between_separator_and_colon "mqtt".toList (List.replicate 128 'a') [] 86400
      sample_resolve_env (sample_dns_state none) (by decide) (by decide)
      (Or.inl rfl)).2.1 (by simp),
    (hostname_between_separator_and_colon "mqtt".toList "broker.example.org".toList
      ":1883".toList 86400 sample_resolve_env (sample_dns_state none) (by decide) (by decide)
      (Or.inr rfl)).2.2 "broker.example.org".toList (by decide)⟩


/-! ## The activity check of the broker supervisor -/

theorem monitor_connected_eq (env : MonitorEnv) (s : MonitorState)
    (hwifi : env.wifi_connected = true) (hmqtt : s.mqtt.mqtt_connected_bit = true) :
    mqtt_monitor_task_iteration env s =
      activity_check env true { s with locals := link_up_edge env s.locals } := by
  unfold mqtt_monitor_task_iteration link_up_edge
  simp only [hwifi, hmqtt, Bool.true_and, Bool.not_true, Bool.false_eq_true, if_false,
    Bool.and_false]

theorem link_up_edge_keeps (env : MonitorEnv) (l : MonitorLocals) :
    (link_up_edge env l).last_activity_check = l.last_activity_check ∧
    (link_up_edge env l).last_publish_count = l.last_publish_count ∧
    (link_up_edge env l).force_recreate = (l.force_recreate || !l.was_wifi_connected) := by
  unfold link_up_edge
  cases hw : l.was_wifi_connected <;> simp

theorem activity_check_due (env : MonitorEnv) (s : MonitorState)
    (hdue : u32_sub env.activity_tick s.locals.last_activity_check >
      env.activity_check_ticks) :
    (s.mqtt.mqtt_messages_sent = s.locals.last_publish_count ∧ env.ring_count > 0 →
      (activity_check env true s).locals.force_recreate = true ∧
      (activity_check env true s).mqtt.mqtt_connected_bit = false) ∧
    (¬ (s.mqtt.mqtt_messages_sent = s.locals.last_publish_count ∧ env.ring_count > 0) →
      (activity_check env true s).locals.last_publish_count = s.mqtt.mqtt_messages_sent ∧
      (activity_check env true s).mqtt = s.mqtt ∧
      (activity_check env true s).locals.force_recreate = s.locals.force_recreate) ∧
    (activity_check env true s).locals.consecutive_failures = 0 ∧
    (activity_check env true s).locals.last_activity_check = env.activity_tick := by
  unfold activity_check
  by_cases hf : s.locals.consecutive_failures > 0
  · by_cases hc : s.mqtt.mqtt_messages_sent = s.locals.last_publish_count ∧ env.ring_count > 0
    · simp [hf, hdue, hc.1, hc.2]
    · simp only [hf, hdue, hc, Bool.true_and, decide_True, if_true, if_false]
      simp
  · have h0 : s.locals.consecutive_failures = 0 := by omega
    by_cases hc : s.mqtt.mqtt_messages_sent = s.locals.last_publish_count ∧ env.ring_count > 0
    · simp [hf, hdue, hc.1, hc.2]
    · simp only [hf, hdue, hc, Bool.true_and, decide_False, if_true, if_false,
        Bool.false_eq_true]
      simp [h0]

/-- Counterexample to C26 as stated: the link is up and was down at the
previous iteration, the broker is connected, 19000 ticks (190 s) have passed
since the last activity check, 7 messages are acknowledged against a previous
sample of 5 and the ring holds 2 records. No stall is declared (the broker
bit stays set, the sample becomes 7), yet `force_recreate`, false before the
iteration, is armed by it. -/
theorem link_edge_arms_force_recreate :
    (sample_monitor_env 20000 2).wifi_connected = true ∧
    (sample_monitor_state false 5).mqtt.mqtt_connected_bit = true ∧
    u32_sub (sample_monitor_env 20000 2).activity_tick
      (sample_monitor_state false 5).locals.last_activity_check >
        (sample_monitor_env 20000 2).activity_check_ticks ∧
    (sample_monitor_state false 5).mqtt.mqtt_messages_sent ≠
      (sample_monitor_state false 5).locals.last_publish_count ∧
    (sample_monitor_state false 5).locals.force_recreate = false ∧
    (mqtt_monitor_task_iteration (sample_monitor_env 20000 2)
      (sample_monitor_state false 5)).locals.last_publish_count = 7 ∧
    (mqtt_monitor_task_iteration (sample_monitor_env 20000 2)
      (sample_monitor_state false 5)).mqtt.mqtt_connected_bit = true ∧
    (mqtt_monitor_task_iteration (sample_monitor_env 20000 2)
      (sample_monitor_state false 5)).locals.force_recreate = true := by
  decide

/-- C26, amended: in an iteration of `mqtt_monitor_task` that reads the link
up and the broker connected and finds more than `pdMS_TO_TICKS(120000)` ticks
passed since `last_activity_check`, the supervisor declares a stall
(`force_recreate` armed, `MQTT_CONNECTED_BIT` cleared, `consecutive_failures`
0) iff `mqtt_messages_sent` equals `last_publish_count` and `ring_idx.count`
is greater than 0. Otherwise it records `mqtt_messages_sent` as the new
sample, leaves the broker session as it is, and leaves `force_recreate` as it
was unless the iteration saw the link come up (`was_wifi_connected` false),
which arms it. Either way the check time is recorded. -/
theorem stall_declared_iff (env : MonitorEnv) (s : MonitorState)
    (hwifi : env.wifi_connected = true) (hmqtt : s.mqtt.mqtt_connected_bit = true)
    (hdue : u32_sub env.activity_tick s.locals.last_activity_check >
      env.activity_check_ticks) :
    (((mqtt_monitor_task_iteration env s).locals.force_recreate = true ∧
        (mqtt_monitor_task_iteration env s).mqtt.mqtt_connected_bit = false ∧
        (mqtt_monitor_task_iteration env s).locals.consecutive_failures = 0) ↔
      (s.mqtt.mqtt_messages_sent = s.locals.last_publish_count ∧ env.ring_count > 0)) ∧
    (¬ (s.mqtt.mqtt_messages_sent = s.locals.last_publish_count ∧ env.ring_count > 0) →
      (mqtt_monitor_task_iteration env s).locals.last_publish_count =
        s.mqtt.mqtt_messages_sent ∧
      (mqtt_monitor_task_iteration env s).mqtt = s.mqtt ∧
      (mqtt_monitor_task_iteration env s).locals.force_recreate =
        (s.locals.force_recreate || !s.locals.was_wifi_connected)) ∧
    (mqtt_monitor_task_iteration env s).locals.last_activity_check = env.activity_tick := by
  rw [monitor_connected_eq env s hwifi hmqtt]
  obtain ⟨k1, k2, k3⟩ := link_up_edge_keeps env s.locals
  have hdue' : u32_sub env.activity_tick
      ({ s with locals := link_up_edge env s.locals } : MonitorState).locals.last_activity_check >
        env.activity_check_ticks := by
    show u32_sub env.activity_tick (link_up_edge env s.locals).last_activity_check > _
    rw [k1]
    exact hdue
  obtain ⟨a1, a2, a3, a4⟩ :=
    activity_check_due env { s with locals := link_up_edge env s.locals } hdue'
  have hcond : (({ s with locals := link_up_edge env s.locals } : MonitorState).mqtt.mqtt_messages_sent =
      ({ s with locals := link_up_edge env s.locals } : MonitorState).locals.last_publish_count ∧
        env.ring_count > 0) ↔
      (s.mqtt.mqtt_messages_sent = s.locals.last_publish_count ∧ env.ring_count > 0) := by
    show (s.mqtt.mqtt_messages_sent = (link_up_edge env s.locals).last_publish_count ∧ _) ↔ _
    rw [k2]
  refine ⟨⟨?_, ?_⟩, ?_, a4⟩
  · intro h
    by_contra hn
    have hb := (a2 (fun h' => hn (hcond.1 h'))).2.1
    have hbit : (activity_check env true
        { s with locals := link_up_edge env s.locals }).mqtt.mqtt_connected_bit = true := by
      rw [hb]
      exact hmqtt
    rw [hbit] at h
    cases h.2.1
  · intro h
    obtain ⟨b1, b2⟩ := a1 (hcond.2 h)
    exact ⟨b1, b2, a3⟩
  · intro hn
    obtain ⟨b1, b2, b3⟩ := a2 (fun h' => hn (hcond.1 h'))
    refine ⟨b1, b2, ?_⟩
    rw [b3]
    exact k3

/-- Witness of C26: the link was already up, the broker is connected, 190 s
have passed since the last check, the 7 acknowledged messages equal the
previous sample and the ring holds 2 records: a stall is declared. -/
theorem stall_declared_iff_witness :
    (mqtt_monitor_task_iteration (sample_monitor_env 20000 2)
      (sample_monitor_state true 7)).locals.force_recreate = true ∧
    (mqtt_monitor_task_iteration (sample_monitor_env 20000 2)
      (sample_monitor_state true 7)).mqtt.mqtt_connected_bit = false ∧
    (mqtt_monitor_task_iteration (sample_monitor_env 20000 2)
      (sample_monitor_state true 7)).locals.consecutive_failures = 0 :=
  (stall_declared_iff (sample_monitor_env 20000 2) (sample_monitor_state true 7) rfl rfl
    (by decide)).1.2 (by decide)


end Datalogger
